import Mathlib

/-!
# ttHHAnalyzer: matrix-element core (`src/Parameters.cc`)

A shallow embedding of the response model (`eta_to_bin`, `Chi2`, `Chi2Corr`,
`transfer_function`), the support solver (`get_support`) and the permutation
enumerator (`get_permutations`) of `MEM`, followed by the properties proved
about them.

Conventions of the embedding.

* `double` values are elements of a linearly ordered field `α` (exact
  arithmetic); the definitions are computable and run on `ℚ`, the theorems
  about square roots and exponentials are stated on `ℝ`.
* The functions of the external numerical library (`TMath`, `<cmath>`,
  `ROOT::Math`) are the fields of the structure `TMath`.
* `std::size_t` and `int` values are `Nat` and `Int`.
* What is written to `std::cout` is returned as a list of lines.
-/

set_option maxRecDepth 100000

namespace MEM

/-! ## Definitions -/

/-! ### Permutation tables

The literal tables of `MEM::get_permutations`, row by row. A row is one
`vector<int>`; `-2` is the sentinel of a lost parton. -/

/-- One table row of eight role slots, the initializer list of a `vector<int>`. -/
def row8 (a b c d e f g h : Int) : List Int := [a, b, c, d, e, f, g, h]

/-- One table row of the nine-jet tables: eight role slots and a ninth entry. -/
def row9 (a b c d e f g h i : Int) : List Int := [a, b, c, d, e, f, g, h, i]

/-- Literal table of get_permutations for nb = 4, nq = 4, lost = [] (Parameters.cc lines 903-974, 72 rows). -/
def vec_8j4b : List (List Int) :=
  [row8 4 5 0 6 7 1 2 3, row8 4 5 0 6 7 2 1 3, row8 4 5 0 6 7 3 1 2,
   row8 4 5 1 6 7 0 2 3, row8 4 5 1 6 7 2 0 3, row8 4 5 1 6 7 3 0 2,
   row8 4 5 2 6 7 0 1 3, row8 4 5 2 6 7 1 0 3, row8 4 5 2 6 7 3 0 1,
   row8 4 5 3 6 7 0 1 2, row8 4 5 3 6 7 1 0 2, row8 4 5 3 6 7 2 0 1,
   row8 4 6 0 5 7 1 2 3, row8 4 6 0 5 7 2 1 3, row8 4 6 0 5 7 3 1 2,
   row8 4 6 1 5 7 0 2 3, row8 4 6 1 5 7 2 0 3, row8 4 6 1 5 7 3 0 2,
   row8 4 6 2 5 7 0 1 3, row8 4 6 2 5 7 1 0 3, row8 4 6 2 5 7 3 0 1,
   row8 4 6 3 5 7 0 1 2, row8 4 6 3 5 7 1 0 2, row8 4 6 3 5 7 2 0 1,
   row8 4 7 0 5 6 1 2 3, row8 4 7 0 5 6 2 1 3, row8 4 7 0 5 6 3 1 2,
   row8 4 7 1 5 6 0 2 3, row8 4 7 1 5 6 2 0 3, row8 4 7 1 5 6 3 0 2,
   row8 4 7 2 5 6 0 1 3, row8 4 7 2 5 6 1 0 3, row8 4 7 2 5 6 3 0 1,
   row8 4 7 3 5 6 0 1 2, row8 4 7 3 5 6 1 0 2, row8 4 7 3 5 6 2 0 1,
   row8 5 6 0 4 7 1 2 3, row8 5 6 0 4 7 2 1 3, row8 5 6 0 4 7 3 1 2,
   row8 5 6 1 4 7 0 2 3, row8 5 6 1 4 7 2 0 3, row8 5 6 1 4 7 3 0 2,
   row8 5 6 2 4 7 0 1 3, row8 5 6 2 4 7 1 0 3, row8 5 6 2 4 7 3 0 1,
   row8 5 6 3 4 7 0 1 2, row8 5 6 3 4 7 1 0 2, row8 5 6 3 4 7 2 0 1,
   row8 5 7 0 4 6 1 2 3, row8 5 7 0 4 6 2 1 3, row8 5 7 0 4 6 3 1 2,
   row8 5 7 1 4 6 0 2 3, row8 5 7 1 4 6 2 0 3, row8 5 7 1 4 6 3 0 2,
   row8 5 7 2 4 6 0 1 3, row8 5 7 2 4 6 1 0 3, row8 5 7 2 4 6 3 0 1,
   row8 5 7 3 4 6 0 1 2, row8 5 7 3 4 6 1 0 2, row8 5 7 3 4 6 2 0 1,
   row8 6 7 0 4 5 1 2 3, row8 6 7 0 4 5 2 1 3, row8 6 7 0 4 5 3 1 2,
   row8 6 7 1 4 5 0 2 3, row8 6 7 1 4 5 2 0 3, row8 6 7 1 4 5 3 0 2,
   row8 6 7 2 4 5 0 1 3, row8 6 7 2 4 5 1 0 3, row8 6 7 2 4 5 3 0 1,
   row8 6 7 3 4 5 0 1 2, row8 6 7 3 4 5 1 0 2, row8 6 7 3 4 5 2 0 1]

/-- Literal table of get_permutations for nb = 4, nq = 4, lost = [1] (Parameters.cc lines 978-1121, 144 rows). -/
def vec_8j4b_1 : List (List Int) :=
  [row8 4 (-2) 0 6 7 1 2 3, row8 4 (-2) 0 6 7 2 1 3, row8 4 (-2) 0 6 7 3 1 2,
   row8 4 (-2) 1 6 7 0 2 3, row8 4 (-2) 1 6 7 2 0 3, row8 4 (-2) 1 6 7 3 0 2,
   row8 4 (-2) 2 6 7 0 1 3, row8 4 (-2) 2 6 7 1 0 3, row8 4 (-2) 2 6 7 3 0 1,
   row8 4 (-2) 3 6 7 0 1 2, row8 4 (-2) 3 6 7 1 0 2, row8 4 (-2) 3 6 7 2 0 1,
   row8 4 (-2) 0 5 7 1 2 3, row8 4 (-2) 0 5 7 2 1 3, row8 4 (-2) 0 5 7 3 1 2,
   row8 4 (-2) 1 5 7 0 2 3, row8 4 (-2) 1 5 7 2 0 3, row8 4 (-2) 1 5 7 3 0 2,
   row8 4 (-2) 2 5 7 0 1 3, row8 4 (-2) 2 5 7 1 0 3, row8 4 (-2) 2 5 7 3 0 1,
   row8 4 (-2) 3 5 7 0 1 2, row8 4 (-2) 3 5 7 1 0 2, row8 4 (-2) 3 5 7 2 0 1,
   row8 4 (-2) 0 5 6 1 2 3, row8 4 (-2) 0 5 6 2 1 3, row8 4 (-2) 0 5 6 3 1 2,
   row8 4 (-2) 1 5 6 0 2 3, row8 4 (-2) 1 5 6 2 0 3, row8 4 (-2) 1 5 6 3 0 2,
   row8 4 (-2) 2 5 6 0 1 3, row8 4 (-2) 2 5 6 1 0 3, row8 4 (-2) 2 5 6 3 0 1,
   row8 4 (-2) 3 5 6 0 1 2, row8 4 (-2) 3 5 6 1 0 2, row8 4 (-2) 3 5 6 2 0 1,
   row8 5 (-2) 0 6 7 1 2 3, row8 5 (-2) 0 6 7 2 1 3, row8 5 (-2) 0 6 7 3 1 2,
   row8 5 (-2) 1 6 7 0 2 3, row8 5 (-2) 1 6 7 2 0 3, row8 5 (-2) 1 6 7 3 0 2,
   row8 5 (-2) 2 6 7 0 1 3, row8 5 (-2) 2 6 7 1 0 3, row8 5 (-2) 2 6 7 3 0 1,
   row8 5 (-2) 3 6 7 0 1 2, row8 5 (-2) 3 6 7 1 0 2, row8 5 (-2) 3 6 7 2 0 1,
   row8 5 (-2) 0 4 7 1 2 3, row8 5 (-2) 0 4 7 2 1 3, row8 5 (-2) 0 4 7 3 1 2,
   row8 5 (-2) 1 4 7 0 2 3, row8 5 (-2) 1 4 7 2 0 3, row8 5 (-2) 1 4 7 3 0 2,
   row8 5 (-2) 2 4 7 0 1 3, row8 5 (-2) 2 4 7 1 0 3, row8 5 (-2) 2 4 7 3 0 1,
   row8 5 (-2) 3 4 7 0 1 2, row8 5 (-2) 3 4 7 1 0 2, row8 5 (-2) 3 4 7 2 0 1,
   row8 5 (-2) 0 4 6 1 2 3, row8 5 (-2) 0 4 6 2 1 3, row8 5 (-2) 0 4 6 3 1 2,
   row8 5 (-2) 1 4 6 0 2 3, row8 5 (-2) 1 4 6 2 0 3, row8 5 (-2) 1 4 6 3 0 2,
   row8 5 (-2) 2 4 6 0 1 3, row8 5 (-2) 2 4 6 1 0 3, row8 5 (-2) 2 4 6 3 0 1,
   row8 5 (-2) 3 4 6 0 1 2, row8 5 (-2) 3 4 6 1 0 2, row8 5 (-2) 3 4 6 2 0 1,
   row8 6 (-2) 0 5 7 1 2 3, row8 6 (-2) 0 5 7 2 1 3, row8 6 (-2) 0 5 7 3 1 2,
   row8 6 (-2) 1 5 7 0 2 3, row8 6 (-2) 1 5 7 2 0 3, row8 6 (-2) 1 5 7 3 0 2,
   row8 6 (-2) 2 5 7 0 1 3, row8 6 (-2) 2 5 7 1 0 3, row8 6 (-2) 2 5 7 3 0 1,
   row8 6 (-2) 3 5 7 0 1 2, row8 6 (-2) 3 5 7 1 0 2, row8 6 (-2) 3 5 7 2 0 1,
   row8 6 (-2) 0 4 7 1 2 3, row8 6 (-2) 0 4 7 2 1 3, row8 6 (-2) 0 4 7 3 1 2,
   row8 6 (-2) 1 4 7 0 2 3, row8 6 (-2) 1 4 7 2 0 3, row8 6 (-2) 1 4 7 3 0 2,
   row8 6 (-2) 2 4 7 0 1 3, row8 6 (-2) 2 4 7 1 0 3, row8 6 (-2) 2 4 7 3 0 1,
   row8 6 (-2) 3 4 7 0 1 2, row8 6 (-2) 3 4 7 1 0 2, row8 6 (-2) 3 4 7 2 0 1,
   row8 6 (-2) 0 4 5 1 2 3, row8 6 (-2) 0 4 5 2 1 3, row8 6 (-2) 0 4 5 3 1 2,
   row8 6 (-2) 1 4 5 0 2 3, row8 6 (-2) 1 4 5 2 0 3, row8 6 (-2) 1 4 5 3 0 2,
   row8 6 (-2) 2 4 5 0 1 3, row8 6 (-2) 2 4 5 1 0 3, row8 6 (-2) 2 4 5 3 0 1,
   row8 6 (-2) 3 4 5 0 1 2, row8 6 (-2) 3 4 5 1 0 2, row8 6 (-2) 3 4 5 2 0 1,
   row8 7 (-2) 0 5 6 1 2 3, row8 7 (-2) 0 5 6 2 1 3, row8 7 (-2) 0 5 6 3 1 2,
   row8 7 (-2) 1 5 6 0 2 3, row8 7 (-2) 1 5 6 2 0 3, row8 7 (-2) 1 5 6 3 0 2,
   row8 7 (-2) 2 5 6 0 1 3, row8 7 (-2) 2 5 6 1 0 3, row8 7 (-2) 2 5 6 3 0 1,
   row8 7 (-2) 3 5 6 0 1 2, row8 7 (-2) 3 5 6 1 0 2, row8 7 (-2) 3 5 6 2 0 1,
   row8 7 (-2) 0 4 6 1 2 3, row8 7 (-2) 0 4 6 2 1 3, row8 7 (-2) 0 4 6 3 1 2,
   row8 7 (-2) 1 4 6 0 2 3, row8 7 (-2) 1 4 6 2 0 3, row8 7 (-2) 1 4 6 3 0 2,
   row8 7 (-2) 2 4 6 0 1 3, row8 7 (-2) 2 4 6 1 0 3, row8 7 (-2) 2 4 6 3 0 1,
   row8 7 (-2) 3 4 6 0 1 2, row8 7 (-2) 3 4 6 1 0 2, row8 7 (-2) 3 4 6 2 0 1,
   row8 7 (-2) 0 4 5 1 2 3, row8 7 (-2) 0 4 5 2 1 3, row8 7 (-2) 0 4 5 3 1 2,
   row8 7 (-2) 1 4 5 0 2 3, row8 7 (-2) 1 4 5 2 0 3, row8 7 (-2) 1 4 5 3 0 2,
   row8 7 (-2) 2 4 5 0 1 3, row8 7 (-2) 2 4 5 1 0 3, row8 7 (-2) 2 4 5 3 0 1,
   row8 7 (-2) 3 4 5 0 1 2, row8 7 (-2) 3 4 5 1 0 2, row8 7 (-2) 3 4 5 2 0 1]

/-- Literal table of get_permutations for nb = 4, nq = 4, lost = [0, 1] (Parameters.cc lines 1125-1196, 72 rows). -/
def vec_8j4b_0_1 : List (List Int) :=
  [row8 (-2) (-2) 0 6 7 1 2 3, row8 (-2) (-2) 0 6 7 2 1 3, row8 (-2) (-2) 0 6 7 3 1 2,
   row8 (-2) (-2) 1 6 7 0 2 3, row8 (-2) (-2) 1 6 7 2 0 3, row8 (-2) (-2) 1 6 7 3 0 2,
   row8 (-2) (-2) 2 6 7 0 1 3, row8 (-2) (-2) 2 6 7 1 0 3, row8 (-2) (-2) 2 6 7 3 0 1,
   row8 (-2) (-2) 3 6 7 0 1 2, row8 (-2) (-2) 3 6 7 1 0 2, row8 (-2) (-2) 3 6 7 2 0 1,
   row8 (-2) (-2) 0 5 7 1 2 3, row8 (-2) (-2) 0 5 7 2 1 3, row8 (-2) (-2) 0 5 7 3 1 2,
   row8 (-2) (-2) 1 5 7 0 2 3, row8 (-2) (-2) 1 5 7 2 0 3, row8 (-2) (-2) 1 5 7 3 0 2,
   row8 (-2) (-2) 2 5 7 0 1 3, row8 (-2) (-2) 2 5 7 1 0 3, row8 (-2) (-2) 2 5 7 3 0 1,
   row8 (-2) (-2) 3 5 7 0 1 2, row8 (-2) (-2) 3 5 7 1 0 2, row8 (-2) (-2) 3 5 7 2 0 1,
   row8 (-2) (-2) 0 5 6 1 2 3, row8 (-2) (-2) 0 5 6 2 1 3, row8 (-2) (-2) 0 5 6 3 1 2,
   row8 (-2) (-2) 1 5 6 0 2 3, row8 (-2) (-2) 1 5 6 2 0 3, row8 (-2) (-2) 1 5 6 3 0 2,
   row8 (-2) (-2) 2 5 6 0 1 3, row8 (-2) (-2) 2 5 6 1 0 3, row8 (-2) (-2) 2 5 6 3 0 1,
   row8 (-2) (-2) 3 5 6 0 1 2, row8 (-2) (-2) 3 5 6 1 0 2, row8 (-2) (-2) 3 5 6 2 0 1,
   row8 (-2) (-2) 0 4 7 1 2 3, row8 (-2) (-2) 0 4 7 2 1 3, row8 (-2) (-2) 0 4 7 3 1 2,
   row8 (-2) (-2) 1 4 7 0 2 3, row8 (-2) (-2) 1 4 7 2 0 3, row8 (-2) (-2) 1 4 7 3 0 2,
   row8 (-2) (-2) 2 4 7 0 1 3, row8 (-2) (-2) 2 4 7 1 0 3, row8 (-2) (-2) 2 4 7 3 0 1,
   row8 (-2) (-2) 3 4 7 0 1 2, row8 (-2) (-2) 3 4 7 1 0 2, row8 (-2) (-2) 3 4 7 2 0 1,
   row8 (-2) (-2) 0 4 6 1 2 3, row8 (-2) (-2) 0 4 6 2 1 3, row8 (-2) (-2) 0 4 6 3 1 2,
   row8 (-2) (-2) 1 4 6 0 2 3, row8 (-2) (-2) 1 4 6 2 0 3, row8 (-2) (-2) 1 4 6 3 0 2,
   row8 (-2) (-2) 2 4 6 0 1 3, row8 (-2) (-2) 2 4 6 1 0 3, row8 (-2) (-2) 2 4 6 3 0 1,
   row8 (-2) (-2) 3 4 6 0 1 2, row8 (-2) (-2) 3 4 6 1 0 2, row8 (-2) (-2) 3 4 6 2 0 1,
   row8 (-2) (-2) 0 4 5 1 2 3, row8 (-2) (-2) 0 4 5 2 1 3, row8 (-2) (-2) 0 4 5 3 1 2,
   row8 (-2) (-2) 1 4 5 0 2 3, row8 (-2) (-2) 1 4 5 2 0 3, row8 (-2) (-2) 1 4 5 3 0 2,
   row8 (-2) (-2) 2 4 5 0 1 3, row8 (-2) (-2) 2 4 5 1 0 3, row8 (-2) (-2) 2 4 5 3 0 1,
   row8 (-2) (-2) 3 4 5 0 1 2, row8 (-2) (-2) 3 4 5 1 0 2, row8 (-2) (-2) 3 4 5 2 0 1]

/-- Literal table of get_permutations for nb = 4, nq = 4, lost = [1, 4] (Parameters.cc lines 1200-1343, 144 rows). -/
def vec_8j4b_1_4 : List (List Int) :=
  [row8 4 (-2) 0 6 (-2) 1 2 3, row8 4 (-2) 0 6 (-2) 2 1 3, row8 4 (-2) 0 6 (-2) 3 1 2,
   row8 4 (-2) 0 7 (-2) 1 2 3, row8 4 (-2) 0 7 (-2) 2 1 3, row8 4 (-2) 0 7 (-2) 3 1 2,
   row8 4 (-2) 1 6 (-2) 0 2 3, row8 4 (-2) 1 6 (-2) 2 0 3, row8 4 (-2) 1 6 (-2) 3 0 2,
   row8 4 (-2) 1 7 (-2) 0 2 3, row8 4 (-2) 1 7 (-2) 2 0 3, row8 4 (-2) 1 7 (-2) 3 0 2,
   row8 4 (-2) 2 6 (-2) 0 1 3, row8 4 (-2) 2 6 (-2) 1 0 3, row8 4 (-2) 2 6 (-2) 3 0 1,
   row8 4 (-2) 2 7 (-2) 0 1 3, row8 4 (-2) 2 7 (-2) 1 0 3, row8 4 (-2) 2 7 (-2) 3 0 1,
   row8 4 (-2) 3 6 (-2) 0 1 2, row8 4 (-2) 3 6 (-2) 1 0 2, row8 4 (-2) 3 6 (-2) 2 0 1,
   row8 4 (-2) 3 7 (-2) 0 1 2, row8 4 (-2) 3 7 (-2) 1 0 2, row8 4 (-2) 3 7 (-2) 2 0 1,
   row8 4 (-2) 0 5 (-2) 1 2 3, row8 4 (-2) 0 5 (-2) 2 1 3, row8 4 (-2) 0 5 (-2) 3 1 2,
   row8 4 (-2) 1 5 (-2) 0 2 3, row8 4 (-2) 1 5 (-2) 2 0 3, row8 4 (-2) 1 5 (-2) 3 0 2,
   row8 4 (-2) 2 5 (-2) 0 1 3, row8 4 (-2) 2 5 (-2) 1 0 3, row8 4 (-2) 2 5 (-2) 3 0 1,
   row8 4 (-2) 3 5 (-2) 0 1 2, row8 4 (-2) 3 5 (-2) 1 0 2, row8 4 (-2) 3 5 (-2) 2 0 1,
   row8 5 (-2) 0 6 (-2) 1 2 3, row8 5 (-2) 0 6 (-2) 2 1 3, row8 5 (-2) 0 6 (-2) 3 1 2,
   row8 5 (-2) 0 7 (-2) 1 2 3, row8 5 (-2) 0 7 (-2) 2 1 3, row8 5 (-2) 0 7 (-2) 3 1 2,
   row8 5 (-2) 1 6 (-2) 0 2 3, row8 5 (-2) 1 6 (-2) 2 0 3, row8 5 (-2) 1 6 (-2) 3 0 2,
   row8 5 (-2) 1 7 (-2) 0 2 3, row8 5 (-2) 1 7 (-2) 2 0 3, row8 5 (-2) 1 7 (-2) 3 0 2,
   row8 5 (-2) 2 6 (-2) 0 1 3, row8 5 (-2) 2 6 (-2) 1 0 3, row8 5 (-2) 2 6 (-2) 3 0 1,
   row8 5 (-2) 2 7 (-2) 0 1 3, row8 5 (-2) 2 7 (-2) 1 0 3, row8 5 (-2) 2 7 (-2) 3 0 1,
   row8 5 (-2) 3 6 (-2) 0 1 2, row8 5 (-2) 3 6 (-2) 1 0 2, row8 5 (-2) 3 6 (-2) 2 0 1,
   row8 5 (-2) 3 7 (-2) 0 1 2, row8 5 (-2) 3 7 (-2) 1 0 2, row8 5 (-2) 3 7 (-2) 2 0 1,
   row8 5 (-2) 0 4 (-2) 1 2 3, row8 5 (-2) 0 4 (-2) 2 1 3, row8 5 (-2) 0 4 (-2) 3 1 2,
   row8 5 (-2) 1 4 (-2) 0 2 3, row8 5 (-2) 1 4 (-2) 2 0 3, row8 5 (-2) 1 4 (-2) 3 0 2,
   row8 5 (-2) 2 4 (-2) 0 1 3, row8 5 (-2) 2 4 (-2) 1 0 3, row8 5 (-2) 2 4 (-2) 3 0 1,
   row8 5 (-2) 3 4 (-2) 0 1 2, row8 5 (-2) 3 4 (-2) 1 0 2, row8 5 (-2) 3 4 (-2) 2 0 1,
   row8 6 (-2) 0 5 (-2) 1 2 3, row8 6 (-2) 0 5 (-2) 2 1 3, row8 6 (-2) 0 5 (-2) 3 1 2,
   row8 6 (-2) 0 7 (-2) 1 2 3, row8 6 (-2) 0 7 (-2) 2 1 3, row8 6 (-2) 0 7 (-2) 3 1 2,
   row8 6 (-2) 1 5 (-2) 0 2 3, row8 6 (-2) 1 5 (-2) 2 0 3, row8 6 (-2) 1 5 (-2) 3 0 2,
   row8 6 (-2) 1 7 (-2) 0 2 3, row8 6 (-2) 1 7 (-2) 2 0 3, row8 6 (-2) 1 7 (-2) 3 0 2,
   row8 6 (-2) 2 5 (-2) 0 1 3, row8 6 (-2) 2 5 (-2) 1 0 3, row8 6 (-2) 2 5 (-2) 3 0 1,
   row8 6 (-2) 2 7 (-2) 0 1 3, row8 6 (-2) 2 7 (-2) 1 0 3, row8 6 (-2) 2 7 (-2) 3 0 1,
   row8 6 (-2) 3 5 (-2) 0 1 2, row8 6 (-2) 3 5 (-2) 1 0 2, row8 6 (-2) 3 5 (-2) 2 0 1,
   row8 6 (-2) 3 7 (-2) 0 1 2, row8 6 (-2) 3 7 (-2) 1 0 2, row8 6 (-2) 3 7 (-2) 2 0 1,
   row8 6 (-2) 0 4 (-2) 1 2 3, row8 6 (-2) 0 4 (-2) 2 1 3, row8 6 (-2) 0 4 (-2) 3 1 2,
   row8 6 (-2) 1 4 (-2) 0 2 3, row8 6 (-2) 1 4 (-2) 2 0 3, row8 6 (-2) 1 4 (-2) 3 0 2,
   row8 6 (-2) 2 4 (-2) 0 1 3, row8 6 (-2) 2 4 (-2) 1 0 3, row8 6 (-2) 2 4 (-2) 3 0 1,
   row8 6 (-2) 3 4 (-2) 0 1 2, row8 6 (-2) 3 4 (-2) 1 0 2, row8 6 (-2) 3 4 (-2) 2 0 1,
   row8 7 (-2) 0 5 (-2) 1 2 3, row8 7 (-2) 0 5 (-2) 2 1 3, row8 7 (-2) 0 5 (-2) 3 1 2,
   row8 7 (-2) 0 6 (-2) 1 2 3, row8 7 (-2) 0 6 (-2) 2 1 3, row8 7 (-2) 0 6 (-2) 3 1 2,
   row8 7 (-2) 1 5 (-2) 0 2 3, row8 7 (-2) 1 5 (-2) 2 0 3, row8 7 (-2) 1 5 (-2) 3 0 2,
   row8 7 (-2) 1 6 (-2) 0 2 3, row8 7 (-2) 1 6 (-2) 2 0 3, row8 7 (-2) 1 6 (-2) 3 0 2,
   row8 7 (-2) 2 5 (-2) 0 1 3, row8 7 (-2) 2 5 (-2) 1 0 3, row8 7 (-2) 2 5 (-2) 3 0 1,
   row8 7 (-2) 2 6 (-2) 0 1 3, row8 7 (-2) 2 6 (-2) 1 0 3, row8 7 (-2) 2 6 (-2) 3 0 1,
   row8 7 (-2) 3 5 (-2) 0 1 2, row8 7 (-2) 3 5 (-2) 1 0 2, row8 7 (-2) 3 5 (-2) 2 0 1,
   row8 7 (-2) 3 6 (-2) 0 1 2, row8 7 (-2) 3 6 (-2) 1 0 2, row8 7 (-2) 3 6 (-2) 2 0 1,
   row8 7 (-2) 0 4 (-2) 1 2 3, row8 7 (-2) 0 4 (-2) 2 1 3, row8 7 (-2) 0 4 (-2) 3 1 2,
   row8 7 (-2) 1 4 (-2) 0 2 3, row8 7 (-2) 1 4 (-2) 2 0 3, row8 7 (-2) 1 4 (-2) 3 0 2,
   row8 7 (-2) 2 4 (-2) 0 1 3, row8 7 (-2) 2 4 (-2) 1 0 3, row8 7 (-2) 2 4 (-2) 3 0 1,
   row8 7 (-2) 3 4 (-2) 0 1 2, row8 7 (-2) 3 4 (-2) 1 0 2, row8 7 (-2) 3 4 (-2) 2 0 1]

/-- Literal table of get_permutations for nb = 4, nq = 4, lost = [0, 1, 3, 4] (Parameters.cc lines 1348-1359, 12 rows). -/
def vec_8j4b_0_1_3_4 : List (List Int) :=
  [row8 (-2) (-2) 0 (-2) (-2) 1 2 3, row8 (-2) (-2) 0 (-2) (-2) 2 1 3, row8 (-2) (-2) 0 (-2) (-2) 3 1 2,
   row8 (-2) (-2) 1 (-2) (-2) 0 2 3, row8 (-2) (-2) 1 (-2) (-2) 2 0 3, row8 (-2) (-2) 1 (-2) (-2) 3 0 2,
   row8 (-2) (-2) 2 (-2) (-2) 0 1 3, row8 (-2) (-2) 2 (-2) (-2) 1 0 3, row8 (-2) (-2) 2 (-2) (-2) 3 0 1,
   row8 (-2) (-2) 3 (-2) (-2) 0 1 2, row8 (-2) (-2) 3 (-2) (-2) 1 0 2, row8 (-2) (-2) 3 (-2) (-2) 2 0 1]

/-- Literal table of get_permutations for nb = 4, nq = 4, lost = [0, 1, 3, 4, 2] (Parameters.cc lines 1364-1375, 12 rows). -/
def vec_8j4b_0_1_3_4_2 : List (List Int) :=
  [row8 (-2) (-2) (-2) (-2) (-2) 1 2 3, row8 (-2) (-2) (-2) (-2) (-2) 2 1 3, row8 (-2) (-2) (-2) (-2) (-2) 3 1 2,
   row8 (-2) (-2) (-2) (-2) (-2) 0 2 3, row8 (-2) (-2) (-2) (-2) (-2) 2 0 3, row8 (-2) (-2) (-2) (-2) (-2) 3 0 2,
   row8 (-2) (-2) (-2) (-2) (-2) 0 1 3, row8 (-2) (-2) (-2) (-2) (-2) 1 0 3, row8 (-2) (-2) (-2) (-2) (-2) 3 0 1,
   row8 (-2) (-2) (-2) (-2) (-2) 0 1 2, row8 (-2) (-2) (-2) (-2) (-2) 1 0 2, row8 (-2) (-2) (-2) (-2) (-2) 2 0 1]

/-- Literal table of get_permutations for nb = 3, nq = 5, lost = [2] (Parameters.cc lines 1382-1471, 90 rows). -/
def vec_8j3b_2 : List (List Int) :=
  [row8 3 4 (-2) 6 7 0 1 2, row8 3 4 (-2) 6 7 1 0 2, row8 3 4 (-2) 6 7 2 0 1,
   row8 3 4 (-2) 5 7 0 1 2, row8 3 4 (-2) 5 7 1 0 2, row8 3 4 (-2) 5 7 2 0 1,
   row8 3 4 (-2) 5 6 0 1 2, row8 3 4 (-2) 5 6 1 0 2, row8 3 4 (-2) 5 6 2 0 1,
   row8 3 5 (-2) 6 7 0 1 2, row8 3 5 (-2) 6 7 1 0 2, row8 3 5 (-2) 6 7 2 0 1,
   row8 3 5 (-2) 4 7 0 1 2, row8 3 5 (-2) 4 7 1 0 2, row8 3 5 (-2) 4 7 2 0 1,
   row8 3 5 (-2) 4 6 0 1 2, row8 3 5 (-2) 4 6 1 0 2, row8 3 5 (-2) 4 6 2 0 1,
   row8 3 6 (-2) 5 7 0 1 2, row8 3 6 (-2) 5 7 1 0 2, row8 3 6 (-2) 5 7 2 0 1,
   row8 3 6 (-2) 4 7 0 1 2, row8 3 6 (-2) 4 7 1 0 2, row8 3 6 (-2) 4 7 2 0 1,
   row8 3 6 (-2) 4 5 0 1 2, row8 3 6 (-2) 4 5 1 0 2, row8 3 6 (-2) 4 5 2 0 1,
   row8 3 7 (-2) 5 6 0 1 2, row8 3 7 (-2) 5 6 1 0 2, row8 3 7 (-2) 5 6 2 0 1,
   row8 3 7 (-2) 4 6 0 1 2, row8 3 7 (-2) 4 6 1 0 2, row8 3 7 (-2) 4 6 2 0 1,
   row8 3 7 (-2) 4 5 0 1 2, row8 3 7 (-2) 4 5 1 0 2, row8 3 7 (-2) 4 5 2 0 1,
   row8 4 5 (-2) 6 7 0 1 2, row8 4 5 (-2) 6 7 1 0 2, row8 4 5 (-2) 6 7 2 0 1,
   row8 4 5 (-2) 3 7 0 1 2, row8 4 5 (-2) 3 7 1 0 2, row8 4 5 (-2) 3 7 2 0 1,
   row8 4 5 (-2) 3 6 0 1 2, row8 4 5 (-2) 3 6 1 0 2, row8 4 5 (-2) 3 6 2 0 1,
   row8 4 6 (-2) 5 7 0 1 2, row8 4 6 (-2) 5 7 1 0 2, row8 4 6 (-2) 5 7 2 0 1,
   row8 4 6 (-2) 3 7 0 1 2, row8 4 6 (-2) 3 7 1 0 2, row8 4 6 (-2) 3 7 2 0 1,
   row8 4 6 (-2) 3 5 0 1 2, row8 4 6 (-2) 3 5 1 0 2, row8 4 6 (-2) 3 5 2 0 1,
   row8 4 7 (-2) 5 6 0 1 2, row8 4 7 (-2) 5 6 1 0 2, row8 4 7 (-2) 5 6 2 0 1,
   row8 4 7 (-2) 3 6 0 1 2, row8 4 7 (-2) 3 6 1 0 2, row8 4 7 (-2) 3 6 2 0 1,
   row8 4 7 (-2) 3 5 0 1 2, row8 4 7 (-2) 3 5 1 0 2, row8 4 7 (-2) 3 5 2 0 1,
   row8 5 6 (-2) 4 7 0 1 2, row8 5 6 (-2) 4 7 1 0 2, row8 5 6 (-2) 4 7 2 0 1,
   row8 5 6 (-2) 3 7 0 1 2, row8 5 6 (-2) 3 7 1 0 2, row8 5 6 (-2) 3 7 2 0 1,
   row8 5 6 (-2) 3 4 0 1 2, row8 5 6 (-2) 3 4 1 0 2, row8 5 6 (-2) 3 4 2 0 1,
   row8 5 7 (-2) 4 6 0 1 2, row8 5 7 (-2) 4 6 1 0 2, row8 5 7 (-2) 4 6 2 0 1,
   row8 5 7 (-2) 3 6 0 1 2, row8 5 7 (-2) 3 6 1 0 2, row8 5 7 (-2) 3 6 2 0 1,
   row8 5 7 (-2) 3 4 0 1 2, row8 5 7 (-2) 3 4 1 0 2, row8 5 7 (-2) 3 4 2 0 1,
   row8 6 7 (-2) 4 5 0 1 2, row8 6 7 (-2) 4 5 1 0 2, row8 6 7 (-2) 4 5 2 0 1,
   row8 6 7 (-2) 3 5 0 1 2, row8 6 7 (-2) 3 5 1 0 2, row8 6 7 (-2) 3 5 2 0 1,
   row8 6 7 (-2) 3 4 0 1 2, row8 6 7 (-2) 3 4 1 0 2, row8 6 7 (-2) 3 4 2 0 1]

/-- Literal table of get_permutations for nb = 3, nq = 5, lost = [7] (Parameters.cc lines 1475-1654, 180 rows). -/
def vec_8j3b_7 : List (List Int) :=
  [row8 3 4 2 6 7 0 1 (-2), row8 3 4 2 6 7 1 0 (-2), row8 3 4 1 6 7 2 0 (-2),
   row8 3 4 2 5 7 0 1 (-2), row8 3 4 2 5 7 1 0 (-2), row8 3 4 1 5 7 2 0 (-2),
   row8 3 4 2 5 6 0 1 (-2), row8 3 4 2 5 6 1 0 (-2), row8 3 4 1 5 6 2 0 (-2),
   row8 3 5 2 6 7 0 1 (-2), row8 3 5 2 6 7 1 0 (-2), row8 3 5 1 6 7 2 0 (-2),
   row8 3 5 2 4 7 0 1 (-2), row8 3 5 2 4 7 1 0 (-2), row8 3 5 1 4 7 2 0 (-2),
   row8 3 5 2 4 6 0 1 (-2), row8 3 5 2 4 6 1 0 (-2), row8 3 5 1 4 6 2 0 (-2),
   row8 3 6 2 5 7 0 1 (-2), row8 3 6 2 5 7 1 0 (-2), row8 3 6 1 5 7 2 0 (-2),
   row8 3 6 2 4 7 0 1 (-2), row8 3 6 2 4 7 1 0 (-2), row8 3 6 1 4 7 2 0 (-2),
   row8 3 6 2 4 5 0 1 (-2), row8 3 6 2 4 5 1 0 (-2), row8 3 6 1 4 5 2 0 (-2),
   row8 3 7 2 5 6 0 1 (-2), row8 3 7 2 5 6 1 0 (-2), row8 3 7 1 5 6 2 0 (-2),
   row8 3 7 2 4 6 0 1 (-2), row8 3 7 2 4 6 1 0 (-2), row8 3 7 1 4 6 2 0 (-2),
   row8 3 7 2 4 5 0 1 (-2), row8 3 7 2 4 5 1 0 (-2), row8 3 7 1 4 5 2 0 (-2),
   row8 4 5 2 6 7 0 1 (-2), row8 4 5 2 6 7 1 0 (-2), row8 4 5 1 6 7 2 0 (-2),
   row8 4 5 2 3 7 0 1 (-2), row8 4 5 2 3 7 1 0 (-2), row8 4 5 1 3 7 2 0 (-2),
   row8 4 5 2 3 6 0 1 (-2), row8 4 5 2 3 6 1 0 (-2), row8 4 5 1 3 6 2 0 (-2),
   row8 4 6 2 5 7 0 1 (-2), row8 4 6 2 5 7 1 0 (-2), row8 4 6 1 5 7 2 0 (-2),
   row8 4 6 2 3 7 0 1 (-2), row8 4 6 2 3 7 1 0 (-2), row8 4 6 1 3 7 2 0 (-2),
   row8 4 6 2 3 5 0 1 (-2), row8 4 6 2 3 5 1 0 (-2), row8 4 6 1 3 5 2 0 (-2),
   row8 4 7 2 5 6 0 1 (-2), row8 4 7 2 5 6 1 0 (-2), row8 4 7 1 5 6 2 0 (-2),
   row8 4 7 2 3 6 0 1 (-2), row8 4 7 2 3 6 1 0 (-2), row8 4 7 1 3 6 2 0 (-2),
   row8 4 7 2 3 5 0 1 (-2), row8 4 7 2 3 5 1 0 (-2), row8 4 7 1 3 5 2 0 (-2),
   row8 5 6 2 4 7 0 1 (-2), row8 5 6 2 4 7 1 0 (-2), row8 5 6 1 4 7 2 0 (-2),
   row8 5 6 2 3 7 0 1 (-2), row8 5 6 2 3 7 1 0 (-2), row8 5 6 1 3 7 2 0 (-2),
   row8 5 6 2 3 4 0 1 (-2), row8 5 6 2 3 4 1 0 (-2), row8 5 6 1 3 4 2 0 (-2),
   row8 5 7 2 4 6 0 1 (-2), row8 5 7 2 4 6 1 0 (-2), row8 5 7 1 4 6 2 0 (-2),
   row8 5 7 2 3 6 0 1 (-2), row8 5 7 2 3 6 1 0 (-2), row8 5 7 1 3 6 2 0 (-2),
   row8 5 7 2 3 4 0 1 (-2), row8 5 7 2 3 4 1 0 (-2), row8 5 7 1 3 4 2 0 (-2),
   row8 6 7 2 4 5 0 1 (-2), row8 6 7 2 4 5 1 0 (-2), row8 6 7 1 4 5 2 0 (-2),
   row8 6 7 2 3 5 0 1 (-2), row8 6 7 2 3 5 1 0 (-2), row8 6 7 1 3 5 2 0 (-2),
   row8 6 7 2 3 4 0 1 (-2), row8 6 7 2 3 4 1 0 (-2), row8 6 7 1 3 4 2 0 (-2),
   row8 3 4 0 6 7 2 1 (-2), row8 3 4 1 6 7 2 0 (-2), row8 3 4 2 6 7 1 0 (-2),
   row8 3 4 0 5 7 2 1 (-2), row8 3 4 1 5 7 2 0 (-2), row8 3 4 2 5 7 1 0 (-2),
   row8 3 4 0 5 6 2 1 (-2), row8 3 4 1 5 6 2 0 (-2), row8 3 4 2 5 6 1 0 (-2),
   row8 3 5 0 6 7 2 1 (-2), row8 3 5 1 6 7 2 0 (-2), row8 3 5 2 6 7 1 0 (-2),
   row8 3 5 0 4 7 2 1 (-2), row8 3 5 1 4 7 2 0 (-2), row8 3 5 2 4 7 1 0 (-2),
   row8 3 5 0 4 6 2 1 (-2), row8 3 5 1 4 6 2 0 (-2), row8 3 5 2 4 6 1 0 (-2),
   row8 3 6 0 5 7 2 1 (-2), row8 3 6 1 5 7 2 0 (-2), row8 3 6 2 5 7 1 0 (-2),
   row8 3 6 0 4 7 2 1 (-2), row8 3 6 1 4 7 2 0 (-2), row8 3 6 2 4 7 1 0 (-2),
   row8 3 6 0 4 5 2 1 (-2), row8 3 6 1 4 5 2 0 (-2), row8 3 6 2 4 5 1 0 (-2),
   row8 3 7 0 5 6 2 1 (-2), row8 3 7 1 5 6 2 0 (-2), row8 3 7 2 5 6 1 0 (-2),
   row8 3 7 0 4 6 2 1 (-2), row8 3 7 1 4 6 2 0 (-2), row8 3 7 2 4 6 1 0 (-2),
   row8 3 7 0 4 5 2 1 (-2), row8 3 7 1 4 5 2 0 (-2), row8 3 7 2 4 5 1 0 (-2),
   row8 4 5 0 6 7 2 1 (-2), row8 4 5 1 6 7 2 0 (-2), row8 4 5 2 6 7 1 0 (-2),
   row8 4 5 0 3 7 2 1 (-2), row8 4 5 1 3 7 2 0 (-2), row8 4 5 2 3 7 1 0 (-2),
   row8 4 5 0 3 6 2 1 (-2), row8 4 5 1 3 6 2 0 (-2), row8 4 5 2 3 6 1 0 (-2),
   row8 4 6 0 5 7 2 1 (-2), row8 4 6 1 5 7 2 0 (-2), row8 4 6 2 5 7 1 0 (-2),
   row8 4 6 0 3 7 2 1 (-2), row8 4 6 1 3 7 2 0 (-2), row8 4 6 2 3 7 1 0 (-2),
   row8 4 6 0 3 5 2 1 (-2), row8 4 6 1 3 5 2 0 (-2), row8 4 6 2 3 5 1 0 (-2),
   row8 4 7 0 5 6 2 1 (-2), row8 4 7 1 5 6 2 0 (-2), row8 4 7 2 5 6 1 0 (-2),
   row8 4 7 0 3 6 2 1 (-2), row8 4 7 1 3 6 2 0 (-2), row8 4 7 2 3 6 1 0 (-2),
   row8 4 7 0 3 5 2 1 (-2), row8 4 7 1 3 5 2 0 (-2), row8 4 7 2 3 5 1 0 (-2),
   row8 5 6 0 4 7 2 1 (-2), row8 5 6 1 4 7 2 0 (-2), row8 5 6 2 4 7 1 0 (-2),
   row8 5 6 0 3 7 2 1 (-2), row8 5 6 1 3 7 2 0 (-2), row8 5 6 2 3 7 1 0 (-2),
   row8 5 6 0 3 4 2 1 (-2), row8 5 6 1 3 4 2 0 (-2), row8 5 6 2 3 4 1 0 (-2),
   row8 5 7 0 4 6 2 1 (-2), row8 5 7 1 4 6 2 0 (-2), row8 5 7 2 4 6 1 0 (-2),
   row8 5 7 0 3 6 2 1 (-2), row8 5 7 1 3 6 2 0 (-2), row8 5 7 2 3 6 1 0 (-2),
   row8 5 7 0 3 4 2 1 (-2), row8 5 7 1 3 4 2 0 (-2), row8 5 7 2 3 4 1 0 (-2),
   row8 6 7 0 4 5 2 1 (-2), row8 6 7 1 4 5 2 0 (-2), row8 6 7 2 4 5 1 0 (-2),
   row8 6 7 0 3 5 2 1 (-2), row8 6 7 1 3 5 2 0 (-2), row8 6 7 2 3 5 1 0 (-2),
   row8 6 7 0 3 4 2 1 (-2), row8 6 7 1 3 4 2 0 (-2), row8 6 7 2 3 4 1 0 (-2)]

/-- Literal table of get_permutations for nb = 3, nq = 5, lost = [1, 2] (Parameters.cc lines 1658-1747, 90 rows). -/
def vec_8j3b_1_2 : List (List Int) :=
  [row8 3 (-2) (-2) 6 7 0 1 2, row8 3 (-2) (-2) 6 7 1 0 2, row8 3 (-2) (-2) 6 7 2 0 1,
   row8 3 (-2) (-2) 5 7 0 1 2, row8 3 (-2) (-2) 5 7 1 0 2, row8 3 (-2) (-2) 5 7 2 0 1,
   row8 3 (-2) (-2) 5 6 0 1 2, row8 3 (-2) (-2) 5 6 1 0 2, row8 3 (-2) (-2) 5 6 2 0 1,
   row8 3 (-2) (-2) 4 7 0 1 2, row8 3 (-2) (-2) 4 7 1 0 2, row8 3 (-2) (-2) 4 7 2 0 1,
   row8 3 (-2) (-2) 4 6 0 1 2, row8 3 (-2) (-2) 4 6 1 0 2, row8 3 (-2) (-2) 4 6 2 0 1,
   row8 3 (-2) (-2) 4 5 0 1 2, row8 3 (-2) (-2) 4 5 1 0 2, row8 3 (-2) (-2) 4 5 2 0 1,
   row8 4 (-2) (-2) 6 7 0 1 2, row8 4 (-2) (-2) 6 7 1 0 2, row8 4 (-2) (-2) 6 7 2 0 1,
   row8 4 (-2) (-2) 5 7 0 1 2, row8 4 (-2) (-2) 5 7 1 0 2, row8 4 (-2) (-2) 5 7 2 0 1,
   row8 4 (-2) (-2) 5 6 0 1 2, row8 4 (-2) (-2) 5 6 1 0 2, row8 4 (-2) (-2) 5 6 2 0 1,
   row8 4 (-2) (-2) 3 7 0 1 2, row8 4 (-2) (-2) 3 7 1 0 2, row8 4 (-2) (-2) 3 7 2 0 1,
   row8 4 (-2) (-2) 3 6 0 1 2, row8 4 (-2) (-2) 3 6 1 0 2, row8 4 (-2) (-2) 3 6 2 0 1,
   row8 4 (-2) (-2) 3 5 0 1 2, row8 4 (-2) (-2) 3 5 1 0 2, row8 4 (-2) (-2) 3 5 2 0 1,
   row8 5 (-2) (-2) 6 7 0 1 2, row8 5 (-2) (-2) 6 7 1 0 2, row8 5 (-2) (-2) 6 7 2 0 1,
   row8 5 (-2) (-2) 4 7 0 1 2, row8 5 (-2) (-2) 4 7 1 0 2, row8 5 (-2) (-2) 4 7 2 0 1,
   row8 5 (-2) (-2) 4 6 0 1 2, row8 5 (-2) (-2) 4 6 1 0 2, row8 5 (-2) (-2) 4 6 2 0 1,
   row8 5 (-2) (-2) 3 7 0 1 2, row8 5 (-2) (-2) 3 7 1 0 2, row8 5 (-2) (-2) 3 7 2 0 1,
   row8 5 (-2) (-2) 3 6 0 1 2, row8 5 (-2) (-2) 3 6 1 0 2, row8 5 (-2) (-2) 3 6 2 0 1,
   row8 5 (-2) (-2) 3 4 0 1 2, row8 5 (-2) (-2) 3 4 1 0 2, row8 5 (-2) (-2) 3 4 2 0 1,
   row8 6 (-2) (-2) 5 7 0 1 2, row8 6 (-2) (-2) 5 7 1 0 2, row8 6 (-2) (-2) 5 7 2 0 1,
   row8 6 (-2) (-2) 4 7 0 1 2, row8 6 (-2) (-2) 4 7 1 0 2, row8 6 (-2) (-2) 4 7 2 0 1,
   row8 6 (-2) (-2) 4 5 0 1 2, row8 6 (-2) (-2) 4 5 1 0 2, row8 6 (-2) (-2) 4 5 2 0 1,
   row8 6 (-2) (-2) 3 7 0 1 2, row8 6 (-2) (-2) 3 7 1 0 2, row8 6 (-2) (-2) 3 7 2 0 1,
   row8 6 (-2) (-2) 3 5 0 1 2, row8 6 (-2) (-2) 3 5 1 0 2, row8 6 (-2) (-2) 3 5 2 0 1,
   row8 6 (-2) (-2) 3 4 0 1 2, row8 6 (-2) (-2) 3 4 1 0 2, row8 6 (-2) (-2) 3 4 2 0 1,
   row8 7 (-2) (-2) 5 6 0 1 2, row8 7 (-2) (-2) 5 6 1 0 2, row8 7 (-2) (-2) 5 6 2 0 1,
   row8 7 (-2) (-2) 4 6 0 1 2, row8 7 (-2) (-2) 4 6 1 0 2, row8 7 (-2) (-2) 4 6 2 0 1,
   row8 7 (-2) (-2) 4 5 0 1 2, row8 7 (-2) (-2) 4 5 1 0 2, row8 7 (-2) (-2) 4 5 2 0 1,
   row8 7 (-2) (-2) 3 6 0 1 2, row8 7 (-2) (-2) 3 6 1 0 2, row8 7 (-2) (-2) 3 6 2 0 1,
   row8 7 (-2) (-2) 3 5 0 1 2, row8 7 (-2) (-2) 3 5 1 0 2, row8 7 (-2) (-2) 3 5 2 0 1,
   row8 7 (-2) (-2) 3 4 0 1 2, row8 7 (-2) (-2) 3 4 1 0 2, row8 7 (-2) (-2) 3 4 2 0 1]

/-- Literal table of get_permutations for nb = 3, nq = 5, lost = [0, 1, 3, 4, 2] (Parameters.cc lines 1752-1754, 3 rows). -/
def vec_8j3b_0_1_3_4_2 : List (List Int) :=
  [row8 (-2) (-2) (-2) (-2) (-2) 0 1 2, row8 (-2) (-2) (-2) (-2) (-2) 1 0 2, row8 (-2) (-2) (-2) (-2) (-2) 2 0 1]

/-- Literal table of get_permutations for nb = 4, nq = 3, lost = [1] (Parameters.cc lines 1761-1796, 36 rows). -/
def vec_7j4b_1 : List (List Int) :=
  [row8 4 (-2) 0 5 6 1 2 3, row8 4 (-2) 0 5 6 2 1 3, row8 4 (-2) 0 5 6 3 1 2,
   row8 4 (-2) 1 5 6 0 2 3, row8 4 (-2) 1 5 6 2 0 3, row8 4 (-2) 1 5 6 3 0 2,
   row8 4 (-2) 2 5 6 0 1 3, row8 4 (-2) 2 5 6 1 0 3, row8 4 (-2) 2 5 6 3 0 1,
   row8 4 (-2) 3 5 6 0 1 2, row8 4 (-2) 3 5 6 1 0 2, row8 4 (-2) 3 5 6 2 0 1,
   row8 5 (-2) 0 4 6 1 2 3, row8 5 (-2) 0 4 6 2 1 3, row8 5 (-2) 0 4 6 3 1 2,
   row8 5 (-2) 1 4 6 0 2 3, row8 5 (-2) 1 4 6 2 0 3, row8 5 (-2) 1 4 6 3 0 2,
   row8 5 (-2) 2 4 6 0 1 3, row8 5 (-2) 2 4 6 1 0 3, row8 5 (-2) 2 4 6 3 0 1,
   row8 5 (-2) 3 4 6 0 1 2, row8 5 (-2) 3 4 6 1 0 2, row8 5 (-2) 3 4 6 2 0 1,
   row8 6 (-2) 0 4 5 1 2 3, row8 6 (-2) 0 4 5 2 1 3, row8 6 (-2) 0 4 5 3 1 2,
   row8 6 (-2) 1 4 5 0 2 3, row8 6 (-2) 1 4 5 2 0 3, row8 6 (-2) 1 4 5 3 0 2,
   row8 6 (-2) 2 4 5 0 1 3, row8 6 (-2) 2 4 5 1 0 3, row8 6 (-2) 2 4 5 3 0 1,
   row8 6 (-2) 3 4 5 0 1 2, row8 6 (-2) 3 4 5 1 0 2, row8 6 (-2) 3 4 5 2 0 1]

/-- Literal table of get_permutations for nb = 4, nq = 3, lost = [0, 1] (Parameters.cc lines 1800-1835, 36 rows). -/
def vec_7j4b_0_1 : List (List Int) :=
  [row8 (-2) (-2) 0 5 6 1 2 3, row8 (-2) (-2) 0 5 6 2 1 3, row8 (-2) (-2) 0 5 6 3 1 2,
   row8 (-2) (-2) 1 5 6 0 2 3, row8 (-2) (-2) 1 5 6 2 0 3, row8 (-2) (-2) 1 5 6 3 0 2,
   row8 (-2) (-2) 2 5 6 0 1 3, row8 (-2) (-2) 2 5 6 1 0 3, row8 (-2) (-2) 2 5 6 3 0 1,
   row8 (-2) (-2) 3 5 6 0 1 2, row8 (-2) (-2) 3 5 6 1 0 2, row8 (-2) (-2) 3 5 6 2 0 1,
   row8 (-2) (-2) 0 4 6 1 2 3, row8 (-2) (-2) 0 4 6 2 1 3, row8 (-2) (-2) 0 4 6 3 1 2,
   row8 (-2) (-2) 1 4 6 0 2 3, row8 (-2) (-2) 1 4 6 2 0 3, row8 (-2) (-2) 1 4 6 3 0 2,
   row8 (-2) (-2) 2 4 6 0 1 3, row8 (-2) (-2) 2 4 6 1 0 3, row8 (-2) (-2) 2 4 6 3 0 1,
   row8 (-2) (-2) 3 4 6 0 1 2, row8 (-2) (-2) 3 4 6 1 0 2, row8 (-2) (-2) 3 4 6 2 0 1,
   row8 (-2) (-2) 0 4 5 1 2 3, row8 (-2) (-2) 0 4 5 2 1 3, row8 (-2) (-2) 0 4 5 3 1 2,
   row8 (-2) (-2) 1 4 5 0 2 3, row8 (-2) (-2) 1 4 5 2 0 3, row8 (-2) (-2) 1 4 5 3 0 2,
   row8 (-2) (-2) 2 4 5 0 1 3, row8 (-2) (-2) 2 4 5 1 0 3, row8 (-2) (-2) 2 4 5 3 0 1,
   row8 (-2) (-2) 3 4 5 0 1 2, row8 (-2) (-2) 3 4 5 1 0 2, row8 (-2) (-2) 3 4 5 2 0 1]

/-- Literal table of get_permutations for nb = 4, nq = 3, lost = [1, 4] (Parameters.cc lines 1839-1910, 72 rows). -/
def vec_7j4b_1_4 : List (List Int) :=
  [row8 4 (-2) 0 5 (-2) 1 2 3, row8 4 (-2) 0 5 (-2) 2 1 3, row8 4 (-2) 0 5 (-2) 3 1 2,
   row8 4 (-2) 0 6 (-2) 1 2 3, row8 4 (-2) 0 6 (-2) 2 1 3, row8 4 (-2) 0 6 (-2) 3 1 2,
   row8 4 (-2) 1 5 (-2) 0 2 3, row8 4 (-2) 1 5 (-2) 2 0 3, row8 4 (-2) 1 5 (-2) 3 0 2,
   row8 4 (-2) 1 6 (-2) 0 2 3, row8 4 (-2) 1 6 (-2) 2 0 3, row8 4 (-2) 1 6 (-2) 3 0 2,
   row8 4 (-2) 2 5 (-2) 0 1 3, row8 4 (-2) 2 5 (-2) 1 0 3, row8 4 (-2) 2 5 (-2) 3 0 1,
   row8 4 (-2) 2 6 (-2) 0 1 3, row8 4 (-2) 2 6 (-2) 1 0 3, row8 4 (-2) 2 6 (-2) 3 0 1,
   row8 4 (-2) 3 5 (-2) 0 1 2, row8 4 (-2) 3 5 (-2) 1 0 2, row8 4 (-2) 3 5 (-2) 2 0 1,
   row8 4 (-2) 3 6 (-2) 0 1 2, row8 4 (-2) 3 6 (-2) 1 0 2, row8 4 (-2) 3 6 (-2) 2 0 1,
   row8 5 (-2) 0 4 (-2) 1 2 3, row8 5 (-2) 0 4 (-2) 2 1 3, row8 5 (-2) 0 4 (-2) 3 1 2,
   row8 5 (-2) 0 6 (-2) 1 2 3, row8 5 (-2) 0 6 (-2) 2 1 3, row8 5 (-2) 0 6 (-2) 3 1 2,
   row8 5 (-2) 1 4 (-2) 0 2 3, row8 5 (-2) 1 4 (-2) 2 0 3, row8 5 (-2) 1 4 (-2) 3 0 2,
   row8 5 (-2) 1 6 (-2) 0 2 3, row8 5 (-2) 1 6 (-2) 2 0 3, row8 5 (-2) 1 6 (-2) 3 0 2,
   row8 5 (-2) 2 4 (-2) 0 1 3, row8 5 (-2) 2 4 (-2) 1 0 3, row8 5 (-2) 2 4 (-2) 3 0 1,
   row8 5 (-2) 2 6 (-2) 0 1 3, row8 5 (-2) 2 6 (-2) 1 0 3, row8 5 (-2) 2 6 (-2) 3 0 1,
   row8 5 (-2) 3 4 (-2) 0 1 2, row8 5 (-2) 3 4 (-2) 1 0 2, row8 5 (-2) 3 4 (-2) 2 0 1,
   row8 5 (-2) 3 6 (-2) 0 1 2, row8 5 (-2) 3 6 (-2) 1 0 2, row8 5 (-2) 3 6 (-2) 2 0 1,
   row8 6 (-2) 0 4 (-2) 1 2 3, row8 6 (-2) 0 4 (-2) 2 1 3, row8 6 (-2) 0 4 (-2) 3 1 2,
   row8 6 (-2) 0 5 (-2) 1 2 3, row8 6 (-2) 0 5 (-2) 2 1 3, row8 6 (-2) 0 5 (-2) 3 1 2,
   row8 6 (-2) 1 4 (-2) 0 2 3, row8 6 (-2) 1 4 (-2) 2 0 3, row8 6 (-2) 1 4 (-2) 3 0 2,
   row8 6 (-2) 1 5 (-2) 0 2 3, row8 6 (-2) 1 5 (-2) 2 0 3, row8 6 (-2) 1 5 (-2) 3 0 2,
   row8 6 (-2) 2 4 (-2) 0 1 3, row8 6 (-2) 2 4 (-2) 1 0 3, row8 6 (-2) 2 4 (-2) 3 0 1,
   row8 6 (-2) 2 5 (-2) 0 1 3, row8 6 (-2) 2 5 (-2) 1 0 3, row8 6 (-2) 2 5 (-2) 3 0 1,
   row8 6 (-2) 3 4 (-2) 0 1 2, row8 6 (-2) 3 4 (-2) 1 0 2, row8 6 (-2) 3 4 (-2) 2 0 1,
   row8 6 (-2) 3 5 (-2) 0 1 2, row8 6 (-2) 3 5 (-2) 1 0 2, row8 6 (-2) 3 5 (-2) 2 0 1]

/-- Literal table of get_permutations for nb = 4, nq = 3, lost = [0, 1, 3, 4] (Parameters.cc lines 1915-1926, 12 rows). -/
def vec_7j4b_0_1_3_4 : List (List Int) :=
  [row8 (-2) (-2) 0 (-2) (-2) 1 2 3, row8 (-2) (-2) 0 (-2) (-2) 2 1 3, row8 (-2) (-2) 0 (-2) (-2) 3 1 2,
   row8 (-2) (-2) 1 (-2) (-2) 0 2 3, row8 (-2) (-2) 1 (-2) (-2) 2 0 3, row8 (-2) (-2) 1 (-2) (-2) 3 0 2,
   row8 (-2) (-2) 2 (-2) (-2) 0 1 3, row8 (-2) (-2) 2 (-2) (-2) 1 0 3, row8 (-2) (-2) 2 (-2) (-2) 3 0 1,
   row8 (-2) (-2) 3 (-2) (-2) 0 1 2, row8 (-2) (-2) 3 (-2) (-2) 1 0 2, row8 (-2) (-2) 3 (-2) (-2) 2 0 1]

/-- Literal table of get_permutations for nb = 4, nq = 3, lost = [0, 1, 3, 4, 2] (Parameters.cc lines 1931-1942, 12 rows). -/
def vec_7j4b_0_1_3_4_2 : List (List Int) :=
  [row8 (-2) (-2) (-2) (-2) (-2) 1 2 3, row8 (-2) (-2) (-2) (-2) (-2) 2 1 3, row8 (-2) (-2) (-2) (-2) (-2) 3 1 2,
   row8 (-2) (-2) (-2) (-2) (-2) 0 2 3, row8 (-2) (-2) (-2) (-2) (-2) 2 0 3, row8 (-2) (-2) (-2) (-2) (-2) 3 0 2,
   row8 (-2) (-2) (-2) (-2) (-2) 0 1 3, row8 (-2) (-2) (-2) (-2) (-2) 1 0 3, row8 (-2) (-2) (-2) (-2) (-2) 3 0 1,
   row8 (-2) (-2) (-2) (-2) (-2) 0 1 2, row8 (-2) (-2) (-2) (-2) (-2) 1 0 2, row8 (-2) (-2) (-2) (-2) (-2) 2 0 1]

/-- Literal table of get_permutations for nb = 3, nq = 4, lost = [2] (Parameters.cc lines 1949-1966, 18 rows). -/
def vec_7j3b_2 : List (List Int) :=
  [row8 3 4 (-2) 5 6 0 1 2, row8 3 4 (-2) 5 6 1 0 2, row8 3 4 (-2) 5 6 2 0 1,
   row8 3 5 (-2) 4 6 0 1 2, row8 3 5 (-2) 4 6 1 0 2, row8 3 5 (-2) 4 6 2 0 1,
   row8 3 6 (-2) 4 5 0 1 2, row8 3 6 (-2) 4 5 1 0 2, row8 3 6 (-2) 4 5 2 0 1,
   row8 4 5 (-2) 3 6 0 1 2, row8 4 5 (-2) 3 6 1 0 2, row8 4 5 (-2) 3 6 2 0 1,
   row8 4 6 (-2) 3 5 0 1 2, row8 4 6 (-2) 3 5 1 0 2, row8 4 6 (-2) 3 5 2 0 1,
   row8 5 6 (-2) 3 4 0 1 2, row8 5 6 (-2) 3 4 1 0 2, row8 5 6 (-2) 3 4 2 0 1]

/-- Literal table of get_permutations for nb = 3, nq = 4, lost = [7] (Parameters.cc lines 1970-2005, 36 rows). -/
def vec_7j3b_7 : List (List Int) :=
  [row8 3 4 2 5 6 0 1 (-2), row8 3 4 2 5 6 1 0 (-2), row8 3 4 1 5 6 2 0 (-2),
   row8 3 5 2 4 6 0 1 (-2), row8 3 5 2 4 6 1 0 (-2), row8 3 5 1 4 6 2 0 (-2),
   row8 3 6 2 4 5 0 1 (-2), row8 3 6 2 4 5 1 0 (-2), row8 3 6 1 4 5 2 0 (-2),
   row8 4 5 2 3 6 0 1 (-2), row8 4 5 2 3 6 1 0 (-2), row8 4 5 1 3 6 2 0 (-2),
   row8 4 6 2 3 5 0 1 (-2), row8 4 6 2 3 5 1 0 (-2), row8 4 6 1 3 5 2 0 (-2),
   row8 5 6 2 3 4 0 1 (-2), row8 5 6 2 3 4 1 0 (-2), row8 5 6 1 3 4 2 0 (-2),
   row8 3 4 0 5 6 2 1 (-2), row8 3 4 1 5 6 2 0 (-2), row8 3 4 2 5 6 1 0 (-2),
   row8 3 5 0 4 6 2 1 (-2), row8 3 5 1 4 6 2 0 (-2), row8 3 5 2 4 6 1 0 (-2),
   row8 3 6 0 4 5 2 1 (-2), row8 3 6 1 4 5 2 0 (-2), row8 3 6 2 4 5 1 0 (-2),
   row8 4 5 0 3 6 2 1 (-2), row8 4 5 1 3 6 2 0 (-2), row8 4 5 2 3 6 1 0 (-2),
   row8 4 6 0 3 5 2 1 (-2), row8 4 6 1 3 5 2 0 (-2), row8 4 6 2 3 5 1 0 (-2),
   row8 5 6 0 3 4 2 1 (-2), row8 5 6 1 3 4 2 0 (-2), row8 5 6 2 3 4 1 0 (-2)]

/-- Literal table of get_permutations for nb = 3, nq = 4, lost = [1, 2] (Parameters.cc lines 2009-2044, 36 rows). -/
def vec_7j3b_1_2 : List (List Int) :=
  [row8 3 (-2) (-2) 5 6 0 1 2, row8 3 (-2) (-2) 5 6 1 0 2, row8 3 (-2) (-2) 5 6 2 0 1,
   row8 3 (-2) (-2) 4 6 0 1 2, row8 3 (-2) (-2) 4 6 1 0 2, row8 3 (-2) (-2) 4 6 2 0 1,
   row8 3 (-2) (-2) 4 5 0 1 2, row8 3 (-2) (-2) 4 5 1 0 2, row8 3 (-2) (-2) 4 5 2 0 1,
   row8 4 (-2) (-2) 5 6 0 1 2, row8 4 (-2) (-2) 5 6 1 0 2, row8 4 (-2) (-2) 5 6 2 0 1,
   row8 4 (-2) (-2) 3 6 0 1 2, row8 4 (-2) (-2) 3 6 1 0 2, row8 4 (-2) (-2) 3 6 2 0 1,
   row8 4 (-2) (-2) 3 5 0 1 2, row8 4 (-2) (-2) 3 5 1 0 2, row8 4 (-2) (-2) 3 5 2 0 1,
   row8 5 (-2) (-2) 4 6 0 1 2, row8 5 (-2) (-2) 4 6 1 0 2, row8 5 (-2) (-2) 4 6 2 0 1,
   row8 5 (-2) (-2) 3 6 0 1 2, row8 5 (-2) (-2) 3 6 1 0 2, row8 5 (-2) (-2) 3 6 2 0 1,
   row8 5 (-2) (-2) 3 4 0 1 2, row8 5 (-2) (-2) 3 4 1 0 2, row8 5 (-2) (-2) 3 4 2 0 1,
   row8 6 (-2) (-2) 4 5 0 1 2, row8 6 (-2) (-2) 4 5 1 0 2, row8 6 (-2) (-2) 4 5 2 0 1,
   row8 6 (-2) (-2) 3 5 0 1 2, row8 6 (-2) (-2) 3 5 1 0 2, row8 6 (-2) (-2) 3 5 2 0 1,
   row8 6 (-2) (-2) 3 4 0 1 2, row8 6 (-2) (-2) 3 4 1 0 2, row8 6 (-2) (-2) 3 4 2 0 1]

/-- Literal table of get_permutations for nb = 3, nq = 4, lost = [0, 1, 3, 4, 2] (Parameters.cc lines 2049-2051, 3 rows). -/
def vec_7j3b_0_1_3_4_2 : List (List Int) :=
  [row8 (-2) (-2) (-2) (-2) (-2) 0 1 2, row8 (-2) (-2) (-2) (-2) (-2) 1 0 2, row8 (-2) (-2) (-2) (-2) (-2) 2 0 1]

/-- Literal table of get_permutations for nb = 4, nq = 5, lost = [] (Parameters.cc lines 2058-2417, 360 rows). -/
def vec_9j4b : List (List Int) :=
  [row9 4 5 0 6 7 1 2 3 8, row9 4 5 0 6 7 2 1 3 8, row9 4 5 0 6 7 3 1 2 8,
   row9 4 5 0 6 8 1 2 3 7, row9 4 5 0 6 8 2 1 3 7, row9 4 5 0 6 8 3 1 2 7,
   row9 4 5 0 7 8 1 2 3 6, row9 4 5 0 7 8 2 1 3 6, row9 4 5 0 7 8 3 1 2 6,
   row9 4 5 1 6 7 0 2 3 8, row9 4 5 1 6 7 2 0 3 8, row9 4 5 1 6 7 3 0 2 8,
   row9 4 5 1 6 8 0 2 3 7, row9 4 5 1 6 8 2 0 3 7, row9 4 5 1 6 8 3 0 2 7,
   row9 4 5 1 7 8 0 2 3 6, row9 4 5 1 7 8 2 0 3 6, row9 4 5 1 7 8 3 0 2 6,
   row9 4 5 2 6 7 0 1 3 8, row9 4 5 2 6 7 1 0 3 8, row9 4 5 2 6 7 3 0 1 8,
   row9 4 5 2 6 8 0 1 3 7, row9 4 5 2 6 8 1 0 3 7, row9 4 5 2 6 8 3 0 1 7,
   row9 4 5 2 7 8 0 1 3 6, row9 4 5 2 7 8 1 0 3 6, row9 4 5 2 7 8 3 0 1 6,
   row9 4 5 3 6 7 0 1 2 8, row9 4 5 3 6 7 1 0 2 8, row9 4 5 3 6 7 2 0 1 8,
   row9 4 5 3 6 8 0 1 2 7, row9 4 5 3 6 8 1 0 2 7, row9 4 5 3 6 8 2 0 1 7,
   row9 4 5 3 7 8 0 1 2 6, row9 4 5 3 7 8 1 0 2 6, row9 4 5 3 7 8 2 0 1 6,
   row9 4 6 0 5 7 1 2 3 8, row9 4 6 0 5 7 2 1 3 8, row9 4 6 0 5 7 3 1 2 8,
   row9 4 6 0 5 8 1 2 3 7, row9 4 6 0 5 8 2 1 3 7, row9 4 6 0 5 8 3 1 2 7,
   row9 4 6 0 7 8 1 2 3 5, row9 4 6 0 7 8 2 1 3 5, row9 4 6 0 7 8 3 1 2 5,
   row9 4 6 1 5 7 0 2 3 8, row9 4 6 1 5 7 2 0 3 8, row9 4 6 1 5 7 3 0 2 8,
   row9 4 6 1 5 8 0 2 3 7, row9 4 6 1 5 8 2 0 3 7, row9 4 6 1 5 8 3 0 2 7,
   row9 4 6 1 7 8 0 2 3 5, row9 4 6 1 7 8 2 0 3 5, row9 4 6 1 7 8 3 0 2 5,
   row9 4 6 2 5 7 0 1 3 8, row9 4 6 2 5 7 1 0 3 8, row9 4 6 2 5 7 3 0 1 8,
   row9 4 6 2 5 8 0 1 3 7, row9 4 6 2 5 8 1 0 3 7, row9 4 6 2 5 8 3 0 1 7,
   row9 4 6 2 7 8 0 1 3 5, row9 4 6 2 7 8 1 0 3 5, row9 4 6 2 7 8 3 0 1 5,
   row9 4 6 3 5 7 0 1 2 8, row9 4 6 3 5 7 1 0 2 8, row9 4 6 3 5 7 2 0 1 8,
   row9 4 6 3 5 8 0 1 2 7, row9 4 6 3 5 8 1 0 2 7, row9 4 6 3 5 8 2 0 1 7,
   row9 4 6 3 7 8 0 1 2 5, row9 4 6 3 7 8 1 0 2 5, row9 4 6 3 7 8 2 0 1 5,
   row9 4 7 0 5 6 1 2 3 8, row9 4 7 0 5 6 2 1 3 8, row9 4 7 0 5 6 3 1 2 8,
   row9 4 7 0 5 8 1 2 3 6, row9 4 7 0 5 8 2 1 3 6, row9 4 7 0 5 8 3 1 2 6,
   row9 4 7 0 6 8 1 2 3 5, row9 4 7 0 6 8 2 1 3 5, row9 4 7 0 6 8 3 1 2 5,
   row9 4 7 1 5 6 0 2 3 8, row9 4 7 1 5 6 2 0 3 8, row9 4 7 1 5 6 3 0 2 8,
   row9 4 7 1 5 8 0 2 3 6, row9 4 7 1 5 8 2 0 3 6, row9 4 7 1 5 8 3 0 2 6,
   row9 4 7 1 6 8 0 2 3 5, row9 4 7 1 6 8 2 0 3 5, row9 4 7 1 6 8 3 0 2 5,
   row9 4 7 2 5 6 0 1 3 8, row9 4 7 2 5 6 1 0 3 8, row9 4 7 2 5 6 3 0 1 8,
   row9 4 7 2 5 8 0 1 3 6, row9 4 7 2 5 8 1 0 3 6, row9 4 7 2 5 8 3 0 1 6,
   row9 4 7 2 6 8 0 1 3 5, row9 4 7 2 6 8 1 0 3 5, row9 4 7 2 6 8 3 0 1 5,
   row9 4 7 3 5 6 0 1 2 8, row9 4 7 3 5 6 1 0 2 8, row9 4 7 3 5 6 2 0 1 8,
   row9 4 7 3 5 8 0 1 2 6, row9 4 7 3 5 8 1 0 2 6, row9 4 7 3 5 8 2 0 1 6,
   row9 4 7 3 6 8 0 1 2 5, row9 4 7 3 6 8 1 0 2 5, row9 4 7 3 6 8 2 0 1 5,
   row9 4 8 0 5 6 1 2 3 7, row9 4 8 0 5 6 2 1 3 7, row9 4 8 0 5 6 3 1 2 7,
   row9 4 8 0 5 7 1 2 3 6, row9 4 8 0 5 7 2 1 3 6, row9 4 8 0 5 7 3 1 2 6,
   row9 4 8 0 6 7 1 2 3 5, row9 4 8 0 6 7 2 1 3 5, row9 4 8 0 6 7 3 1 2 5,
   row9 4 8 1 5 6 0 2 3 7, row9 4 8 1 5 6 2 0 3 7, row9 4 8 1 5 6 3 0 2 7,
   row9 4 8 1 5 7 0 2 3 6, row9 4 8 1 5 7 2 0 3 6, row9 4 8 1 5 7 3 0 2 6,
   row9 4 8 1 6 7 0 2 3 5, row9 4 8 1 6 7 2 0 3 5, row9 4 8 1 6 7 3 0 2 5,
   row9 4 8 2 5 6 0 1 3 7, row9 4 8 2 5 6 1 0 3 7, row9 4 8 2 5 6 3 0 1 7,
   row9 4 8 2 5 7 0 1 3 6, row9 4 8 2 5 7 1 0 3 6, row9 4 8 2 5 7 3 0 1 6,
   row9 4 8 2 6 7 0 1 3 5, row9 4 8 2 6 7 1 0 3 5, row9 4 8 2 6 7 3 0 1 5,
   row9 4 8 3 5 6 0 1 2 7, row9 4 8 3 5 6 1 0 2 7, row9 4 8 3 5 6 2 0 1 7,
   row9 4 8 3 5 7 0 1 2 6, row9 4 8 3 5 7 1 0 2 6, row9 4 8 3 5 7 2 0 1 6,
   row9 4 8 3 6 7 0 1 2 5, row9 4 8 3 6 7 1 0 2 5, row9 4 8 3 6 7 2 0 1 5,
   row9 5 6 0 4 7 1 2 3 8, row9 5 6 0 4 7 2 1 3 8, row9 5 6 0 4 7 3 1 2 8,
   row9 5 6 0 4 8 1 2 3 7, row9 5 6 0 4 8 2 1 3 7, row9 5 6 0 4 8 3 1 2 7,
   row9 5 6 0 7 8 1 2 3 4, row9 5 6 0 7 8 2 1 3 4, row9 5 6 0 7 8 3 1 2 4,
   row9 5 6 1 4 7 0 2 3 8, row9 5 6 1 4 7 2 0 3 8, row9 5 6 1 4 7 3 0 2 8,
   row9 5 6 1 4 8 0 2 3 7, row9 5 6 1 4 8 2 0 3 7, row9 5 6 1 4 8 3 0 2 7,
   row9 5 6 1 7 8 0 2 3 4, row9 5 6 1 7 8 2 0 3 4, row9 5 6 1 7 8 3 0 2 4,
   row9 5 6 2 4 7 0 1 3 8, row9 5 6 2 4 7 1 0 3 8, row9 5 6 2 4 7 3 0 1 8,
   row9 5 6 2 4 8 0 1 3 7, row9 5 6 2 4 8 1 0 3 7, row9 5 6 2 4 8 3 0 1 7,
   row9 5 6 2 7 8 0 1 3 4, row9 5 6 2 7 8 1 0 3 4, row9 5 6 2 7 8 3 0 1 4,
   row9 5 6 3 4 7 0 1 2 8, row9 5 6 3 4 7 1 0 2 8, row9 5 6 3 4 7 2 0 1 8,
   row9 5 6 3 4 8 0 1 2 7, row9 5 6 3 4 8 1 0 2 7, row9 5 6 3 4 8 2 0 1 7,
   row9 5 6 3 7 8 0 1 2 4, row9 5 6 3 7 8 1 0 2 4, row9 5 6 3 7 8 2 0 1 4,
   row9 5 7 0 4 6 1 2 3 8, row9 5 7 0 4 6 2 1 3 8, row9 5 7 0 4 6 3 1 2 8,
   row9 5 7 0 4 8 1 2 3 6, row9 5 7 0 4 8 2 1 3 6, row9 5 7 0 4 8 3 1 2 6,
   row9 5 7 0 6 8 1 2 3 4, row9 5 7 0 6 8 2 1 3 4, row9 5 7 0 6 8 3 1 2 4,
   row9 5 7 1 4 6 0 2 3 8, row9 5 7 1 4 6 2 0 3 8, row9 5 7 1 4 6 3 0 2 8,
   row9 5 7 1 4 8 0 2 3 6, row9 5 7 1 4 8 2 0 3 6, row9 5 7 1 4 8 3 0 2 6,
   row9 5 7 1 6 8 0 2 3 4, row9 5 7 1 6 8 2 0 3 4, row9 5 7 1 6 8 3 0 2 4,
   row9 5 7 2 4 6 0 1 3 8, row9 5 7 2 4 6 1 0 3 8, row9 5 7 2 4 6 3 0 1 8,
   row9 5 7 2 4 8 0 1 3 6, row9 5 7 2 4 8 1 0 3 6, row9 5 7 2 4 8 3 0 1 6,
   row9 5 7 2 6 8 0 1 3 4, row9 5 7 2 6 8 1 0 3 4, row9 5 7 2 6 8 3 0 1 4,
   row9 5 7 3 4 6 0 1 2 8, row9 5 7 3 4 6 1 0 2 8, row9 5 7 3 4 6 2 0 1 8,
   row9 5 7 3 4 8 0 1 2 6, row9 5 7 3 4 8 1 0 2 6, row9 5 7 3 4 8 2 0 1 6,
   row9 5 7 3 6 8 0 1 2 4, row9 5 7 3 6 8 1 0 2 4, row9 5 7 3 6 8 2 0 1 4,
   row9 5 8 0 4 6 1 2 3 7, row9 5 8 0 4 6 2 1 3 7, row9 5 8 0 4 6 3 1 2 7,
   row9 5 8 0 4 7 1 2 3 6, row9 5 8 0 4 7 2 1 3 6, row9 5 8 0 4 7 3 1 2 6,
   row9 5 8 0 6 7 1 2 3 4, row9 5 8 0 6 7 2 1 3 4, row9 5 8 0 6 7 3 1 2 4,
   row9 5 8 1 4 6 0 2 3 7, row9 5 8 1 4 6 2 0 3 7, row9 5 8 1 4 6 3 0 2 7,
   row9 5 8 1 4 7 0 2 3 6, row9 5 8 1 4 7 2 0 3 6, row9 5 8 1 4 7 3 0 2 6,
   row9 5 8 1 6 7 0 2 3 4, row9 5 8 1 6 7 2 0 3 4, row9 5 8 1 6 7 3 0 2 4,
   row9 5 8 2 4 6 0 1 3 7, row9 5 8 2 4 6 1 0 3 7, row9 5 8 2 4 6 3 0 1 7,
   row9 5 8 2 4 7 0 1 3 6, row9 5 8 2 4 7 1 0 3 6, row9 5 8 2 4 7 3 0 1 6,
   row9 5 8 2 6 7 0 1 3 4, row9 5 8 2 6 7 1 0 3 4, row9 5 8 2 6 7 3 0 1 4,
   row9 5 8 3 4 6 0 1 2 7, row9 5 8 3 4 6 1 0 2 7, row9 5 8 3 4 6 2 0 1 7,
   row9 5 8 3 4 7 0 1 2 6, row9 5 8 3 4 7 1 0 2 6, row9 5 8 3 4 7 2 0 1 6,
   row9 5 8 3 6 7 0 1 2 4, row9 5 8 3 6 7 1 0 2 4, row9 5 8 3 6 7 2 0 1 4,
   row9 6 7 0 4 5 1 2 3 8, row9 6 7 0 4 5 2 1 3 8, row9 6 7 0 4 5 3 1 2 8,
   row9 6 7 0 4 8 1 2 3 5, row9 6 7 0 4 8 2 1 3 5, row9 6 7 0 4 8 3 1 2 5,
   row9 6 7 0 5 8 1 2 3 4, row9 6 7 0 5 8 2 1 3 4, row9 6 7 0 5 8 3 1 2 4,
   row9 6 7 1 4 5 0 2 3 8, row9 6 7 1 4 5 2 0 3 8, row9 6 7 1 4 5 3 0 2 8,
   row9 6 7 1 4 8 0 2 3 5, row9 6 7 1 4 8 2 0 3 5, row9 6 7 1 4 8 3 0 2 5,
   row9 6 7 1 5 8 0 2 3 4, row9 6 7 1 5 8 2 0 3 4, row9 6 7 1 5 8 3 0 2 4,
   row9 6 7 2 4 5 0 1 3 8, row9 6 7 2 4 5 1 0 3 8, row9 6 7 2 4 5 3 0 1 8,
   row9 6 7 2 4 8 0 1 3 5, row9 6 7 2 4 8 1 0 3 5, row9 6 7 2 4 8 3 0 1 5,
   row9 6 7 2 5 8 0 1 3 4, row9 6 7 2 5 8 1 0 3 4, row9 6 7 2 5 8 3 0 1 4,
   row9 6 7 3 4 5 0 1 2 8, row9 6 7 3 4 5 1 0 2 8, row9 6 7 3 4 5 2 0 1 8,
   row9 6 7 3 4 8 0 1 2 5, row9 6 7 3 4 8 1 0 2 5, row9 6 7 3 4 8 2 0 1 5,
   row9 6 7 3 5 8 0 1 2 4, row9 6 7 3 5 8 1 0 2 4, row9 6 7 3 5 8 2 0 1 4,
   row9 6 8 0 4 5 1 2 3 7, row9 6 8 0 4 5 2 1 3 7, row9 6 8 0 4 5 3 1 2 7,
   row9 6 8 0 4 7 1 2 3 5, row9 6 8 0 4 7 2 1 3 5, row9 6 8 0 4 7 3 1 2 5,
   row9 6 8 0 5 7 1 2 3 4, row9 6 8 0 5 7 2 1 3 4, row9 6 8 0 5 7 3 1 2 4,
   row9 6 8 1 4 5 0 2 3 7, row9 6 8 1 4 5 2 0 3 7, row9 6 8 1 4 5 3 0 2 7,
   row9 6 8 1 4 7 0 2 3 5, row9 6 8 1 4 7 2 0 3 5, row9 6 8 1 4 7 3 0 2 5,
   row9 6 8 1 5 7 0 2 3 4, row9 6 8 1 5 7 2 0 3 4, row9 6 8 1 5 7 3 0 2 4,
   row9 6 8 2 4 5 0 1 3 7, row9 6 8 2 4 5 1 0 3 7, row9 6 8 2 4 5 3 0 1 7,
   row9 6 8 2 4 7 0 1 3 5, row9 6 8 2 4 7 1 0 3 5, row9 6 8 2 4 7 3 0 1 5,
   row9 6 8 2 5 7 0 1 3 4, row9 6 8 2 5 7 1 0 3 4, row9 6 8 2 5 7 3 0 1 4,
   row9 6 8 3 4 5 0 1 2 7, row9 6 8 3 4 5 1 0 2 7, row9 6 8 3 4 5 2 0 1 7,
   row9 6 8 3 4 7 0 1 2 5, row9 6 8 3 4 7 1 0 2 5, row9 6 8 3 4 7 2 0 1 5,
   row9 6 8 3 5 7 0 1 2 4, row9 6 8 3 5 7 1 0 2 4, row9 6 8 3 5 7 2 0 1 4,
   row9 7 8 0 4 5 1 2 3 6, row9 7 8 0 4 5 2 1 3 6, row9 7 8 0 4 5 3 1 2 6,
   row9 7 8 0 4 6 1 2 3 5, row9 7 8 0 4 6 2 1 3 5, row9 7 8 0 4 6 3 1 2 5,
   row9 7 8 0 5 6 1 2 3 4, row9 7 8 0 5 6 2 1 3 4, row9 7 8 0 5 6 3 1 2 4,
   row9 7 8 1 4 5 0 2 3 6, row9 7 8 1 4 5 2 0 3 6, row9 7 8 1 4 5 3 0 2 6,
   row9 7 8 1 4 6 0 2 3 5, row9 7 8 1 4 6 2 0 3 5, row9 7 8 1 4 6 3 0 2 5,
   row9 7 8 1 5 6 0 2 3 4, row9 7 8 1 5 6 2 0 3 4, row9 7 8 1 5 6 3 0 2 4,
   row9 7 8 2 4 5 0 1 3 6, row9 7 8 2 4 5 1 0 3 6, row9 7 8 2 4 5 3 0 1 6,
   row9 7 8 2 4 6 0 1 3 5, row9 7 8 2 4 6 1 0 3 5, row9 7 8 2 4 6 3 0 1 5,
   row9 7 8 2 5 6 0 1 3 4, row9 7 8 2 5 6 1 0 3 4, row9 7 8 2 5 6 3 0 1 4,
   row9 7 8 3 4 5 0 1 2 6, row9 7 8 3 4 5 1 0 2 6, row9 7 8 3 4 5 2 0 1 6,
   row9 7 8 3 4 6 0 1 2 5, row9 7 8 3 4 6 1 0 2 5, row9 7 8 3 4 6 2 0 1 5,
   row9 7 8 3 5 6 0 1 2 4, row9 7 8 3 5 6 1 0 2 4, row9 7 8 3 5 6 2 0 1 4]

/-- Literal table of get_permutations for nb = 4, nq = 5, lost = [1] (Parameters.cc lines 2421-2780, 360 rows). -/
def vec_9j4b_1 : List (List Int) :=
  [row9 4 (-2) 0 6 7 1 2 3 8, row9 4 (-2) 0 6 7 2 1 3 8, row9 4 (-2) 0 6 7 3 1 2 8,
   row9 4 (-2) 0 6 8 1 2 3 7, row9 4 (-2) 0 6 8 2 1 3 7, row9 4 (-2) 0 6 8 3 1 2 7,
   row9 4 (-2) 0 7 8 1 2 3 6, row9 4 (-2) 0 7 8 2 1 3 6, row9 4 (-2) 0 7 8 3 1 2 6,
   row9 4 (-2) 1 6 7 0 2 3 8, row9 4 (-2) 1 6 7 2 0 3 8, row9 4 (-2) 1 6 7 3 0 2 8,
   row9 4 (-2) 1 6 8 0 2 3 7, row9 4 (-2) 1 6 8 2 0 3 7, row9 4 (-2) 1 6 8 3 0 2 7,
   row9 4 (-2) 1 7 8 0 2 3 6, row9 4 (-2) 1 7 8 2 0 3 6, row9 4 (-2) 1 7 8 3 0 2 6,
   row9 4 (-2) 2 6 7 0 1 3 8, row9 4 (-2) 2 6 7 1 0 3 8, row9 4 (-2) 2 6 7 3 0 1 8,
   row9 4 (-2) 2 6 8 0 1 3 7, row9 4 (-2) 2 6 8 1 0 3 7, row9 4 (-2) 2 6 8 3 0 1 7,
   row9 4 (-2) 2 7 8 0 1 3 6, row9 4 (-2) 2 7 8 1 0 3 6, row9 4 (-2) 2 7 8 3 0 1 6,
   row9 4 (-2) 3 6 7 0 1 2 8, row9 4 (-2) 3 6 7 1 0 2 8, row9 4 (-2) 3 6 7 2 0 1 8,
   row9 4 (-2) 3 6 8 0 1 2 7, row9 4 (-2) 3 6 8 1 0 2 7, row9 4 (-2) 3 6 8 2 0 1 7,
   row9 4 (-2) 3 7 8 0 1 2 6, row9 4 (-2) 3 7 8 1 0 2 6, row9 4 (-2) 3 7 8 2 0 1 6,
   row9 4 (-2) 0 5 7 1 2 3 8, row9 4 (-2) 0 5 7 2 1 3 8, row9 4 (-2) 0 5 7 3 1 2 8,
   row9 4 (-2) 0 5 8 1 2 3 7, row9 4 (-2) 0 5 8 2 1 3 7, row9 4 (-2) 0 5 8 3 1 2 7,
   row9 4 (-2) 1 5 7 0 2 3 8, row9 4 (-2) 1 5 7 2 0 3 8, row9 4 (-2) 1 5 7 3 0 2 8,
   row9 4 (-2) 1 5 8 0 2 3 7, row9 4 (-2) 1 5 8 2 0 3 7, row9 4 (-2) 1 5 8 3 0 2 7,
   row9 4 (-2) 2 5 7 0 1 3 8, row9 4 (-2) 2 5 7 1 0 3 8, row9 4 (-2) 2 5 7 3 0 1 8,
   row9 4 (-2) 2 5 8 0 1 3 7, row9 4 (-2) 2 5 8 1 0 3 7, row9 4 (-2) 2 5 8 3 0 1 7,
   row9 4 (-2) 3 5 7 0 1 2 8, row9 4 (-2) 3 5 7 1 0 2 8, row9 4 (-2) 3 5 7 2 0 1 8,
   row9 4 (-2) 3 5 8 0 1 2 7, row9 4 (-2) 3 5 8 1 0 2 7, row9 4 (-2) 3 5 8 2 0 1 7,
   row9 4 (-2) 0 5 6 1 2 3 8, row9 4 (-2) 0 5 6 2 1 3 8, row9 4 (-2) 0 5 6 3 1 2 8,
   row9 4 (-2) 1 5 6 0 2 3 8, row9 4 (-2) 1 5 6 2 0 3 8, row9 4 (-2) 1 5 6 3 0 2 8,
   row9 4 (-2) 2 5 6 0 1 3 8, row9 4 (-2) 2 5 6 1 0 3 8, row9 4 (-2) 2 5 6 3 0 1 8,
   row9 4 (-2) 3 5 6 0 1 2 8, row9 4 (-2) 3 5 6 1 0 2 8, row9 4 (-2) 3 5 6 2 0 1 8,
   row9 5 (-2) 0 6 7 1 2 3 8, row9 5 (-2) 0 6 7 2 1 3 8, row9 5 (-2) 0 6 7 3 1 2 8,
   row9 5 (-2) 0 6 8 1 2 3 7, row9 5 (-2) 0 6 8 2 1 3 7, row9 5 (-2) 0 6 8 3 1 2 7,
   row9 5 (-2) 0 7 8 1 2 3 6, row9 5 (-2) 0 7 8 2 1 3 6, row9 5 (-2) 0 7 8 3 1 2 6,
   row9 5 (-2) 1 6 7 0 2 3 8, row9 5 (-2) 1 6 7 2 0 3 8, row9 5 (-2) 1 6 7 3 0 2 8,
   row9 5 (-2) 1 6 8 0 2 3 7, row9 5 (-2) 1 6 8 2 0 3 7, row9 5 (-2) 1 6 8 3 0 2 7,
   row9 5 (-2) 1 7 8 0 2 3 6, row9 5 (-2) 1 7 8 2 0 3 6, row9 5 (-2) 1 7 8 3 0 2 6,
   row9 5 (-2) 2 6 7 0 1 3 8, row9 5 (-2) 2 6 7 1 0 3 8, row9 5 (-2) 2 6 7 3 0 1 8,
   row9 5 (-2) 2 6 8 0 1 3 7, row9 5 (-2) 2 6 8 1 0 3 7, row9 5 (-2) 2 6 8 3 0 1 7,
   row9 5 (-2) 2 7 8 0 1 3 6, row9 5 (-2) 2 7 8 1 0 3 6, row9 5 (-2) 2 7 8 3 0 1 6,
   row9 5 (-2) 3 6 7 0 1 2 8, row9 5 (-2) 3 6 7 1 0 2 8, row9 5 (-2) 3 6 7 2 0 1 8,
   row9 5 (-2) 3 6 8 0 1 2 7, row9 5 (-2) 3 6 8 1 0 2 7, row9 5 (-2) 3 6 8 2 0 1 7,
   row9 5 (-2) 3 7 8 0 1 2 6, row9 5 (-2) 3 7 8 1 0 2 6, row9 5 (-2) 3 7 8 2 0 1 6,
   row9 5 (-2) 0 4 7 1 2 3 8, row9 5 (-2) 0 4 7 2 1 3 8, row9 5 (-2) 0 4 7 3 1 2 8,
   row9 5 (-2) 0 4 8 1 2 3 7, row9 5 (-2) 0 4 8 2 1 3 7, row9 5 (-2) 0 4 8 3 1 2 7,
   row9 5 (-2) 1 4 7 0 2 3 8, row9 5 (-2) 1 4 7 2 0 3 8, row9 5 (-2) 1 4 7 3 0 2 8,
   row9 5 (-2) 1 4 8 0 2 3 7, row9 5 (-2) 1 4 8 2 0 3 7, row9 5 (-2) 1 4 8 3 0 2 7,
   row9 5 (-2) 2 4 7 0 1 3 8, row9 5 (-2) 2 4 7 1 0 3 8, row9 5 (-2) 2 4 7 3 0 1 8,
   row9 5 (-2) 2 4 8 0 1 3 7, row9 5 (-2) 2 4 8 1 0 3 7, row9 5 (-2) 2 4 8 3 0 1 7,
   row9 5 (-2) 3 4 7 0 1 2 8, row9 5 (-2) 3 4 7 1 0 2 8, row9 5 (-2) 3 4 7 2 0 1 8,
   row9 5 (-2) 3 4 8 0 1 2 7, row9 5 (-2) 3 4 8 1 0 2 7, row9 5 (-2) 3 4 8 2 0 1 7,
   row9 5 (-2) 0 4 6 1 2 3 8, row9 5 (-2) 0 4 6 2 1 3 8, row9 5 (-2) 0 4 6 3 1 2 8,
   row9 5 (-2) 1 4 6 0 2 3 8, row9 5 (-2) 1 4 6 2 0 3 8, row9 5 (-2) 1 4 6 3 0 2 8,
   row9 5 (-2) 2 4 6 0 1 3 8, row9 5 (-2) 2 4 6 1 0 3 8, row9 5 (-2) 2 4 6 3 0 1 8,
   row9 5 (-2) 3 4 6 0 1 2 8, row9 5 (-2) 3 4 6 1 0 2 8, row9 5 (-2) 3 4 6 2 0 1 8,
   row9 6 (-2) 0 5 7 1 2 3 8, row9 6 (-2) 0 5 7 2 1 3 8, row9 6 (-2) 0 5 7 3 1 2 8,
   row9 6 (-2) 0 5 8 1 2 3 7, row9 6 (-2) 0 5 8 2 1 3 7, row9 6 (-2) 0 5 8 3 1 2 7,
   row9 6 (-2) 0 7 8 1 2 3 5, row9 6 (-2) 0 7 8 2 1 3 5, row9 6 (-2) 0 7 8 3 1 2 5,
   row9 6 (-2) 1 5 7 0 2 3 8, row9 6 (-2) 1 5 7 2 0 3 8, row9 6 (-2) 1 5 7 3 0 2 8,
   row9 6 (-2) 1 5 8 0 2 3 7, row9 6 (-2) 1 5 8 2 0 3 7, row9 6 (-2) 1 5 8 3 0 2 7,
   row9 6 (-2) 1 7 8 0 2 3 5, row9 6 (-2) 1 7 8 2 0 3 5, row9 6 (-2) 1 7 8 3 0 2 5,
   row9 6 (-2) 2 5 7 0 1 3 8, row9 6 (-2) 2 5 7 1 0 3 8, row9 6 (-2) 2 5 7 3 0 1 8,
   row9 6 (-2) 2 5 8 0 1 3 7, row9 6 (-2) 2 5 8 1 0 3 7, row9 6 (-2) 2 5 8 3 0 1 7,
   row9 6 (-2) 2 7 8 0 1 3 5, row9 6 (-2) 2 7 8 1 0 3 5, row9 6 (-2) 2 7 8 3 0 1 5,
   row9 6 (-2) 3 5 7 0 1 2 8, row9 6 (-2) 3 5 7 1 0 2 8, row9 6 (-2) 3 5 7 2 0 1 8,
   row9 6 (-2) 3 5 8 0 1 2 7, row9 6 (-2) 3 5 8 1 0 2 7, row9 6 (-2) 3 5 8 2 0 1 7,
   row9 6 (-2) 3 7 8 0 1 2 5, row9 6 (-2) 3 7 8 1 0 2 5, row9 6 (-2) 3 7 8 2 0 1 5,
   row9 6 (-2) 0 4 7 1 2 3 8, row9 6 (-2) 0 4 7 2 1 3 8, row9 6 (-2) 0 4 7 3 1 2 8,
   row9 6 (-2) 0 4 8 1 2 3 7, row9 6 (-2) 0 4 8 2 1 3 7, row9 6 (-2) 0 4 8 3 1 2 7,
   row9 6 (-2) 1 4 7 0 2 3 8, row9 6 (-2) 1 4 7 2 0 3 8, row9 6 (-2) 1 4 7 3 0 2 8,
   row9 6 (-2) 1 4 8 0 2 3 7, row9 6 (-2) 1 4 8 2 0 3 7, row9 6 (-2) 1 4 8 3 0 2 7,
   row9 6 (-2) 2 4 7 0 1 3 8, row9 6 (-2) 2 4 7 1 0 3 8, row9 6 (-2) 2 4 7 3 0 1 8,
   row9 6 (-2) 2 4 8 0 1 3 7, row9 6 (-2) 2 4 8 1 0 3 7, row9 6 (-2) 2 4 8 3 0 1 7,
   row9 6 (-2) 3 4 7 0 1 2 8, row9 6 (-2) 3 4 7 1 0 2 8, row9 6 (-2) 3 4 7 2 0 1 8,
   row9 6 (-2) 3 4 8 0 1 2 7, row9 6 (-2) 3 4 8 1 0 2 7, row9 6 (-2) 3 4 8 2 0 1 7,
   row9 6 (-2) 0 4 5 1 2 3 8, row9 6 (-2) 0 4 5 2 1 3 8, row9 6 (-2) 0 4 5 3 1 2 8,
   row9 6 (-2) 1 4 5 0 2 3 8, row9 6 (-2) 1 4 5 2 0 3 8, row9 6 (-2) 1 4 5 3 0 2 8,
   row9 6 (-2) 2 4 5 0 1 3 8, row9 6 (-2) 2 4 5 1 0 3 8, row9 6 (-2) 2 4 5 3 0 1 8,
   row9 6 (-2) 3 4 5 0 1 2 8, row9 6 (-2) 3 4 5 1 0 2 8, row9 6 (-2) 3 4 5 2 0 1 8,
   row9 7 (-2) 0 5 6 1 2 3 8, row9 7 (-2) 0 5 6 2 1 3 8, row9 7 (-2) 0 5 6 3 1 2 8,
   row9 7 (-2) 0 5 8 1 2 3 6, row9 7 (-2) 0 5 8 2 1 3 6, row9 7 (-2) 0 5 8 3 1 2 6,
   row9 7 (-2) 0 6 8 1 2 3 5, row9 7 (-2) 0 6 8 2 1 3 5, row9 7 (-2) 0 6 8 3 1 2 5,
   row9 7 (-2) 1 5 6 0 2 3 8, row9 7 (-2) 1 5 6 2 0 3 8, row9 7 (-2) 1 5 6 3 0 2 8,
   row9 7 (-2) 1 5 8 0 2 3 6, row9 7 (-2) 1 5 8 2 0 3 6, row9 7 (-2) 1 5 8 3 0 2 6,
   row9 7 (-2) 1 6 8 0 2 3 5, row9 7 (-2) 1 6 8 2 0 3 5, row9 7 (-2) 1 6 8 3 0 2 5,
   row9 7 (-2) 2 5 6 0 1 3 8, row9 7 (-2) 2 5 6 1 0 3 8, row9 7 (-2) 2 5 6 3 0 1 8,
   row9 7 (-2) 2 5 8 0 1 3 6, row9 7 (-2) 2 5 8 1 0 3 6, row9 7 (-2) 2 5 8 3 0 1 6,
   row9 7 (-2) 2 6 8 0 1 3 5, row9 7 (-2) 2 6 8 1 0 3 5, row9 7 (-2) 2 6 8 3 0 1 5,
   row9 7 (-2) 3 5 6 0 1 2 8, row9 7 (-2) 3 5 6 1 0 2 8, row9 7 (-2) 3 5 6 2 0 1 8,
   row9 7 (-2) 3 5 8 0 1 2 6, row9 7 (-2) 3 5 8 1 0 2 6, row9 7 (-2) 3 5 8 2 0 1 6,
   row9 7 (-2) 3 6 8 0 1 2 5, row9 7 (-2) 3 6 8 1 0 2 5, row9 7 (-2) 3 6 8 2 0 1 5,
   row9 7 (-2) 0 4 6 1 2 3 8, row9 7 (-2) 0 4 6 2 1 3 8, row9 7 (-2) 0 4 6 3 1 2 8,
   row9 7 (-2) 0 4 8 1 2 3 6, row9 7 (-2) 0 4 8 2 1 3 6, row9 7 (-2) 0 4 8 3 1 2 6,
   row9 7 (-2) 1 4 6 0 2 3 8, row9 7 (-2) 1 4 6 2 0 3 8, row9 7 (-2) 1 4 6 3 0 2 8,
   row9 7 (-2) 1 4 8 0 2 3 6, row9 7 (-2) 1 4 8 2 0 3 6, row9 7 (-2) 1 4 8 3 0 2 6,
   row9 7 (-2) 2 4 6 0 1 3 8, row9 7 (-2) 2 4 6 1 0 3 8, row9 7 (-2) 2 4 6 3 0 1 8,
   row9 7 (-2) 2 4 8 0 1 3 6, row9 7 (-2) 2 4 8 1 0 3 6, row9 7 (-2) 2 4 8 3 0 1 6,
   row9 7 (-2) 3 4 6 0 1 2 8, row9 7 (-2) 3 4 6 1 0 2 8, row9 7 (-2) 3 4 6 2 0 1 8,
   row9 7 (-2) 3 4 8 0 1 2 6, row9 7 (-2) 3 4 8 1 0 2 6, row9 7 (-2) 3 4 8 2 0 1 6,
   row9 7 (-2) 0 4 5 1 2 3 8, row9 7 (-2) 0 4 5 2 1 3 8, row9 7 (-2) 0 4 5 3 1 2 8,
   row9 7 (-2) 1 4 5 0 2 3 8, row9 7 (-2) 1 4 5 2 0 3 8, row9 7 (-2) 1 4 5 3 0 2 8,
   row9 7 (-2) 2 4 5 0 1 3 8, row9 7 (-2) 2 4 5 1 0 3 8, row9 7 (-2) 2 4 5 3 0 1 8,
   row9 7 (-2) 3 4 5 0 1 2 8, row9 7 (-2) 3 4 5 1 0 2 8, row9 7 (-2) 3 4 5 2 0 1 8,
   row9 8 (-2) 0 5 6 1 2 3 7, row9 8 (-2) 0 5 6 2 1 3 7, row9 8 (-2) 0 5 6 3 1 2 7,
   row9 8 (-2) 0 5 7 1 2 3 6, row9 8 (-2) 0 5 7 2 1 3 6, row9 8 (-2) 0 5 7 3 1 2 6,
   row9 8 (-2) 0 6 7 1 2 3 5, row9 8 (-2) 0 6 7 2 1 3 5, row9 8 (-2) 0 6 7 3 1 2 5,
   row9 8 (-2) 1 5 6 0 2 3 7, row9 8 (-2) 1 5 6 2 0 3 7, row9 8 (-2) 1 5 6 3 0 2 7,
   row9 8 (-2) 1 5 7 0 2 3 6, row9 8 (-2) 1 5 7 2 0 3 6, row9 8 (-2) 1 5 7 3 0 2 6,
   row9 8 (-2) 1 6 7 0 2 3 5, row9 8 (-2) 1 6 7 2 0 3 5, row9 8 (-2) 1 6 7 3 0 2 5,
   row9 8 (-2) 2 5 6 0 1 3 7, row9 8 (-2) 2 5 6 1 0 3 7, row9 8 (-2) 2 5 6 3 0 1 7,
   row9 8 (-2) 2 5 7 0 1 3 6, row9 8 (-2) 2 5 7 1 0 3 6, row9 8 (-2) 2 5 7 3 0 1 6,
   row9 8 (-2) 2 6 7 0 1 3 5, row9 8 (-2) 2 6 7 1 0 3 5, row9 8 (-2) 2 6 7 3 0 1 5,
   row9 8 (-2) 3 5 6 0 1 2 7, row9 8 (-2) 3 5 6 1 0 2 7, row9 8 (-2) 3 5 6 2 0 1 7,
   row9 8 (-2) 3 5 7 0 1 2 6, row9 8 (-2) 3 5 7 1 0 2 6, row9 8 (-2) 3 5 7 2 0 1 6,
   row9 8 (-2) 3 6 7 0 1 2 5, row9 8 (-2) 3 6 7 1 0 2 5, row9 8 (-2) 3 6 7 2 0 1 5,
   row9 8 (-2) 0 4 6 1 2 3 7, row9 8 (-2) 0 4 6 2 1 3 7, row9 8 (-2) 0 4 6 3 1 2 7,
   row9 8 (-2) 0 4 7 1 2 3 6, row9 8 (-2) 0 4 7 2 1 3 6, row9 8 (-2) 0 4 7 3 1 2 6,
   row9 8 (-2) 1 4 6 0 2 3 7, row9 8 (-2) 1 4 6 2 0 3 7, row9 8 (-2) 1 4 6 3 0 2 7,
   row9 8 (-2) 1 4 7 0 2 3 6, row9 8 (-2) 1 4 7 2 0 3 6, row9 8 (-2) 1 4 7 3 0 2 6,
   row9 8 (-2) 2 4 6 0 1 3 7, row9 8 (-2) 2 4 6 1 0 3 7, row9 8 (-2) 2 4 6 3 0 1 7,
   row9 8 (-2) 2 4 7 0 1 3 6, row9 8 (-2) 2 4 7 1 0 3 6, row9 8 (-2) 2 4 7 3 0 1 6,
   row9 8 (-2) 3 4 6 0 1 2 7, row9 8 (-2) 3 4 6 1 0 2 7, row9 8 (-2) 3 4 6 2 0 1 7,
   row9 8 (-2) 3 4 7 0 1 2 6, row9 8 (-2) 3 4 7 1 0 2 6, row9 8 (-2) 3 4 7 2 0 1 6,
   row9 8 (-2) 0 4 5 1 2 3 7, row9 8 (-2) 0 4 5 2 1 3 7, row9 8 (-2) 0 4 5 3 1 2 7,
   row9 8 (-2) 1 4 5 0 2 3 7, row9 8 (-2) 1 4 5 2 0 3 7, row9 8 (-2) 1 4 5 3 0 2 7,
   row9 8 (-2) 2 4 5 0 1 3 7, row9 8 (-2) 2 4 5 1 0 3 7, row9 8 (-2) 2 4 5 3 0 1 7,
   row9 8 (-2) 3 4 5 0 1 2 7, row9 8 (-2) 3 4 5 1 0 2 7, row9 8 (-2) 3 4 5 2 0 1 7]

/-- Literal table of get_permutations for nb = 4, nq = 5, lost = [0, 1] (Parameters.cc lines 2784-2903, 120 rows). -/
def vec_9j4b_0_1 : List (List Int) :=
  [row9 (-2) (-2) 0 6 7 1 2 3 8, row9 (-2) (-2) 0 6 7 2 1 3 8, row9 (-2) (-2) 0 6 7 3 1 2 8,
   row9 (-2) (-2) 0 6 8 1 2 3 7, row9 (-2) (-2) 0 6 8 2 1 3 7, row9 (-2) (-2) 0 6 8 3 1 2 7,
   row9 (-2) (-2) 0 7 8 1 2 3 6, row9 (-2) (-2) 0 7 8 2 1 3 6, row9 (-2) (-2) 0 7 8 3 1 2 6,
   row9 (-2) (-2) 1 6 7 0 2 3 8, row9 (-2) (-2) 1 6 7 2 0 3 8, row9 (-2) (-2) 1 6 7 3 0 2 8,
   row9 (-2) (-2) 1 6 8 0 2 3 7, row9 (-2) (-2) 1 6 8 2 0 3 7, row9 (-2) (-2) 1 6 8 3 0 2 7,
   row9 (-2) (-2) 1 7 8 0 2 3 6, row9 (-2) (-2) 1 7 8 2 0 3 6, row9 (-2) (-2) 1 7 8 3 0 2 6,
   row9 (-2) (-2) 2 6 7 0 1 3 8, row9 (-2) (-2) 2 6 7 1 0 3 8, row9 (-2) (-2) 2 6 7 3 0 1 8,
   row9 (-2) (-2) 2 6 8 0 1 3 7, row9 (-2) (-2) 2 6 8 1 0 3 7, row9 (-2) (-2) 2 6 8 3 0 1 7,
   row9 (-2) (-2) 2 7 8 0 1 3 6, row9 (-2) (-2) 2 7 8 1 0 3 6, row9 (-2) (-2) 2 7 8 3 0 1 6,
   row9 (-2) (-2) 3 6 7 0 1 2 8, row9 (-2) (-2) 3 6 7 1 0 2 8, row9 (-2) (-2) 3 6 7 2 0 1 8,
   row9 (-2) (-2) 3 6 8 0 1 2 7, row9 (-2) (-2) 3 6 8 1 0 2 7, row9 (-2) (-2) 3 6 8 2 0 1 7,
   row9 (-2) (-2) 3 7 8 0 1 2 6, row9 (-2) (-2) 3 7 8 1 0 2 6, row9 (-2) (-2) 3 7 8 2 0 1 6,
   row9 (-2) (-2) 0 5 7 1 2 3 8, row9 (-2) (-2) 0 5 7 2 1 3 8, row9 (-2) (-2) 0 5 7 3 1 2 8,
   row9 (-2) (-2) 0 5 8 1 2 3 7, row9 (-2) (-2) 0 5 8 2 1 3 7, row9 (-2) (-2) 0 5 8 3 1 2 7,
   row9 (-2) (-2) 1 5 7 0 2 3 8, row9 (-2) (-2) 1 5 7 2 0 3 8, row9 (-2) (-2) 1 5 7 3 0 2 8,
   row9 (-2) (-2) 1 5 8 0 2 3 7, row9 (-2) (-2) 1 5 8 2 0 3 7, row9 (-2) (-2) 1 5 8 3 0 2 7,
   row9 (-2) (-2) 2 5 7 0 1 3 8, row9 (-2) (-2) 2 5 7 1 0 3 8, row9 (-2) (-2) 2 5 7 3 0 1 8,
   row9 (-2) (-2) 2 5 8 0 1 3 7, row9 (-2) (-2) 2 5 8 1 0 3 7, row9 (-2) (-2) 2 5 8 3 0 1 7,
   row9 (-2) (-2) 3 5 7 0 1 2 8, row9 (-2) (-2) 3 5 7 1 0 2 8, row9 (-2) (-2) 3 5 7 2 0 1 8,
   row9 (-2) (-2) 3 5 8 0 1 2 7, row9 (-2) (-2) 3 5 8 1 0 2 7, row9 (-2) (-2) 3 5 8 2 0 1 7,
   row9 (-2) (-2) 0 5 6 1 2 3 8, row9 (-2) (-2) 0 5 6 2 1 3 8, row9 (-2) (-2) 0 5 6 3 1 2 8,
   row9 (-2) (-2) 1 5 6 0 2 3 8, row9 (-2) (-2) 1 5 6 2 0 3 8, row9 (-2) (-2) 1 5 6 3 0 2 8,
   row9 (-2) (-2) 2 5 6 0 1 3 8, row9 (-2) (-2) 2 5 6 1 0 3 8, row9 (-2) (-2) 2 5 6 3 0 1 8,
   row9 (-2) (-2) 3 5 6 0 1 2 8, row9 (-2) (-2) 3 5 6 1 0 2 8, row9 (-2) (-2) 3 5 6 2 0 1 8,
   row9 (-2) (-2) 0 4 7 1 2 3 8, row9 (-2) (-2) 0 4 7 2 1 3 8, row9 (-2) (-2) 0 4 7 3 1 2 8,
   row9 (-2) (-2) 0 4 8 1 2 3 7, row9 (-2) (-2) 0 4 8 2 1 3 7, row9 (-2) (-2) 0 4 8 3 1 2 7,
   row9 (-2) (-2) 1 4 7 0 2 3 8, row9 (-2) (-2) 1 4 7 2 0 3 8, row9 (-2) (-2) 1 4 7 3 0 2 8,
   row9 (-2) (-2) 1 4 8 0 2 3 7, row9 (-2) (-2) 1 4 8 2 0 3 7, row9 (-2) (-2) 1 4 8 3 0 2 7,
   row9 (-2) (-2) 2 4 7 0 1 3 8, row9 (-2) (-2) 2 4 7 1 0 3 8, row9 (-2) (-2) 2 4 7 3 0 1 8,
   row9 (-2) (-2) 2 4 8 0 1 3 7, row9 (-2) (-2) 2 4 8 1 0 3 7, row9 (-2) (-2) 2 4 8 3 0 1 7,
   row9 (-2) (-2) 3 4 7 0 1 2 8, row9 (-2) (-2) 3 4 7 1 0 2 8, row9 (-2) (-2) 3 4 7 2 0 1 8,
   row9 (-2) (-2) 3 4 8 0 1 2 7, row9 (-2) (-2) 3 4 8 1 0 2 7, row9 (-2) (-2) 3 4 8 2 0 1 7,
   row9 (-2) (-2) 0 4 6 1 2 3 8, row9 (-2) (-2) 0 4 6 2 1 3 8, row9 (-2) (-2) 0 4 6 3 1 2 8,
   row9 (-2) (-2) 1 4 6 0 2 3 8, row9 (-2) (-2) 1 4 6 2 0 3 8, row9 (-2) (-2) 1 4 6 3 0 2 8,
   row9 (-2) (-2) 2 4 6 0 1 3 8, row9 (-2) (-2) 2 4 6 1 0 3 8, row9 (-2) (-2) 2 4 6 3 0 1 8,
   row9 (-2) (-2) 3 4 6 0 1 2 8, row9 (-2) (-2) 3 4 6 1 0 2 8, row9 (-2) (-2) 3 4 6 2 0 1 8,
   row9 (-2) (-2) 0 4 5 1 2 3 8, row9 (-2) (-2) 0 4 5 2 1 3 8, row9 (-2) (-2) 0 4 5 3 1 2 8,
   row9 (-2) (-2) 1 4 5 0 2 3 8, row9 (-2) (-2) 1 4 5 2 0 3 8, row9 (-2) (-2) 1 4 5 3 0 2 8,
   row9 (-2) (-2) 2 4 5 0 1 3 8, row9 (-2) (-2) 2 4 5 1 0 3 8, row9 (-2) (-2) 2 4 5 3 0 1 8,
   row9 (-2) (-2) 3 4 5 0 1 2 8, row9 (-2) (-2) 3 4 5 1 0 2 8, row9 (-2) (-2) 3 4 5 2 0 1 8]

/-- Literal table of get_permutations for nb = 4, nq = 5, lost = [1, 4] (Parameters.cc lines 2907-3146, 240 rows). -/
def vec_9j4b_1_4 : List (List Int) :=
  [row9 4 (-2) 0 6 (-2) 1 2 3 8, row9 4 (-2) 0 6 (-2) 2 1 3 8, row9 4 (-2) 0 6 (-2) 3 1 2 8,
   row9 4 (-2) 0 7 (-2) 1 2 3 8, row9 4 (-2) 0 7 (-2) 2 1 3 8, row9 4 (-2) 0 7 (-2) 3 1 2 8,
   row9 4 (-2) 0 8 (-2) 1 2 3 7, row9 4 (-2) 0 8 (-2) 2 1 3 7, row9 4 (-2) 0 8 (-2) 3 1 2 7,
   row9 4 (-2) 1 6 (-2) 0 2 3 8, row9 4 (-2) 1 6 (-2) 2 0 3 8, row9 4 (-2) 1 6 (-2) 3 0 2 8,
   row9 4 (-2) 1 7 (-2) 0 2 3 8, row9 4 (-2) 1 7 (-2) 2 0 3 8, row9 4 (-2) 1 7 (-2) 3 0 2 8,
   row9 4 (-2) 1 8 (-2) 0 2 3 7, row9 4 (-2) 1 8 (-2) 2 0 3 7, row9 4 (-2) 1 8 (-2) 3 0 2 7,
   row9 4 (-2) 2 6 (-2) 0 1 3 8, row9 4 (-2) 2 6 (-2) 1 0 3 8, row9 4 (-2) 2 6 (-2) 3 0 1 8,
   row9 4 (-2) 2 7 (-2) 0 1 3 8, row9 4 (-2) 2 7 (-2) 1 0 3 8, row9 4 (-2) 2 7 (-2) 3 0 1 8,
   row9 4 (-2) 2 8 (-2) 0 1 3 7, row9 4 (-2) 2 8 (-2) 1 0 3 7, row9 4 (-2) 2 8 (-2) 3 0 1 7,
   row9 4 (-2) 3 6 (-2) 0 1 2 8, row9 4 (-2) 3 6 (-2) 1 0 2 8, row9 4 (-2) 3 6 (-2) 2 0 1 8,
   row9 4 (-2) 3 7 (-2) 0 1 2 8, row9 4 (-2) 3 7 (-2) 1 0 2 8, row9 4 (-2) 3 7 (-2) 2 0 1 8,
   row9 4 (-2) 3 8 (-2) 0 1 2 7, row9 4 (-2) 3 8 (-2) 1 0 2 7, row9 4 (-2) 3 8 (-2) 2 0 1 7,
   row9 4 (-2) 0 5 (-2) 1 2 3 8, row9 4 (-2) 0 5 (-2) 2 1 3 8, row9 4 (-2) 0 5 (-2) 3 1 2 8,
   row9 4 (-2) 1 5 (-2) 0 2 3 8, row9 4 (-2) 1 5 (-2) 2 0 3 8, row9 4 (-2) 1 5 (-2) 3 0 2 8,
   row9 4 (-2) 2 5 (-2) 0 1 3 8, row9 4 (-2) 2 5 (-2) 1 0 3 8, row9 4 (-2) 2 5 (-2) 3 0 1 8,
   row9 4 (-2) 3 5 (-2) 0 1 2 8, row9 4 (-2) 3 5 (-2) 1 0 2 8, row9 4 (-2) 3 5 (-2) 2 0 1 8,
   row9 5 (-2) 0 6 (-2) 1 2 3 8, row9 5 (-2) 0 6 (-2) 2 1 3 8, row9 5 (-2) 0 6 (-2) 3 1 2 8,
   row9 5 (-2) 0 7 (-2) 1 2 3 8, row9 5 (-2) 0 7 (-2) 2 1 3 8, row9 5 (-2) 0 7 (-2) 3 1 2 8,
   row9 5 (-2) 0 8 (-2) 1 2 3 7, row9 5 (-2) 0 8 (-2) 2 1 3 7, row9 5 (-2) 0 8 (-2) 3 1 2 7,
   row9 5 (-2) 1 6 (-2) 0 2 3 8, row9 5 (-2) 1 6 (-2) 2 0 3 8, row9 5 (-2) 1 6 (-2) 3 0 2 8,
   row9 5 (-2) 1 7 (-2) 0 2 3 8, row9 5 (-2) 1 7 (-2) 2 0 3 8, row9 5 (-2) 1 7 (-2) 3 0 2 8,
   row9 5 (-2) 1 8 (-2) 0 2 3 7, row9 5 (-2) 1 8 (-2) 2 0 3 7, row9 5 (-2) 1 8 (-2) 3 0 2 7,
   row9 5 (-2) 2 6 (-2) 0 1 3 8, row9 5 (-2) 2 6 (-2) 1 0 3 8, row9 5 (-2) 2 6 (-2) 3 0 1 8,
   row9 5 (-2) 2 7 (-2) 0 1 3 8, row9 5 (-2) 2 7 (-2) 1 0 3 8, row9 5 (-2) 2 7 (-2) 3 0 1 8,
   row9 5 (-2) 2 8 (-2) 0 1 3 7, row9 5 (-2) 2 8 (-2) 1 0 3 7, row9 5 (-2) 2 8 (-2) 3 0 1 7,
   row9 5 (-2) 3 6 (-2) 0 1 2 8, row9 5 (-2) 3 6 (-2) 1 0 2 8, row9 5 (-2) 3 6 (-2) 2 0 1 8,
   row9 5 (-2) 3 7 (-2) 0 1 2 8, row9 5 (-2) 3 7 (-2) 1 0 2 8, row9 5 (-2) 3 7 (-2) 2 0 1 8,
   row9 5 (-2) 3 8 (-2) 0 1 2 7, row9 5 (-2) 3 8 (-2) 1 0 2 7, row9 5 (-2) 3 8 (-2) 2 0 1 7,
   row9 5 (-2) 0 4 (-2) 1 2 3 8, row9 5 (-2) 0 4 (-2) 2 1 3 8, row9 5 (-2) 0 4 (-2) 3 1 2 8,
   row9 5 (-2) 1 4 (-2) 0 2 3 8, row9 5 (-2) 1 4 (-2) 2 0 3 8, row9 5 (-2) 1 4 (-2) 3 0 2 8,
   row9 5 (-2) 2 4 (-2) 0 1 3 8, row9 5 (-2) 2 4 (-2) 1 0 3 8, row9 5 (-2) 2 4 (-2) 3 0 1 8,
   row9 5 (-2) 3 4 (-2) 0 1 2 8, row9 5 (-2) 3 4 (-2) 1 0 2 8, row9 5 (-2) 3 4 (-2) 2 0 1 8,
   row9 6 (-2) 0 5 (-2) 1 2 3 8, row9 6 (-2) 0 5 (-2) 2 1 3 8, row9 6 (-2) 0 5 (-2) 3 1 2 8,
   row9 6 (-2) 0 7 (-2) 1 2 3 8, row9 6 (-2) 0 7 (-2) 2 1 3 8, row9 6 (-2) 0 7 (-2) 3 1 2 8,
   row9 6 (-2) 0 8 (-2) 1 2 3 7, row9 6 (-2) 0 8 (-2) 2 1 3 7, row9 6 (-2) 0 8 (-2) 3 1 2 7,
   row9 6 (-2) 1 5 (-2) 0 2 3 8, row9 6 (-2) 1 5 (-2) 2 0 3 8, row9 6 (-2) 1 5 (-2) 3 0 2 8,
   row9 6 (-2) 1 7 (-2) 0 2 3 8, row9 6 (-2) 1 7 (-2) 2 0 3 8, row9 6 (-2) 1 7 (-2) 3 0 2 8,
   row9 6 (-2) 1 8 (-2) 0 2 3 7, row9 6 (-2) 1 8 (-2) 2 0 3 7, row9 6 (-2) 1 8 (-2) 3 0 2 7,
   row9 6 (-2) 2 5 (-2) 0 1 3 8, row9 6 (-2) 2 5 (-2) 1 0 3 8, row9 6 (-2) 2 5 (-2) 3 0 1 8,
   row9 6 (-2) 2 7 (-2) 0 1 3 8, row9 6 (-2) 2 7 (-2) 1 0 3 8, row9 6 (-2) 2 7 (-2) 3 0 1 8,
   row9 6 (-2) 2 8 (-2) 0 1 3 7, row9 6 (-2) 2 8 (-2) 1 0 3 7, row9 6 (-2) 2 8 (-2) 3 0 1 7,
   row9 6 (-2) 3 5 (-2) 0 1 2 8, row9 6 (-2) 3 5 (-2) 1 0 2 8, row9 6 (-2) 3 5 (-2) 2 0 1 8,
   row9 6 (-2) 3 7 (-2) 0 1 2 8, row9 6 (-2) 3 7 (-2) 1 0 2 8, row9 6 (-2) 3 7 (-2) 2 0 1 8,
   row9 6 (-2) 3 8 (-2) 0 1 2 7, row9 6 (-2) 3 8 (-2) 1 0 2 7, row9 6 (-2) 3 8 (-2) 2 0 1 7,
   row9 6 (-2) 0 4 (-2) 1 2 3 8, row9 6 (-2) 0 4 (-2) 2 1 3 8, row9 6 (-2) 0 4 (-2) 3 1 2 8,
   row9 6 (-2) 1 4 (-2) 0 2 3 8, row9 6 (-2) 1 4 (-2) 2 0 3 8, row9 6 (-2) 1 4 (-2) 3 0 2 8,
   row9 6 (-2) 2 4 (-2) 0 1 3 8, row9 6 (-2) 2 4 (-2) 1 0 3 8, row9 6 (-2) 2 4 (-2) 3 0 1 8,
   row9 6 (-2) 3 4 (-2) 0 1 2 8, row9 6 (-2) 3 4 (-2) 1 0 2 8, row9 6 (-2) 3 4 (-2) 2 0 1 8,
   row9 7 (-2) 0 5 (-2) 1 2 3 8, row9 7 (-2) 0 5 (-2) 2 1 3 8, row9 7 (-2) 0 5 (-2) 3 1 2 8,
   row9 7 (-2) 0 6 (-2) 1 2 3 8, row9 7 (-2) 0 6 (-2) 2 1 3 8, row9 7 (-2) 0 6 (-2) 3 1 2 8,
   row9 7 (-2) 0 8 (-2) 1 2 3 6, row9 7 (-2) 0 8 (-2) 2 1 3 6, row9 7 (-2) 0 8 (-2) 3 1 2 6,
   row9 7 (-2) 1 5 (-2) 0 2 3 8, row9 7 (-2) 1 5 (-2) 2 0 3 8, row9 7 (-2) 1 5 (-2) 3 0 2 8,
   row9 7 (-2) 1 6 (-2) 0 2 3 8, row9 7 (-2) 1 6 (-2) 2 0 3 8, row9 7 (-2) 1 6 (-2) 3 0 2 8,
   row9 7 (-2) 1 8 (-2) 0 2 3 6, row9 7 (-2) 1 8 (-2) 2 0 3 6, row9 7 (-2) 1 8 (-2) 3 0 2 6,
   row9 7 (-2) 2 5 (-2) 0 1 3 8, row9 7 (-2) 2 5 (-2) 1 0 3 8, row9 7 (-2) 2 5 (-2) 3 0 1 8,
   row9 7 (-2) 2 6 (-2) 0 1 3 8, row9 7 (-2) 2 6 (-2) 1 0 3 8, row9 7 (-2) 2 6 (-2) 3 0 1 8,
   row9 7 (-2) 2 8 (-2) 0 1 3 6, row9 7 (-2) 2 8 (-2) 1 0 3 6, row9 7 (-2) 2 8 (-2) 3 0 1 6,
   row9 7 (-2) 3 5 (-2) 0 1 2 8, row9 7 (-2) 3 5 (-2) 1 0 2 8, row9 7 (-2) 3 5 (-2) 2 0 1 8,
   row9 7 (-2) 3 6 (-2) 0 1 2 8, row9 7 (-2) 3 6 (-2) 1 0 2 8, row9 7 (-2) 3 6 (-2) 2 0 1 8,
   row9 7 (-2) 3 8 (-2) 0 1 2 6, row9 7 (-2) 3 8 (-2) 1 0 2 6, row9 7 (-2) 3 8 (-2) 2 0 1 6,
   row9 7 (-2) 0 4 (-2) 1 2 3 8, row9 7 (-2) 0 4 (-2) 2 1 3 8, row9 7 (-2) 0 4 (-2) 3 1 2 8,
   row9 7 (-2) 1 4 (-2) 0 2 3 8, row9 7 (-2) 1 4 (-2) 2 0 3 8, row9 7 (-2) 1 4 (-2) 3 0 2 8,
   row9 7 (-2) 2 4 (-2) 0 1 3 8, row9 7 (-2) 2 4 (-2) 1 0 3 8, row9 7 (-2) 2 4 (-2) 3 0 1 8,
   row9 7 (-2) 3 4 (-2) 0 1 2 8, row9 7 (-2) 3 4 (-2) 1 0 2 8, row9 7 (-2) 3 4 (-2) 2 0 1 8,
   row9 8 (-2) 0 5 (-2) 1 2 3 7, row9 8 (-2) 0 5 (-2) 2 1 3 7, row9 8 (-2) 0 5 (-2) 3 1 2 7,
   row9 8 (-2) 0 6 (-2) 1 2 3 7, row9 8 (-2) 0 6 (-2) 2 1 3 7, row9 8 (-2) 0 6 (-2) 3 1 2 7,
   row9 8 (-2) 0 7 (-2) 1 2 3 6, row9 8 (-2) 0 7 (-2) 2 1 3 6, row9 8 (-2) 0 7 (-2) 3 1 2 6,
   row9 8 (-2) 1 5 (-2) 0 2 3 7, row9 8 (-2) 1 5 (-2) 2 0 3 7, row9 8 (-2) 1 5 (-2) 3 0 2 7,
   row9 8 (-2) 1 6 (-2) 0 2 3 7, row9 8 (-2) 1 6 (-2) 2 0 3 7, row9 8 (-2) 1 6 (-2) 3 0 2 7,
   row9 8 (-2) 1 7 (-2) 0 2 3 6, row9 8 (-2) 1 7 (-2) 2 0 3 6, row9 8 (-2) 1 7 (-2) 3 0 2 6,
   row9 8 (-2) 2 5 (-2) 0 1 3 7, row9 8 (-2) 2 5 (-2) 1 0 3 7, row9 8 (-2) 2 5 (-2) 3 0 1 7,
   row9 8 (-2) 2 6 (-2) 0 1 3 7, row9 8 (-2) 2 6 (-2) 1 0 3 7, row9 8 (-2) 2 6 (-2) 3 0 1 7,
   row9 8 (-2) 2 7 (-2) 0 1 3 6, row9 8 (-2) 2 7 (-2) 1 0 3 6, row9 8 (-2) 2 7 (-2) 3 0 1 6,
   row9 8 (-2) 3 5 (-2) 0 1 2 7, row9 8 (-2) 3 5 (-2) 1 0 2 7, row9 8 (-2) 3 5 (-2) 2 0 1 7,
   row9 8 (-2) 3 6 (-2) 0 1 2 7, row9 8 (-2) 3 6 (-2) 1 0 2 7, row9 8 (-2) 3 6 (-2) 2 0 1 7,
   row9 8 (-2) 3 7 (-2) 0 1 2 6, row9 8 (-2) 3 7 (-2) 1 0 2 6, row9 8 (-2) 3 7 (-2) 2 0 1 6,
   row9 8 (-2) 0 4 (-2) 1 2 3 7, row9 8 (-2) 0 4 (-2) 2 1 3 7, row9 8 (-2) 0 4 (-2) 3 1 2 7,
   row9 8 (-2) 1 4 (-2) 0 2 3 7, row9 8 (-2) 1 4 (-2) 2 0 3 7, row9 8 (-2) 1 4 (-2) 3 0 2 7,
   row9 8 (-2) 2 4 (-2) 0 1 3 7, row9 8 (-2) 2 4 (-2) 1 0 3 7, row9 8 (-2) 2 4 (-2) 3 0 1 7,
   row9 8 (-2) 3 4 (-2) 0 1 2 7, row9 8 (-2) 3 4 (-2) 1 0 2 7, row9 8 (-2) 3 4 (-2) 2 0 1 7]

/-- Literal table of get_permutations for nb = 4, nq = 5, lost = [0, 1, 3, 4] (Parameters.cc lines 3151-3162, 12 rows). -/
def vec_9j4b_0_1_3_4 : List (List Int) :=
  [row9 (-2) (-2) 0 (-2) (-2) 1 2 3 8, row9 (-2) (-2) 0 (-2) (-2) 2 1 3 8, row9 (-2) (-2) 0 (-2) (-2) 3 1 2 8,
   row9 (-2) (-2) 1 (-2) (-2) 0 2 3 8, row9 (-2) (-2) 1 (-2) (-2) 2 0 3 8, row9 (-2) (-2) 1 (-2) (-2) 3 0 2 8,
   row9 (-2) (-2) 2 (-2) (-2) 0 1 3 8, row9 (-2) (-2) 2 (-2) (-2) 1 0 3 8, row9 (-2) (-2) 2 (-2) (-2) 3 0 1 8,
   row9 (-2) (-2) 3 (-2) (-2) 0 1 2 8, row9 (-2) (-2) 3 (-2) (-2) 1 0 2 8, row9 (-2) (-2) 3 (-2) (-2) 2 0 1 8]

/-- Literal table of get_permutations for nb = 4, nq = 5, lost = [0, 1, 3, 4, 2] (Parameters.cc lines 3167-3178, 12 rows). -/
def vec_9j4b_0_1_3_4_2 : List (List Int) :=
  [row9 (-2) (-2) (-2) (-2) (-2) 1 2 3 8, row9 (-2) (-2) (-2) (-2) (-2) 2 1 3 8, row9 (-2) (-2) (-2) (-2) (-2) 3 1 2 8,
   row9 (-2) (-2) (-2) (-2) (-2) 0 2 3 8, row9 (-2) (-2) (-2) (-2) (-2) 2 0 3 8, row9 (-2) (-2) (-2) (-2) (-2) 3 0 2 8,
   row9 (-2) (-2) (-2) (-2) (-2) 0 1 3 8, row9 (-2) (-2) (-2) (-2) (-2) 1 0 3 8, row9 (-2) (-2) (-2) (-2) (-2) 3 0 1 8,
   row9 (-2) (-2) (-2) (-2) (-2) 0 1 2 8, row9 (-2) (-2) (-2) (-2) (-2) 1 0 2 8, row9 (-2) (-2) (-2) (-2) (-2) 2 0 1 8]
/-- Return value of `get_permutations` together with the lines it writes to
`std::cout`. -/
structure PermOutput where
  /-- The returned `vector<vector<int>>`. -/
  perms : List (List Int)
  /-- The lines written to standard output, in order. -/
  cout : List String
  deriving DecidableEq

/-- Element access `lost[i]` of the `std::vector<std::size_t>`; every use is
guarded by a test of `lost.size()`. -/
def lostAt (lost : List Nat) (i : Nat) : Nat := lost.getD i 0

/-- `MEM::get_permutations` (Parameters.cc lines 896-3186): selects one of the
literal tables from `nb`, `nq` and the list of lost role indices. In the
branches that define no table a line is printed and the empty `perms` is
returned. -/
def get_permutations (nb nq : Nat) (lost : List Nat) : PermOutput :=
  let nlost := lost.length
  if nq = 4 ∧ nb = 4 then
    if nlost = 0 then ⟨vec_8j4b, []⟩
    else if nlost = 1 ∧ lostAt lost 0 = 1 then ⟨vec_8j4b_1, []⟩
    else if nlost = 2 ∧ lostAt lost 0 = 0 ∧ lostAt lost 1 = 1 then ⟨vec_8j4b_0_1, []⟩
    else if nlost = 2 ∧ lostAt lost 0 = 1 ∧ lostAt lost 1 = 4 then ⟨vec_8j4b_1_4, []⟩
    else if nlost = 4 ∧ lostAt lost 0 = 0 ∧ lostAt lost 1 = 1 ∧ lostAt lost 2 = 3 ∧
        lostAt lost 3 = 4 then ⟨vec_8j4b_0_1_3_4, []⟩
    else if nlost = 5 ∧ lostAt lost 0 = 0 ∧ lostAt lost 1 = 1 ∧ lostAt lost 2 = 3 ∧
        lostAt lost 3 = 4 ∧ lostAt lost 4 = 2 then ⟨vec_8j4b_0_1_3_4_2, []⟩
    else ⟨[], ["8j,4b " ++ toString nlost ++ " lost not defined"]⟩
  else if nq = 5 ∧ nb = 3 then
    if nlost = 1 ∧ lostAt lost 0 = 2 then ⟨vec_8j3b_2, []⟩
    else if nlost = 1 ∧ lostAt lost 0 = 7 then ⟨vec_8j3b_7, []⟩
    else if nlost = 2 ∧ lostAt lost 0 = 1 ∧ lostAt lost 1 = 2 then ⟨vec_8j3b_1_2, []⟩
    else if nlost = 5 ∧ lostAt lost 0 = 0 ∧ lostAt lost 1 = 1 ∧ lostAt lost 2 = 3 ∧
        lostAt lost 3 = 4 ∧ lostAt lost 4 = 2 then ⟨vec_8j3b_0_1_3_4_2, []⟩
    else ⟨[], ["8j,3b " ++ toString nlost ++ " lost not defined"]⟩
  else if nq = 3 ∧ nb = 4 then
    if nlost = 1 ∧ lostAt lost 0 = 1 then ⟨vec_7j4b_1, []⟩
    else if nlost = 2 ∧ lostAt lost 0 = 0 ∧ lostAt lost 1 = 1 then ⟨vec_7j4b_0_1, []⟩
    else if nlost = 2 ∧ lostAt lost 0 = 1 ∧ lostAt lost 1 = 4 then ⟨vec_7j4b_1_4, []⟩
    else if nlost = 4 ∧ lostAt lost 0 = 0 ∧ lostAt lost 1 = 1 ∧ lostAt lost 2 = 3 ∧
        lostAt lost 3 = 4 then ⟨vec_7j4b_0_1_3_4, []⟩
    else if nlost = 5 ∧ lostAt lost 0 = 0 ∧ lostAt lost 1 = 1 ∧ lostAt lost 2 = 3 ∧
        lostAt lost 3 = 4 ∧ lostAt lost 4 = 2 then ⟨vec_7j4b_0_1_3_4_2, []⟩
    else ⟨[], ["7j,4b " ++ toString nlost ++ " lost not defined"]⟩
  else if nq = 4 ∧ nb = 3 then
    if nlost = 1 ∧ lostAt lost 0 = 2 then ⟨vec_7j3b_2, []⟩
    else if nlost = 1 ∧ lostAt lost 0 = 7 then ⟨vec_7j3b_7, []⟩
    else if nlost = 2 ∧ lostAt lost 0 = 1 ∧ lostAt lost 1 = 2 then ⟨vec_7j3b_1_2, []⟩
    else if nlost = 5 ∧ lostAt lost 0 = 0 ∧ lostAt lost 1 = 1 ∧ lostAt lost 2 = 3 ∧
        lostAt lost 3 = 4 ∧ lostAt lost 4 = 2 then ⟨vec_7j3b_0_1_3_4_2, []⟩
    else ⟨[], ["7j,3b " ++ toString nlost ++ " lost not defined"]⟩
  else if nq = 5 ∧ nb = 4 then
    if nlost = 0 then ⟨vec_9j4b, []⟩
    else if nlost = 1 ∧ lostAt lost 0 = 1 then ⟨vec_9j4b_1, []⟩
    else if nlost = 2 ∧ lostAt lost 0 = 0 ∧ lostAt lost 1 = 1 then ⟨vec_9j4b_0_1, []⟩
    else if nlost = 2 ∧ lostAt lost 0 = 1 ∧ lostAt lost 1 = 4 then ⟨vec_9j4b_1_4, []⟩
    else if nlost = 4 ∧ lostAt lost 0 = 0 ∧ lostAt lost 1 = 1 ∧ lostAt lost 2 = 3 ∧
        lostAt lost 3 = 4 then ⟨vec_9j4b_0_1_3_4, []⟩
    else if nlost = 5 ∧ lostAt lost 0 = 0 ∧ lostAt lost 1 = 1 ∧ lostAt lost 2 = 3 ∧
        lostAt lost 3 = 4 ∧ lostAt lost 4 = 2 then ⟨vec_9j4b_0_1_3_4_2, []⟩
    else ⟨[], ["9j,4b " ++ toString nlost ++ " lost not defined"]⟩
  else ⟨[], ["perms for " ++ toString ((nq + nb) % 2 ^ 64) ++ " quarks not defined"]⟩

/-- The topology keys `(nb, nq, lost)` for which `get_permutations` holds a
table: one entry per guarded branch of the source, in source order. -/
def definedTopologies : List (Nat × Nat × List Nat) :=
  [(4, 4, []), (4, 4, [1]), (4, 4, [0, 1]), (4, 4, [1, 4]), (4, 4, [0, 1, 3, 4]),
   (4, 4, [0, 1, 3, 4, 2]),
   (3, 5, [2]), (3, 5, [7]), (3, 5, [1, 2]), (3, 5, [0, 1, 3, 4, 2]),
   (4, 3, [1]), (4, 3, [0, 1]), (4, 3, [1, 4]), (4, 3, [0, 1, 3, 4]),
   (4, 3, [0, 1, 3, 4, 2]),
   (3, 4, [2]), (3, 4, [7]), (3, 4, [1, 2]), (3, 4, [0, 1, 3, 4, 2]),
   (4, 5, []), (4, 5, [1]), (4, 5, [0, 1]), (4, 5, [1, 4]), (4, 5, [0, 1, 3, 4]),
   (4, 5, [0, 1, 3, 4, 2])]

/-- A topology is supported when the source defines a table for it. -/
def supported (nb nq : Nat) (lost : List Nat) : Prop :=
  (nb, nq, lost) ∈ definedTopologies

instance (nb nq : Nat) (lost : List Nat) : Decidable (supported nb nq lost) := by
  unfold supported; infer_instance

/-- The sentinel stored in the slot of a lost parton. -/
def LOST : Int := -2

/-- Role slots of b-type partons. -/
def bSlots : List Nat := [2, 5, 6, 7]

/-- Role slots of light-type partons. -/
def qSlots : List Nat := [0, 1, 3, 4]

/-- The interchangeable role pairs. -/
def symPairs : List (Nat × Nat) := [(0, 1), (3, 4), (6, 7)]

/-- Entry `i` of a record. -/
def slot (r : List Int) (i : Nat) : Int := r.getD i 0

/-- The records that a complete enumeration for `(nb, nq, lost)` has to contain,
as the completeness property words them: eight role slots, the sentinel exactly
in the lost slots, b-tagged jet indices `0..nb-1` in the other b-type slots and
other-jet indices `nb..nb+nq-1` in the other light-type slots, no jet index
twice, and ascending entries in every fully assigned interchangeable pair. -/
def isCanonicalRecord (nb nq : Nat) (lost : List Nat) (r : List Int) : Prop :=
  r.length = 8 ∧
  (∀ i ∈ List.range 8, i ∈ lost ↔ slot r i = LOST) ∧
  (∀ i ∈ bSlots, i ∉ lost → 0 ≤ slot r i ∧ slot r i < nb) ∧
  (∀ i ∈ qSlots, i ∉ lost → (nb : Int) ≤ slot r i ∧ slot r i < nb + nq) ∧
  (∀ i ∈ List.range 8, ∀ j ∈ List.range 8, i ≠ j → slot r i ≠ LOST → slot r i ≠ slot r j) ∧
  (∀ p ∈ symPairs, slot r p.1 ≠ LOST → slot r p.2 ≠ LOST → slot r p.1 < slot r p.2)

instance (nb nq : Nat) (lost : List Nat) (r : List Int) :
    Decidable (isCanonicalRecord nb nq lost r) := by
  unfold isCanonicalRecord; infer_instance

/-! ### Record invariants

An executable check of one returned record, used to establish the properties
of the records of every table in one pass, and the predicates these properties
are stated with. -/

/-- The value `v` is a jet index in the range `lo..hi-1`. -/
def inRange (lo hi : Nat) (v : Int) : Prop := (lo : Int) ≤ v ∧ v < hi

instance (lo hi : Nat) (v : Int) : Decidable (inRange lo hi v) := by
  unfold inRange; infer_instance

/-- Test for the sentinel `-2`. -/
def isLostB : Int → Bool
  | Int.negSucc 1 => true
  | _ => false

/-- Test for a jet index in `lo..hi-1`. -/
def isJetB (lo hi : Nat) : Int → Bool
  | Int.ofNat n => Nat.ble lo n && Nat.blt n hi
  | _ => false

/-- Equality test of two entries. -/
def entryEqB : Int → Int → Bool
  | Int.ofNat m, Int.ofNat n => Nat.beq m n
  | Int.negSucc m, Int.negSucc n => Nat.beq m n
  | _, _ => false

/-- Test of one role slot `i` holding `v`: the sentinel when `i` is lost,
otherwise a b-tagged jet index `0..nb-1` in a b-type slot and an other-jet index
`nb..nb+nq-1` in a light-type slot. -/
def slotOK (nb nq : Nat) (lost : List Nat) (i : Nat) (v : Int) : Bool :=
  if lost.elem i then isLostB v
  else if bSlots.elem i then isJetB 0 nb v
  else isJetB nb (nb + nq) v

/-- Test of an interchangeable pair: ascending unless one entry is the
sentinel. -/
def ascB (u v : Int) : Bool :=
  isLostB u || isLostB v ||
    match u, v with
    | Int.ofNat m, Int.ofNat n => Nat.blt m n
    | _, _ => false

/-- Test that no entry other than the sentinel occurs twice. -/
def distinctB : List Int → Bool
  | [] => true
  | v :: vs => (isLostB v || !vs.any (entryEqB v)) && distinctB vs

/-- Test of the eight role slots of a record. -/
def rolesOK (nb nq : Nat) (lost : List Nat) (a b c d e f g h : Int) : Bool :=
  slotOK nb nq lost 0 a && slotOK nb nq lost 1 b && slotOK nb nq lost 2 c &&
    slotOK nb nq lost 3 d && slotOK nb nq lost 4 e && slotOK nb nq lost 5 f &&
    slotOK nb nq lost 6 g && slotOK nb nq lost 7 h && ascB a b && ascB d e && ascB g h

/-- Test of a whole record: eight role slots, or eight role slots and a ninth
entry that is an other-jet index. -/
def rowOK (nb nq : Nat) (lost : List Nat) : List Int → Bool
  | [a, b, c, d, e, f, g, h] =>
    rolesOK nb nq lost a b c d e f g h && distinctB [a, b, c, d, e, f, g, h]
  | [a, b, c, d, e, f, g, h, k] =>
    rolesOK nb nq lost a b c d e f g h && isJetB nb (nb + nq) k &&
      distinctB [a, b, c, d, e, f, g, h, k]
  | _ => false

/-- Record `r2` is obtained from record `r1` by exchanging the entries of the
slots `a` and `b`. -/
def isPairSwap (a b : Nat) (r1 r2 : List Int) : Prop :=
  r2.length = r1.length ∧ slot r2 a = slot r1 b ∧ slot r2 b = slot r1 a ∧
    ∀ i, i ≠ a → i ≠ b → slot r2 i = slot r1 i

/-- The lost list sorted ascending. -/
def sortedLost (lost : List Nat) : List Nat := lost.insertionSort (fun a b => a ≤ b)

/-! ### Response model -/

/-- Modelled from the spec: the enumeration `TFType::TFType` is declared in
Parameters.h, which is absent; its members are the categories that
Parameters.cc names. -/
inductive TFType where
  | bReco | qReco | bLost | qLost | muReco | elReco | MET | Recoil | Unknown
  deriving DecidableEq

/-- The functions of the external numerical library that the source calls
(`TMath::Sqrt`/`sqrt`, `TMath::Exp`/`exp`, `log`, `TMath::CosH`, `TMath::Erf`,
`TMath::ACos`, `TMath::Sin`, `TMath::Cos`, `TMath::Pi`,
`TMath::ChisquareQuantile`, `TMath::Gaus`, `ROOT::Math::normal_cdf`). -/
structure TMath (α : Type) where
  Sqrt : α → α
  Exp : α → α
  Log : α → α
  CosH : α → α
  Erf : α → α
  ACos : α → α
  Sin : α → α
  Cos : α → α
  Pi : α
  ChisquareQuantile : α → Nat → α
  Gaus : α → α → α → Bool → α
  normal_cdf : α → α → α

/-- The constants and global tables that Parameters.cc reads and Parameters.h
(absent) declares: the default value of the argument `mark_acceptance` of
`eta_to_bin`, the response tables per angular bin, the acceptance and recoil
parameters, the quark masses and `PI`. -/
structure TFParams (α : Type) where
  mark_acceptance_default : Bool
  TF_B_param : Int → Nat → α
  TF_Q_param : Int → Nat → α
  TF_MET_param : Nat → α
  TF_RECOIL_param : Nat → α
  TF_ACC_param : Nat → α
  MB : α
  MQ : α
  PI : α

variable {α : Type} [LinearOrderedField α]

/-- `MEM::eta_to_bin` (lines 5-17) with an explicit bound on the depth of the
recursive call `eta_to_bin(2.49)`, whose second argument is the default `dflt`
of the declaration. `none` means the bound was reached. -/
def eta_to_bin_fuel (dflt : Bool) : Nat → α → Bool → Option Int
  | 0, _, _ => none
  | fuel + 1, eta, mark_acceptance =>
    let ae := |eta|
    if ae < 1.0 then some 0
    else if ae < 2.5 then some 1
    else if mark_acceptance then some (-1)
    else eta_to_bin_fuel dflt fuel 2.49 dflt

/-- `MEM::eta_to_bin` as the callers use it: recursion depth two suffices
(see `eta_to_bin_fuel_eq`). -/
def eta_to_bin (dflt : Bool) (eta : α) (mark_acceptance : Bool) : Int :=
  (eta_to_bin_fuel dflt 2 eta mark_acceptance).getD 0

/-- `MEM::Chi2` (lines 59-61). -/
def Chi2 (x m s : α) : α :=
  if s > 0 then (x - m) * (x - m) / s / s else 99

/-- `MEM::Chi2Corr` (lines 63-67). -/
def Chi2Corr (x y sx sy rho : α) : α :=
  1 / (1 - rho * rho) * (Chi2 x 0 sx + Chi2 y 0 sy - 2 * rho * x * y / sx / sy)

/-- `MEM::transfer_function` (lines 74-227). `y` are the observables, `x` the
generator-level quantities; the result is the weight `w` and the new value of
the by-reference counter `out_of_range`. The debug printing is left out. -/
def transfer_function (TM : TMath α) (P : TFParams α) (y x : Nat → α) (type : TFType)
    (out_of_range : Int) (cutoff : α) : α × Int :=
  let w : α := 1
  match type with
  | TFType.bReco =>
    let E := x 0
    let H := x 1
    let par := P.TF_B_param (eta_to_bin P.mark_acceptance_default H P.mark_acceptance_default)
    let f := par 10
    let m1 := par 0 + par 1 * E
    let m2 := par 5 + par 6 * E
    let s1 := E * TM.Sqrt (par 2 * par 2 + par 3 * par 3 / E + par 4 * par 4 / E / E)
    let s2 := E * TM.Sqrt (par 7 * par 7 + par 8 * par 8 / E + par 9 * par 9 / E / E)
    let c1 := Chi2 (y 0) m1 s1
    let c2 := Chi2 (y 0) m2 s2
    let out_of_range := if c1 > cutoff ∧ c2 > cutoff then out_of_range + 1 else out_of_range
    (w * (1 / TM.Sqrt (2 * P.PI) * (f / s1 * TM.Exp (-0.5 * c1) +
      (1 - f) / s2 * TM.Exp (-0.5 * c2))), out_of_range)
  | TFType.qReco =>
    let E := x 0
    let H := x 1
    let par := P.TF_Q_param (eta_to_bin P.mark_acceptance_default H P.mark_acceptance_default)
    let m1 := par 0 + par 1 * E
    let s1 := E * TM.Sqrt (par 2 * par 2 + par 3 * par 3 / E + par 4 * par 4 / E / E)
    let c1 := Chi2 (y 0) m1 s1
    let out_of_range := if c1 > cutoff then out_of_range + 1 else out_of_range
    (w * (1 / TM.Sqrt (2 * P.PI) / s1 * TM.Exp (-0.5 * c1)), out_of_range)
  | TFType.MET =>
    let par := P.TF_MET_param
    let s1 := par 0
    let s2 := par 1
    let rho := par 2
    let c1 := Chi2Corr (y 0 - x 0) (y 1 - x 1) s1 s2 rho
    let out_of_range := if c1 / 2 > cutoff then out_of_range + 1 else out_of_range
    (w * (1 / (2 * P.PI) / s1 / s2 / TM.Sqrt (1 - rho * rho) * TM.Exp (-0.5 * c1)),
      out_of_range)
  | TFType.Recoil =>
    let par := P.TF_RECOIL_param
    let m1 := par 0
    let s1 := par 1
    if y 0 < par 2 then (w * TM.Gaus (TM.Log (x 0)) m1 s1 true, out_of_range)
    else (w * 1, out_of_range)
  | TFType.bLost | TFType.qLost =>
    if |x 1| > P.TF_ACC_param 0 then (w * 1, out_of_range)
    else
      let E := x 0
      let H := x 1
      let par := P.TF_Q_param (eta_to_bin P.mark_acceptance_default H P.mark_acceptance_default)
      let mean_e := par 0 + par 1 * E
      let sigma_e := E * TM.Sqrt (par 2 * par 2 + par 3 * par 3 / E + par 4 * par 4 / E / E)
      let sign : α := if P.TF_ACC_param 1 * TM.CosH H ≥ mean_e then 1 else -1
      let c1 := Chi2 (P.TF_ACC_param 1 * TM.CosH H) mean_e sigma_e
      let out_of_range := if c1 > cutoff then out_of_range + 1 else out_of_range
      (w * (0.5 * (TM.Erf (TM.Sqrt (c1 / 2) * sign) + 1)), out_of_range)
  | TFType.Unknown => (w * 1, out_of_range)
  | _ => (w, out_of_range)

/-- `fast_exp` (lines 252-260). -/
def fast_exp (TM : TMath α) (p : α) : α :=
  if p < -50.0 then 2E-22 else TM.Exp p

/-- `pow2` (lines 262-264). -/
def pow2 (y : α) : α := y * y

/-- `double_gaussian_cdf` (lines 267-287); `pars` is the `std::array<double, 12>`. -/
def double_gaussian_cdf (TM : TMath α) (x x_gen : α) (pars : Nat → α) : α :=
  let p0 := x_gen
  let p2 := pars 1
  let p3 := pars 2
  let p4 := pars 3
  let p5 := pars 4
  let p6 := pars 5
  let p7 := pars 6
  let p8 := pars 7
  let p9 := pars 8
  let p10 := pars 9
  let p11 := pars 10
  let s1 := TM.Sqrt (p4 * p4 + p0 * p5 * p5 + p0 * p0 * p6 * p6)
  let s2 := TM.Sqrt (p9 * p9 + p0 * p10 * p10 + p0 * p0 * p11 * p11)
  0.7 * TM.normal_cdf (x - p2 + p3 * p0) s1 + (1 - 0.7) * TM.normal_cdf (x - p7 + p8 * p0) (s1 + s2)

/-- `double_gaussian` (lines 290-307). -/
def double_gaussian (TM : TMath α) (x x_gen : α) (pars : Nat → α) : α :=
  let p0 := x_gen
  let p1 := pars 1
  let p2 := pars 2
  let p3 := pars 3
  let p4 := pars 4
  let p5 := pars 5
  let p6 := pars 6
  let p7 := pars 7
  let p8 := pars 8
  let p9 := pars 9
  let p10 := pars 10
  let p11 := pars 11
  let s1 := TM.Sqrt (p4 * p4 + p0 * p5 * p5 + p0 * p0 * p6 * p6)
  let s2 := TM.Sqrt (p9 * p9 + p0 * p10 * p10 + p0 * p0 * p11 * p11)
  p1 * (0.7 * fast_exp TM (-0.5 * pow2 ((x - (p2 + p3 * p0)) / s1)) +
    (1 - 0.7) * fast_exp TM (-0.5 * pow2 ((x - (p7 + p8 * p0)) / (s1 + s2))))

/-- `MEM::transfer_function_reco` (lines 309-324): the weight and the new
contents of the by-reference vector `obj_variations`. -/
def transfer_function_reco (TM : TMath α) (pt : α) (pt_variations : List α) (pars : Nat → α)
    (x : Nat → α) (obj_variations : List α) (eval_variations : Bool) : α × List α :=
  let w := double_gaussian TM pt (x 0) pars
  if eval_variations then
    (w, obj_variations ++ pt_variations.map (fun pt_var => double_gaussian TM (pt * pt_var) (x 0) pars))
  else (w, obj_variations)

/-- `MEM::transfer_function_lost` (lines 326-328). -/
def transfer_function_lost (TM : TMath α) (ptcut : α) (pars : Nat → α) (x : Nat → α) : α :=
  double_gaussian_cdf TM ptcut (x 0) pars

/-- The function object `TF1` of the external library, as far as the source
uses it: `GetNpar()` and the parameter values that `GetParameters` copies. -/
structure TF1 (α : Type) where
  Npar : Int
  Parameters : Nat → α

/-- `TF1::GetParameters(double* out)`: the `Npar` parameters are copied to the
front of the array `out`, whose other entries keep their contents. -/
def TF1.GetParameters (tf : TF1 α) (out : Nat → α) : Nat → α :=
  fun i => if (i : Int) < tf.Npar then tf.Parameters i else out i

/-- The members of `MEM::Object` that `transfer_function2` and
`addTransferFunction` use: the transverse momentum `p4().Pt()`, the systematic
variations, the two parameter arrays and the map `transfer_funcs` from a
category to the attached function (`none` for a key that is not in the map). -/
structure Object (α : Type) where
  Pt : α
  p4_variations : List α
  tf_l_parameters : Nat → α
  tf_b_parameters : Nat → α
  transfer_funcs : TFType → Option (TF1 α)

/-- `MEM::transfer_function2` (lines 336-369); `Except.error` is the thrown
`std::runtime_error`. -/
def transfer_function2 (TM : TMath α) (obj : Object α) (x : Nat → α) (type : TFType)
    (obj_variations : List α) (eval_variations : Bool) : Except String (α × List α) :=
  match type with
  | TFType.qReco =>
    Except.ok (transfer_function_reco TM obj.Pt obj.p4_variations obj.tf_l_parameters x
      obj_variations eval_variations)
  | TFType.bReco =>
    Except.ok (transfer_function_reco TM obj.Pt obj.p4_variations obj.tf_b_parameters x
      obj_variations eval_variations)
  | _ => Except.error "deprecated"

/-! ### Support solver -/

/-- The density call inside the scans of `get_support` (lines 515-523 and
537-545): the internal transfer function when `obj == nullptr`, otherwise the
transfer function attached to the object. The counter `accept` of the source is
a local that is never read, so only the weight is kept. -/
def support_density (TM : TMath α) (P : TFParams α) (obj : Option (Object α)) (type : TFType)
    (rec_ gen : Nat → α) : Except String α :=
  match obj with
  | none => Except.ok (transfer_function TM P rec_ gen type 0 99).1
  | some o =>
    match transfer_function2 TM o gen type [] false with
    | Except.ok r => Except.ok r.1
    | Except.error e => Except.error e

/-- The inner `for` loop of the lower scan (lines 512-525), `n` iterations left
starting at index `i`: accumulates `density * step_size` and breaks as soon as
`tot` exceeds the threshold `thr = (1 - alpha) / 2`. -/
def support_low_inner (dens : (Nat → α) → (Nat → α) → Except String α) (thr e_rec eta_rec e_L : α) :
    Nat → Nat → α → Except String α
  | 0, _, tot => Except.ok tot
  | n + 1, i, tot =>
    let step_size : α := 2.5
    let gen : Nat → α := fun k => if k = 0 then e_L else eta_rec
    let rec_ : Nat → α := fun _ => e_rec + i * step_size
    match dens rec_ gen with
    | Except.error e => Except.error e
    | Except.ok d =>
      let tot := tot + d * step_size
      if tot > thr then Except.ok tot
      else support_low_inner dens thr e_rec eta_rec e_L n (i + 1) tot

/-- The first `while` loop of the energy scan (lines 510-527) from the state
`(e_L, tot)`; `none` when `fuel` iterations did not leave the loop. -/
def support_low (dens : (Nat → α) → (Nat → α) → Except String α) (thr e_rec eta_rec : α) :
    Nat → α → α → Option (Except String α)
  | 0, _, _ => none
  | fuel + 1, e_L, tot =>
    if tot > thr ∧ e_L > 0 then
      match support_low_inner dens thr e_rec eta_rec e_L 500 0 0 with
      | Except.error e => some (Except.error e)
      | Except.ok tot => support_low dens thr e_rec eta_rec fuel (e_L - 2.5) tot
    else some (Except.ok e_L)

/-- The inner `for` loop of the upper scan (lines 533-547); an iteration whose
reconstructed energy is negative is skipped (`continue`). -/
def support_high_inner (dens : (Nat → α) → (Nat → α) → Except String α) (thr e_rec eta_rec e_H : α) :
    Nat → Nat → α → Except String α
  | 0, _, tot => Except.ok tot
  | n + 1, i, tot =>
    let step_size : α := 2.5
    let gen : Nat → α := fun k => if k = 0 then e_H else eta_rec
    let rec_ : Nat → α := fun _ => e_rec - i * step_size
    if rec_ 0 < 0 then support_high_inner dens thr e_rec eta_rec e_H n (i + 1) tot
    else
      match dens rec_ gen with
      | Except.error e => Except.error e
      | Except.ok d =>
        let tot := tot + d * step_size
        if tot > thr then Except.ok tot
        else support_high_inner dens thr e_rec eta_rec e_H n (i + 1) tot

/-- The second `while` loop of the energy scan (lines 531-549) from the state
`(e_H, tot)`; `none` when `fuel` iterations did not leave the loop. -/
def support_high (dens : (Nat → α) → (Nat → α) → Except String α) (thr e_rec eta_rec : α) :
    Nat → α → α → Option (Except String α)
  | 0, _, _ => none
  | fuel + 1, e_H, tot =>
    if tot > thr then
      match support_high_inner dens thr e_rec eta_rec e_H 500 0 0 with
      | Except.error e => some (Except.error e)
      | Except.ok tot => support_high dens thr e_rec eta_rec fuel (e_H + 2.5) tot
    else some (Except.ok e_H)

/-- The radial loop of the missing-energy window (lines 447-474), `n`
iterations left starting at `stepP`: true when some scanned radius lies inside
the confidence contour. -/
def met_crossing (Px Py sx sy rho chi2Cut cos sin : α) : Nat → Nat → Bool
  | 0, _ => false
  | n + 1, stepP =>
    let p_step : α := 2
    let Px_P := stepP * p_step * cos
    let Py_P := stepP * p_step * sin
    if Chi2Corr (Px_P - Px) (Py_P - Py) sx sy rho < chi2Cut then true
    else met_crossing Px Py sx sy rho chi2Cut cos sin n (stepP + 1)

/-- The azimuthal loop of the missing-energy window (lines 432-483) in the
direction `dir`, `n` iterations left starting at `step`: the first scanned angle
without a crossing, `none` when every scanned angle has one. -/
def met_phi_scan (TM : TMath α) (Px Py sx sy rho chi2Cut Phi phiStep : α) (dir : Nat) :
    Nat → Nat → Option α
  | 0, _ => none
  | n + 1, step =>
    let phi := Phi + (2 * (dir : α) - 1) * phiStep * step
    let sin := TM.Sin phi
    let cos := TM.Cos phi
    if met_crossing Px Py sx sy rho chi2Cut cos sin 200 0 then
      met_phi_scan TM Px Py sx sy rho chi2Cut Phi phiStep dir n (step + 1)
    else some phi

/-- The missing-energy branch of `get_support` (lines 384-493). Of the two
directions only `dir == sign` is scanned; the debug printing is left out. -/
def get_support_MET [FloorRing α] (TM : TMath α) (P : TFParams α) (y : Nat → α) (alpha : α) :
    α × α :=
  let alpha_n := |alpha|
  let sign : Nat := if alpha > 0 then 1 else 0
  let Px := y 0
  let Py := y 1
  let xLowPhi := -TM.Pi
  let xHighPhi := TM.Pi
  let phiStep : α := 0.04
  let Phi :=
    if Py > 0 then TM.ACos (Px / TM.Sqrt (Px * Px + Py * Py))
    else 2 * TM.Pi - TM.ACos (Px / TM.Sqrt (Px * Px + Py * Py))
  let Vx := P.TF_MET_param 0 * P.TF_MET_param 0
  let Vy := P.TF_MET_param 1 * P.TF_MET_param 1
  let rho := P.TF_MET_param 2
  let chi2Cut := TM.ChisquareQuantile alpha_n 2
  let tfAtZero := Chi2Corr Px Py (TM.Sqrt Vx) (TM.Sqrt Vy) rho
  if tfAtZero ≤ chi2Cut then (xLowPhi, xHighPhi)
  else
    let scan := fun (dir : Nat) =>
      met_phi_scan TM Px Py (TM.Sqrt Vx) (TM.Sqrt Vy) rho chi2Cut Phi phiStep dir
        (Nat.floor (TM.Pi / phiStep) + 1) 0
    let xLowPhi :=
      if sign = 0 then
        match scan 0 with
        | some phi => phi + 0.5 * phiStep
        | none => xLowPhi
      else xLowPhi
    let xHighPhi :=
      if sign = 1 then
        match scan 1 with
        | some phi => phi - 0.5 * phiStep
        | none => xHighPhi
      else xHighPhi
    (xLowPhi - Phi, xHighPhi - Phi)

/-- The energy branch of `get_support` (lines 495-558) with `fuel` iterations
allowed to each `while` loop. -/
def get_support_energy (TM : TMath α) (P : TFParams α) (fuel : Nat) (y : Nat → α)
    (type : TFType) (alpha : α) (obj : Option (Object α)) : Option (Except String (α × α)) :=
  let e_rec := y 0
  let eta_rec := y 1
  let dens := support_density TM P obj type
  let thr := (1 - alpha) / 2
  match support_low dens thr e_rec eta_rec fuel e_rec 1 with
  | none => none
  | some (Except.error e) => some (Except.error e)
  | some (Except.ok e_L) =>
    let e_L := if e_L < 0 then 0 else e_L
    match support_high dens thr e_rec eta_rec fuel e_rec 1 with
    | none => none
    | some (Except.error e) => some (Except.error e)
    | some (Except.ok e_H) =>
      let e_L := max e_L (if type = TFType.bReco then P.MB else P.MQ)
      some (Except.ok (e_L, e_H))

/-- `MEM::get_support` (lines 378-558). The result is `none` when a `while`
loop of the energy scan is still running after `fuel` iterations,
`Except.error` when the call throws, and otherwise the returned pair. -/
def get_support [FloorRing α] (TM : TMath α) (P : TFParams α) (fuel : Nat) (y : Nat → α)
    (type : TFType) (alpha : α) (obj : Option (Object α)) : Option (Except String (α × α)) :=
  if type = TFType.MET then some (Except.ok (get_support_MET TM P y alpha))
  else get_support_energy TM P fuel y type alpha obj

/-- A parameter set for the examples: in every angular bin the response has
mean `E` and width `|E|` (`par = {0, 1, 1, 0, ...}`), the missing-energy widths
are `sigma` with no correlation, the acceptance edge is `|eta| = 2.5` with a
30 GeV threshold, `MB = 4.8`, `MQ = 0` and `PI = pi`. -/
def exampleParams (pi sigma : α) : TFParams α where
  mark_acceptance_default := false
  TF_B_param := fun _ i => if i = 1 ∨ i = 2 ∨ i = 7 then 1 else 0
  TF_Q_param := fun _ i => if i = 1 ∨ i = 2 then 1 else 0
  TF_MET_param := fun i => if i = 0 ∨ i = 1 then sigma else 0
  TF_RECOIL_param := fun i => if i = 1 then 1 else 0
  TF_ACC_param := fun i => if i = 0 then 2.5 else 30
  MB := 4.8
  MQ := 0
  PI := pi

/-- The array `{a, b}` passed for `x` or `y`. -/
def arr2 (a b : α) : Nat → α := fun i => if i = 0 then a else b

/-- An object as the constructor `Object(lv, ty, dtype, dtype_bkp)` (lines
597-608) leaves it: both parameter arrays filled with zeros, no variations, no
attached function. -/
def zeroObject (pt : α) : Object α where
  Pt := pt
  p4_variations := []
  tf_l_parameters := fun _ => 0
  tf_b_parameters := fun _ => 0
  transfer_funcs := fun _ => none

/-- The azimuth `Phi` of the missing-energy vector as `get_support` computes it
(lines 399-401), named for the statements about the window. -/
def met_azimuth (TM : TMath α) (Px Py : α) : α :=
  if Py > 0 then TM.ACos (Px / TM.Sqrt (Px * Px + Py * Py))
  else 2 * TM.Pi - TM.ACos (Px / TM.Sqrt (Px * Px + Py * Py))

/-- The log-normal density of `x` with parameters `m` and `s`,
`1/(x*s*sqrt(2*pi)) * exp(-(ln x - m)^2 / (2*s^2))`, written with the library
functions. -/
def lognormal_density (TM : TMath α) (x m s : α) : α :=
  1 / (x * s * TM.Sqrt (2 * TM.Pi)) * TM.Exp (-(TM.Log x - m) ^ 2 / (2 * s ^ 2))

/-- The parameter set `P` with the recoil parameters `{m, s, threshold}`. -/
def withRecoil (P : TFParams α) (m s threshold : α) : TFParams α :=
  { P with TF_RECOIL_param := fun i => if i = 0 then m else if i = 1 then s else threshold }

/-- The cumulative distribution that `transfer_function_lost` is documented to
be, in the words of its specification: `0.7*Phi((x - mu1)/s1) +
0.3*Phi((x - mu2)/(s1 + s2))` with the component means `mu1 = p2 + p3*x_gen`,
`mu2 = p7 + p8*x_gen` and `Phi` the standard normal CDF. The parameters are
named as in `double_gaussian_cdf` (`p2 = pars[1]`, ...). -/
def double_gaussian_cdf_claimed (TM : TMath α) (x x_gen : α) (pars : Nat → α) : α :=
  let p0 := x_gen
  let p2 := pars 1
  let p3 := pars 2
  let p4 := pars 3
  let p5 := pars 4
  let p6 := pars 5
  let p7 := pars 6
  let p8 := pars 7
  let p9 := pars 8
  let p10 := pars 9
  let p11 := pars 10
  let s1 := TM.Sqrt (p4 * p4 + p0 * p5 * p5 + p0 * p0 * p6 * p6)
  let s2 := TM.Sqrt (p9 * p9 + p0 * p10 * p10 + p0 * p0 * p11 * p11)
  let mu1 := p2 + p3 * x_gen
  let mu2 := p7 + p8 * x_gen
  0.7 * TM.normal_cdf ((x - mu1) / s1) 1 + 0.3 * TM.normal_cdf ((x - mu2) / (s1 + s2)) 1

/-- A parameter array for the examples of `double_gaussian_cdf`: `p3 = p4 = p8 = 1`
and all other parameters 0, so that the means are `x_gen`, `s1 = 1` and `s2 = 0`. -/
def exampleCdfPars : Nat → α := fun i => if i = 2 ∨ i = 3 ∨ i = 7 then 1 else 0

/-- No scanned radius of the direction `phi` lies inside the confidence contour:
the condition under which the radial loop of `get_support` (lines 447-474) ends
without a crossing, for the radii `2 * stepP`, `stepP = 0..199`. -/
def met_no_crossing (TM : TMath α) (Px Py sx sy rho chi2Cut phi : α) : Prop :=
  ∀ stepP : Nat, stepP < 200 →
    ¬ Chi2Corr (stepP * 2 * TM.Cos phi - Px) (stepP * 2 * TM.Sin phi - Py) sx sy rho < chi2Cut

/-! ### Phase-space points -/

/-- Modelled from the spec: the four-momentum type `LV`, declared in a header
that is not among the sources; its four components. -/
structure LV (α : Type) where
  Px : α
  Py : α
  Pz : α
  E : α

/-- Modelled from the spec: the default-constructed `LV()`, the "zero
four-momentum". -/
def LV.init : LV α := ⟨0, 0, 0, 0⟩

/-- `MEM::GenPart`: the three members that the accessors of `PS` read
(`.lv`, `.charge`, `.type`, lines 568-579). -/
structure GenPart (α : Type) where
  lv : LV α
  charge : Int
  type : TFType

/-- `MEM::PS`: the dimension and the map `val` from roles (`PSPart`, an
enumeration, here its numeric value) to particles. The map is the function
from a key to the value stored under it, `none` for a key that `find` does
not find. -/
structure PS (α : Type) where
  dim : Nat
  val : Nat → Option (GenPart α)

/-- `MEM::PS::PS(size_t d)` (line 560): the dimension is stored, the map is
empty. -/
def PS.new (d : Nat) : PS α := ⟨d, fun _ => none⟩

/-- `MEM::PS::lv` (lines 568-570). -/
def PS.lv (ps : PS α) (p : Nat) : LV α :=
  match ps.val p with
  | some g => g.lv
  | none => LV.init

/-- `MEM::PS::charge` (lines 572-574). -/
def PS.charge (ps : PS α) (p : Nat) : Int :=
  match ps.val p with
  | some g => g.charge
  | none => 0

/-- `MEM::PS::type` (lines 576-579). -/
def PS.type (ps : PS α) (p : Nat) : TFType :=
  match ps.val p with
  | some g => g.type
  | none => TFType.Unknown

/-- `MEM::PS::set` (lines 581-583): `val[a] = b`. -/
def PS.set (ps : PS α) (a : Nat) (b : GenPart α) : PS α :=
  { ps with val := fun k => if k = a then some b else ps.val k }

/-- A phase-space point of dimension `d` after the calls `set(a, b)` for the
pairs `(a, b)` of `ops`, in order. -/
def PS.setAll (d : Nat) (ops : List (Nat × GenPart α)) : PS α :=
  ops.foldl (fun ps e => ps.set e.1 e.2) (PS.new d)

/-! ### Configuration: attached and global transfer functions, call budgets -/

/-- Modelled from the spec: the constant `Object::NUM_TF_PARS`, declared in a
header that is not among the sources. The mixture model has 11 scalars
(`NUM_TF_PARS - 1`) besides the true value. -/
def NUM_TF_PARS : Nat := 12

/-- The outcome of a call of a member function that may throw: the object
after the call, the lines written to the error stream, and the message of the
`std::runtime_error` thrown (`none` for a normal return). -/
structure Outcome (σ : Type) where
  state : σ
  cerr : List String
  thrown : Option String

/-- `std::map::insert(make_pair(k, v))`: the pair is added when the key is not
in the map; an entry that is there stays as it is. -/
def mapInsert {K V : Type} [DecidableEq K] (m : K → Option V) (k : K) (v : V) : K → Option V :=
  fun k2 => if k2 = k then (match m k with
    | some old => some old
    | none => some v) else m k2

/-- `MEM::Object::getTransferFunction` (lines 637-645); `none` is the returned
null pointer. The log line is left out. -/
def Object.getTransferFunction (obj : Object α) (name : TFType) : Option (TF1 α) :=
  obj.transfer_funcs name

/-- `MEM::Object::addTransferFunction` (lines 656-676). The pointer `val` is
taken to be non-null, so that the function read back from the map is there. -/
def Object.addTransferFunction (obj : Object α) (name : TFType) (val : TF1 α) :
    Outcome (Object α) :=
  let obj1 : Object α := { obj with transfer_funcs := mapInsert obj.transfer_funcs name val }
  if name = TFType.qReco then
    match obj1.getTransferFunction TFType.qReco with
    | none => ⟨obj1, [], some "null pointer"⟩
    | some tf =>
      if tf.Npar ≠ (NUM_TF_PARS : Int) then
        ⟨obj1, ["Expected " ++ toString NUM_TF_PARS ++ " but got " ++ toString tf.Npar ++
          " parameters for TF qReco"], some "transfer function"⟩
      else
        ⟨{ obj1 with tf_l_parameters := tf.GetParameters obj1.tf_l_parameters }, [], none⟩
  else if name = TFType.bReco then
    match obj1.getTransferFunction TFType.bReco with
    | none => ⟨obj1, [], some "null pointer"⟩
    | some tf =>
      if tf.Npar ≠ (NUM_TF_PARS : Int) then
        ⟨obj1, ["Expected " ++ toString NUM_TF_PARS ++ " but got " ++ toString tf.Npar ++
          " parameters for TF bReco"], some "transfer function"⟩
      else
        ⟨{ obj1 with tf_b_parameters := tf.GetParameters obj1.tf_b_parameters }, [], none⟩
  else ⟨obj1, [], none⟩

/-- A function with `n` parameters, all equal to `v`. -/
def constTF1 (n : Int) (v : α) : TF1 α := ⟨n, fun _ => v⟩

/-- The members of `MEM::MEMConfig` that `defaultCfg`, `setNCalls`, `getNCalls`
and `set_tf_global` use: the table `int calls[4][2][6]` and the map `tf_map`
from `(type, etabin)` to a parameter array. -/
structure MEMConfig (α : Type) where
  calls : Nat → Nat → Nat → Int
  tf_map : TFType × Int → Option (Nat → α)

/-- The table and the map as the constructor of `MEMConfig` leaves them (lines
717-723): every call budget is 2000, the map is empty. -/
def MEMConfig.new : MEMConfig α := ⟨fun _ _ _ => 2000, fun _ => none⟩

/-- `MEM::MEMConfig::set_tf_global` (lines 877-888). The local array `pars` is
not initialised; `pars0` stands for its contents before `GetParameters`. -/
def MEMConfig.set_tf_global (cfg : MEMConfig α) (type : TFType) (etabin : Int) (tf : TF1 α)
    (pars0 : Nat → α) : Outcome (MEMConfig α) :=
  if tf.Npar ≠ (NUM_TF_PARS : Int) - 1 then
    ⟨cfg, ["Expected " ++ toString ((NUM_TF_PARS : Int) - 1) ++ " but got " ++ toString tf.Npar ++
      " parameters for TF qReco"], some "transfer function"⟩
  else
    let pars := tf.GetParameters pars0
    ⟨{ cfg with tf_map := fun k => if k = (type, etabin) then some pars else cfg.tf_map k }, [],
      none⟩

/-- The numeric values of the enumerators that index the table `calls`; the
enumerations `FinalState`, `Hypothesis` and `Assumption` are declared in a
header that is not among the sources. -/
structure CfgEnums where
  LH : Nat
  LL : Nat
  HH : Nat
  TTH : Nat
  TTBB : Nat
  ZeroQuarkLost : Nat
  OneQuarkLost : Nat
  TwoQuarkLost : Nat
  ThreeQuarkLost : Nat
  FourQuarkLost : Nat
  FiveQuarkLost : Nat

/-- Enumerator values for the examples: the final states HH, LH, LL are 0, 1,
2, the hypotheses TTH, TTBB are 0, 1 and the assumptions count the lost
quarks. -/
def exampleEnums : CfgEnums := ⟨1, 2, 0, 0, 1, 0, 1, 2, 3, 4, 5⟩

/-- `MEM::MEMConfig::setNCalls` (lines 850-855) on the table. -/
def setNCalls (calls : Nat → Nat → Nat → Int) (f h a : Nat) (n : Int) : Nat → Nat → Nat → Int :=
  fun i j k => if i = f ∧ j = h ∧ k = a then n else calls i j k

/-- `MEM::MEMConfig::getNCalls` (lines 857-862). -/
def MEMConfig.getNCalls (cfg : MEMConfig α) (f h a : Nat) : Int := cfg.calls f h a

/-- The assignments of `defaultCfg` (lines 743-827) in source order: final
state, hypothesis, assumption and the value assigned. -/
def defaultCfgWrites (E : CfgEnums) : List ((Nat × Nat × Nat) × Int) :=
  [((E.LH, E.TTH, E.ZeroQuarkLost), 2000), ((E.LH, E.TTBB, E.ZeroQuarkLost), 2000),
   ((E.LH, E.TTH, E.OneQuarkLost), 4000), ((E.LH, E.TTBB, E.OneQuarkLost), 4000),
   ((E.LH, E.TTH, E.TwoQuarkLost), 15000), ((E.LH, E.TTBB, E.TwoQuarkLost), 15000),
   ((E.LL, E.TTH, E.ZeroQuarkLost), 10000), ((E.LL, E.TTBB, E.ZeroQuarkLost), 10000),
   ((E.LL, E.TTH, E.OneQuarkLost), 20000), ((E.LL, E.TTBB, E.OneQuarkLost), 20000),
   ((E.HH, E.TTH, E.ZeroQuarkLost), 1500), ((E.HH, E.TTBB, E.ZeroQuarkLost), 1500),
   ((E.HH, E.TTH, E.OneQuarkLost), 4000), ((E.HH, E.TTBB, E.OneQuarkLost), 4000),
   ((E.HH, E.TTH, E.TwoQuarkLost), 10000), ((E.HH, E.TTBB, E.TwoQuarkLost), 10000),
   ((E.HH, E.TTH, E.ThreeQuarkLost), 15000), ((E.HH, E.TTBB, E.ThreeQuarkLost), 15000),
   ((E.HH, E.TTH, E.FourQuarkLost), 20000), ((E.HH, E.TTBB, E.FourQuarkLost), 20000),
   ((E.HH, E.TTH, E.FiveQuarkLost), 25000), ((E.HH, E.TTBB, E.FiveQuarkLost), 25000)]

/-- The conversion of a floating value to `int`: the fraction is dropped. -/
def truncToInt [FloorRing α] (v : α) : Int := if 0 ≤ v then Int.floor v else Int.ceil v

/-- `MEM::MEMConfig::defaultCfg` (lines 741-848) on the table `calls`: the
assignments in source order, then, for a multiplier other than 1, the scaling of
all 4 x 2 x 6 entries. The assignments to `int_code` and `perm_pruning` do not
touch the table and are left out. -/
def MEMConfig.defaultCfg [FloorRing α] (E : CfgEnums) (cfg : MEMConfig α)
    (nCallsMultiplier : α) : MEMConfig α :=
  let calls1 := (defaultCfgWrites E).foldl
    (fun c w => setNCalls c w.1.1 w.1.2.1 w.1.2.2 w.2) cfg.calls
  let calls2 : Nat → Nat → Nat → Int :=
    if nCallsMultiplier ≠ 1 then
      fun i j k =>
        if i < 4 ∧ j < 2 ∧ k < 6 then truncToInt (nCallsMultiplier * (calls1 i j k : α))
        else calls1 i j k
    else calls1
  { cfg with calls := calls2 }

/-- The keys of the table that `defaultCfg` assigns. -/
def defaultCfgKeys (E : CfgEnums) : List (Nat × Nat × Nat) :=
  (defaultCfgWrites E).map Prod.fst

/-! ### Event shape: the three-object maximum -/

/-- The sum of two four-momenta (`TLorentzVector::operator+`). -/
def LV.add (a b : LV α) : LV α := ⟨a.Px + b.Px, a.Py + b.Py, a.Pz + b.Pz, a.E + b.E⟩

/-- `TLorentzVector::Pt()`: the transverse momentum. -/
def LV.Pt (TM : TMath α) (a : LV α) : α := TM.Sqrt (a.Px * a.Px + a.Py * a.Py)

/-- `TLorentzVector::M()`: the invariant mass, negative for a space-like
vector. -/
def LV.M (TM : TMath α) (a : LV α) : α :=
  let mm := a.E * a.E - (a.Px * a.Px + a.Py * a.Py + a.Pz * a.Pz)
  if mm < 0 then -TM.Sqrt (-mm) else TM.Sqrt mm

/-- `struct maxObjects`: the two members that `getMaxPTSame` writes. -/
structure maxObjects (α : Type) where
  maxPT : α
  maxPTmass : α

/-- The index triples `(oindex, iindex, mindex)` that the three nested loops of
`event::getMaxPTSame` (lines 574-576) visit for a container of `n` elements, in
order: `iindex` runs from `oindex + 1`, `mindex` from `oindex + 2`. -/
def getMaxPTSame_triples (n : Nat) : List (Nat × Nat × Nat) :=
  (List.range n).flatMap fun oindex =>
    (List.range' (oindex + 1) (n - (oindex + 1))).flatMap fun iindex =>
      (List.range' (oindex + 2) (n - (oindex + 2))).map fun mindex => (oindex, iindex, mindex)

/-- `event::getMaxPTSame` (lines 566-592) on the four-momenta of the container:
the loop body keeps the largest transverse momentum seen and the mass that goes
with it. -/
def getMaxPTSame (TM : TMath α) (cont1 : List (LV α)) : maxObjects α :=
  let acc := (getMaxPTSame_triples cont1.length).foldl
    (fun (acc : α × α) t =>
      let tmpP4 := ((cont1.getD t.1 LV.init).add (cont1.getD t.2.1 LV.init)).add
        (cont1.getD t.2.2 LV.init)
      let tmpPT := LV.Pt TM tmpP4
      let tmpMass := LV.M TM tmpP4
      if acc.1 < tmpPT then (tmpPT, tmpMass) else acc)
    ((0 : α), (0 : α))
  ⟨acc.1, acc.2⟩

/-! ### Permutations: the record counts -/

/-- The number of records per topology key as the specification lists them. -/
def claimedCountTable : List ((Nat × Nat × List Nat) × Nat) :=
  [((4, 4, []), 72), ((4, 4, [1]), 144), ((4, 4, [0, 1]), 72), ((4, 4, [1, 4]), 144),
   ((4, 4, [0, 1, 3, 4]), 12), ((4, 4, [0, 1, 3, 4, 2]), 12),
   ((3, 5, [2]), 90), ((3, 5, [7]), 180), ((3, 5, [1, 2]), 90), ((3, 5, [0, 1, 3, 4, 2]), 3),
   ((4, 3, [1]), 36), ((4, 3, [0, 1]), 36), ((4, 3, [1, 4]), 72), ((4, 3, [0, 1, 3, 4]), 12),
   ((4, 3, [0, 1, 3, 4, 2]), 12),
   ((3, 4, [2]), 18), ((3, 4, [7]), 36), ((3, 4, [1, 2]), 36), ((3, 4, [0, 1, 3, 4, 2]), 3),
   ((4, 5, []), 360), ((4, 5, [1]), 360), ((4, 5, [0, 1]), 120), ((4, 5, [1, 4]), 240),
   ((4, 5, [0, 1, 3, 4]), 12), ((4, 5, [0, 1, 3, 4, 2]), 12)]

/-- The number of records that the specification states for the key
`(nb, nq, lost)`: the entry of `claimedCountTable`, and 0 for every other
input. -/
def claimedCount (nb nq : Nat) (lost : List Nat) : Nat :=
  (claimedCountTable.lookup (nb, nq, lost)).getD 0

/-! ### The numerical library on the reals -/

/-- The error function, `erf x = 2/sqrt(pi) * ∫ t in 0..x, exp (-t^2)`. -/
noncomputable def erf (x : ℝ) : ℝ :=
  2 / Real.sqrt Real.pi * ∫ t in (0 : ℝ)..x, Real.exp (-t ^ 2)

/-- The library functions in exact real arithmetic: each field is the
mathematical function that the library call computes. `ChisquareQuantile` is
given for two degrees of freedom, the only value the source passes, where the
quantile of `p` is `-2 ln (1 - p)`; `Gaus` follows `TMath::Gaus` branch by
branch: 1e30 for a width 0, 0 when `(x - mean) / sigma` lies outside
[-39, 39], otherwise the Gaussian in `x` with the given mean and width, divided
by `sqrt(2 pi) * sigma` when `norm` is set (the library writes the constant
`sqrt(2 pi)` as 2.50662827463100024); `normal_cdf x sigma` is the cumulative
distribution of the centred normal law of width `sigma`. -/
noncomputable def TMathReal : TMath ℝ where
  Sqrt := Real.sqrt
  Exp := Real.exp
  Log := Real.log
  CosH := Real.cosh
  Erf := erf
  ACos := Real.arccos
  Sin := Real.sin
  Cos := Real.cos
  Pi := Real.pi
  ChisquareQuantile := fun p ndf => if ndf = 2 then -2 * Real.log (1 - p) else 0
  Gaus := fun x mean sigma norm =>
    if sigma = 0 then 1e30
    else
      let arg := (x - mean) / sigma
      if arg < -39 ∨ arg > 39 then 0
      else
        let res := Real.exp (-0.5 * arg * arg)
        if norm then res / (Real.sqrt (2 * Real.pi) * sigma) else res
  normal_cdf := fun x sigma => 0.5 * (1 + erf (x / (sigma * Real.sqrt 2)))

/-! ## Theorems -/

/-! ### Permutation enumerator -/

theorem lostAt_len0 (lost : List Nat) : lost.length = 0 ↔ lost = [] := by
  cases lost <;> simp

theorem lostAt_len1 (lost : List Nat) (a : Nat) :
    (lost.length = 1 ∧ lostAt lost 0 = a) ↔ lost = [a] := by
  match lost with
  | [] => simp
  | [x] => simp [lostAt]
  | _ :: _ :: _ => simp

theorem lostAt_len2 (lost : List Nat) (a b : Nat) :
    (lost.length = 2 ∧ lostAt lost 0 = a ∧ lostAt lost 1 = b) ↔ lost = [a, b] := by
  match lost with
  | [] => simp
  | [x] => simp
  | [x, y] => simp [lostAt]
  | _ :: _ :: _ :: _ => simp

theorem lostAt_len4 (lost : List Nat) (a b c d : Nat) :
    (lost.length = 4 ∧ lostAt lost 0 = a ∧ lostAt lost 1 = b ∧ lostAt lost 2 = c ∧
      lostAt lost 3 = d) ↔ lost = [a, b, c, d] := by
  match lost with
  | [] => simp
  | [x] => simp
  | [x, y] => simp
  | [x, y, z] => simp
  | [x, y, z, u] => simp [lostAt]
  | _ :: _ :: _ :: _ :: _ :: _ => simp

theorem lostAt_len5 (lost : List Nat) (a b c d e : Nat) :
    (lost.length = 5 ∧ lostAt lost 0 = a ∧ lostAt lost 1 = b ∧ lostAt lost 2 = c ∧
      lostAt lost 3 = d ∧ lostAt lost 4 = e) ↔ lost = [a, b, c, d, e] := by
  match lost with
  | [] => simp
  | [x] => simp
  | [x, y] => simp
  | [x, y, z] => simp
  | [x, y, z, u] => simp
  | [x, y, z, u, v] => simp [lostAt]
  | _ :: _ :: _ :: _ :: _ :: _ :: _ => simp

/-- A property holds of a conditional when it holds of both branches. -/
theorem ite_ind {β : Type} {c : Prop} [Decidable c] {a b : β} {P : β → Prop}
    (ha : c → P a) (hb : ¬ c → P b) : P (if c then a else b) := by
  split_ifs with hc
  · exact ha hc
  · exact hb hc

/-- Case analysis of `get_permutations` on an input without a table: only the
branches that print a line are reachable. -/
theorem get_permutations_unsupported_ind (P : PermOutput → Prop) (nb nq : Nat) (lost : List Nat)
    (h : ¬ supported nb nq lost)
    (hq : P ⟨[], ["perms for " ++ toString ((nq + nb) % 2 ^ 64) ++ " quarks not defined"]⟩)
    (hl : ∀ tag ∈ ["8j,4b ", "8j,3b ", "7j,4b ", "7j,3b ", "9j,4b "],
      P ⟨[], [tag ++ toString lost.length ++ " lost not defined"]⟩) :
    P (get_permutations nb nq lost) := by
  simp only [supported, definedTopologies, List.mem_cons, Prod.mk.injEq, List.mem_nil_iff,
    or_false, not_or, not_and] at h
  unfold get_permutations
  repeat' refine ite_ind (fun _ => ?_) (fun _ => ?_)
  all_goals first
    | (with_reducible exact hq)
    | (with_reducible exact hl _ (by simp))
    | (exfalso
       simp only [lostAt_len0, lostAt_len1, lostAt_len2, lostAt_len4, lostAt_len5] at *
       simp_all)

/-- C2 (the code at the failing input): for nb = 3, nq = 4, lost = [7] the
record {3,4,2,5,6,1,0,-2} is returned twice, at positions 1 and 20, so the
returned list is not duplicate-free. -/
theorem get_permutations_7j3b_7_has_duplicate :
    (get_permutations 3 4 [7]).perms.get? 1 = some [3, 4, 2, 5, 6, 1, 0, -2] ∧
      (get_permutations 3 4 [7]).perms.get? 20 = some [3, 4, 2, 5, 6, 1, 0, -2] ∧
      ¬ (get_permutations 3 4 [7]).perms.Nodup := by
  decide

/-- C3 (the code at the failing input): for nb = 3, nq = 4, lost = [7] the
record {3,4,0,5,6,1,2,-2} has the sentinel exactly in slot 7, b-tagged jets
0, 1, 2 in the b-type slots 2, 5, 6, other jets in the light-type slots and
ascending pairs, and it does not occur in the returned list. -/
theorem get_permutations_7j3b_7_misses_record :
    isCanonicalRecord 3 4 [7] [3, 4, 0, 5, 6, 1, 2, -2] ∧
      [3, 4, 0, 5, 6, 1, 2, -2] ∉ (get_permutations 3 4 [7]).perms.map (List.take 8) := by
  decide

/-- C10: with 4 b-tagged jets, 4 other jets and no lost parton,
`get_permutations` returns exactly 72 records. -/
theorem get_permutations_8j4b_length :
    (get_permutations 4 4 []).perms.length = 72 := by
  decide

/-! ### Response model -/

/-- A call of `eta_to_bin_fuel` with recursion depth at least two returns, and
its value is the one of `eta_to_bin`. -/
theorem eta_to_bin_fuel_eq (dflt : Bool) (fuel : Nat) (eta : α) (mark_acceptance : Bool) :
    eta_to_bin_fuel dflt (fuel + 2) eta mark_acceptance =
      some (eta_to_bin dflt eta mark_acceptance) := by
  have h1 : ¬ (|(2.49 : α)| < 1.0) := by
    rw [abs_of_pos (by norm_num)]; norm_num
  have h2 : |(2.49 : α)| < 2.5 := by
    rw [abs_of_pos (by norm_num)]; norm_num
  simp only [eta_to_bin, eta_to_bin_fuel]
  split_ifs <;> simp

/-- C4: for every `eta` (and whatever the default of `mark_acceptance` is), a
call of `eta_to_bin` with enough recursion depth returns; it returns 0 when
|eta| < 1.0, 1 when 1.0 <= |eta| < 2.5, and for |eta| >= 2.5 it returns -1 if
`mark_acceptance` is true and 1, the bin of |eta| = 2.49, if it is false. -/
theorem eta_to_bin_spec (dflt : Bool) (fuel : Nat) (eta : α) (mark_acceptance : Bool)
    (hfuel : 2 ≤ fuel) :
    eta_to_bin_fuel dflt fuel eta mark_acceptance = some (eta_to_bin dflt eta mark_acceptance) ∧
      (|eta| < 1.0 → eta_to_bin dflt eta mark_acceptance = 0) ∧
      (1.0 ≤ |eta| → |eta| < 2.5 → eta_to_bin dflt eta mark_acceptance = 1) ∧
      (2.5 ≤ |eta| → eta_to_bin dflt eta mark_acceptance = if mark_acceptance then -1 else 1) ∧
      eta_to_bin dflt (2.49 : α) dflt = 1 := by
  have h1 : ¬ (|(2.49 : α)| < 1.0) := by
    rw [abs_of_pos (by norm_num)]; norm_num
  have h2 : |(2.49 : α)| < 2.5 := by
    rw [abs_of_pos (by norm_num)]; norm_num
  refine ⟨?_, ?_, ?_, ?_, ?_⟩
  · obtain ⟨k, rfl⟩ : ∃ k, fuel = k + 2 := ⟨fuel - 2, by omega⟩
    exact eta_to_bin_fuel_eq dflt k eta mark_acceptance
  · intro h
    simp [eta_to_bin, eta_to_bin_fuel, h]
  · intro ha hb
    simp [eta_to_bin, eta_to_bin_fuel, not_lt.mpr ha, hb]
  · intro ha
    have hb : ¬ (|eta| < 1.0) := by
      apply not_lt.mpr; refine le_trans ?_ ha; norm_num
    cases mark_acceptance <;>
      simp [eta_to_bin, eta_to_bin_fuel, not_lt.mpr ha, hb, h1, h2]
  · simp [eta_to_bin, eta_to_bin_fuel, h1, h2]

/-- Witness for `eta_to_bin_spec`: |eta| = 3 on the rationals, without marking
the acceptance. -/
theorem eta_to_bin_spec_witness :
    eta_to_bin_fuel false 2 (3 : ℚ) false = some (eta_to_bin false (3 : ℚ) false) ∧
      (|(3 : ℚ)| < 1.0 → eta_to_bin false (3 : ℚ) false = 0) ∧
      (1.0 ≤ |(3 : ℚ)| → |(3 : ℚ)| < 2.5 → eta_to_bin false (3 : ℚ) false = 1) ∧
      (2.5 ≤ |(3 : ℚ)| → eta_to_bin false (3 : ℚ) false = if false then -1 else 1) ∧
      eta_to_bin false (2.49 : ℚ) false = 1 :=
  eta_to_bin_spec false 2 (3 : ℚ) false (by decide)

/-- C5: `Chi2(x, m, s)` is 99 when s <= 0 and ((x - m)/s)^2 when s > 0. -/
theorem Chi2_spec (x m s : α) :
    (s ≤ 0 → Chi2 x m s = 99) ∧ (0 < s → Chi2 x m s = ((x - m) / s) ^ 2) := by
  constructor
  · intro h
    simp [Chi2, not_lt.mpr h]
  · intro h
    have hs : s ≠ 0 := ne_of_gt h
    simp only [Chi2, gt_iff_lt, h, if_true]
    field_simp
    ring

/-- Witness for `Chi2_spec`: a positive and a non-positive width on the
rationals. -/
theorem Chi2_spec_witness :
    ((0 : ℚ) ≤ 0 → Chi2 (3 : ℚ) 1 0 = 99) ∧ ((0 : ℚ) < 2 → Chi2 (3 : ℚ) 1 2 = ((3 - 1) / 2) ^ 2) :=
  ⟨(Chi2_spec (3 : ℚ) 1 0).1, (Chi2_spec (3 : ℚ) 1 2).2⟩

/-! ### Error function -/

theorem gauss_intervalIntegrable (a b : ℝ) :
    IntervalIntegrable (fun t : ℝ => Real.exp (-t ^ 2)) MeasureTheory.volume a b :=
  (Continuous.intervalIntegrable (by continuity) a b)

/-- The error function is an odd function. -/
theorem erf_neg (x : ℝ) : erf (-x) = -erf x := by
  unfold erf
  have h : ∫ t in (0 : ℝ)..(-x), Real.exp (-t ^ 2) = -∫ t in (0 : ℝ)..x, Real.exp (-t ^ 2) := by
    have h1 := intervalIntegral.integral_comp_neg (a := 0) (b := x)
      (fun t : ℝ => Real.exp (-t ^ 2))
    simp only [neg_sq, neg_zero] at h1
    rw [h1, intervalIntegral.integral_symm]
  rw [h]; ring

section scans

variable (dens : (Nat → α) → (Nat → α) → Except String α)

/-- Lowering the threshold keeps the lower inner loop above it: if the sum
returned for the threshold `thr1` exceeds `thr1`, the sum returned for a smaller
threshold `thr2` exceeds `thr2`. -/
theorem support_low_inner_mono (thr1 thr2 e_rec eta_rec e_L : α) (hthr : thr2 ≤ thr1) :
    ∀ (n i : Nat) (tot t1 t2 : α),
      support_low_inner dens thr1 e_rec eta_rec e_L n i tot = Except.ok t1 →
      support_low_inner dens thr2 e_rec eta_rec e_L n i tot = Except.ok t2 →
      t1 > thr1 → t2 > thr2 := by
  intro n
  induction n with
  | zero =>
    intro i tot t1 t2 h1 h2 h
    simp only [support_low_inner, Except.ok.injEq] at h1 h2
    subst h1 h2
    exact lt_of_le_of_lt hthr h
  | succ n ih =>
    intro i tot t1 t2 h1 h2 h
    simp only [support_low_inner] at h1 h2
    cases hd : dens (fun _ => e_rec + i * 2.5) (fun k => if k = 0 then e_L else eta_rec) with
    | error e => simp [hd] at h1
    | ok d =>
      simp only [hd] at h1 h2
      by_cases hc2 : tot + d * 2.5 > thr2
      · simp only [hc2, if_true, Except.ok.injEq] at h2
        subst h2
        exact hc2
      · have hc1 : ¬ (tot + d * 2.5 > thr1) := fun hh => hc2 (lt_of_le_of_lt hthr hh)
        simp only [hc1, hc2, if_false] at h1 h2
        exact ih _ _ _ _ h1 h2 h

/-- The same for the upper inner loop. -/
theorem support_high_inner_mono (thr1 thr2 e_rec eta_rec e_H : α) (hthr : thr2 ≤ thr1) :
    ∀ (n i : Nat) (tot t1 t2 : α),
      support_high_inner dens thr1 e_rec eta_rec e_H n i tot = Except.ok t1 →
      support_high_inner dens thr2 e_rec eta_rec e_H n i tot = Except.ok t2 →
      t1 > thr1 → t2 > thr2 := by
  intro n
  induction n with
  | zero =>
    intro i tot t1 t2 h1 h2 h
    simp only [support_high_inner, Except.ok.injEq] at h1 h2
    subst h1 h2
    exact lt_of_le_of_lt hthr h
  | succ n ih =>
    intro i tot t1 t2 h1 h2 h
    simp only [support_high_inner] at h1 h2
    by_cases hneg : e_rec - i * 2.5 < 0
    · simp only [hneg, if_true] at h1 h2
      exact ih _ _ _ _ h1 h2 h
    · simp only [hneg, if_false] at h1 h2
      cases hd : dens (fun _ => e_rec - i * 2.5) (fun k => if k = 0 then e_H else eta_rec) with
      | error e => simp [hd] at h1
      | ok d =>
        simp only [hd] at h1 h2
        by_cases hc2 : tot + d * 2.5 > thr2
        · simp only [hc2, if_true, Except.ok.injEq] at h2
          subst h2
          exact hc2
        · have hc1 : ¬ (tot + d * 2.5 > thr1) := fun hh => hc2 (lt_of_le_of_lt hthr hh)
          simp only [hc1, hc2, if_false] at h1 h2
          exact ih _ _ _ _ h1 h2 h

/-- The lower scan only moves down: its result is at most the energy it starts
from. -/
theorem support_low_le (thr e_rec eta_rec : α) :
    ∀ (fuel : Nat) (e_L tot r : α),
      support_low dens thr e_rec eta_rec fuel e_L tot = some (Except.ok r) → r ≤ e_L := by
  intro fuel
  induction fuel with
  | zero => intro e_L tot r h; simp [support_low] at h
  | succ fuel ih =>
    intro e_L tot r h
    simp only [support_low] at h
    split_ifs at h with hc
    · cases hi : support_low_inner dens thr e_rec eta_rec e_L 500 0 0 with
      | error e => simp [hi] at h
      | ok t =>
        simp only [hi] at h
        have := ih _ _ _ h
        have h25 : (0 : α) < 2.5 := by norm_num
        linarith
    · simp only [Option.some.injEq, Except.ok.injEq] at h
      exact le_of_eq h.symm

/-- The upper scan only moves up: its result is at least the energy it starts
from. -/
theorem support_high_ge (thr e_rec eta_rec : α) :
    ∀ (fuel : Nat) (e_H tot r : α),
      support_high dens thr e_rec eta_rec fuel e_H tot = some (Except.ok r) → e_H ≤ r := by
  intro fuel
  induction fuel with
  | zero => intro e_H tot r h; simp [support_high] at h
  | succ fuel ih =>
    intro e_H tot r h
    simp only [support_high] at h
    split_ifs at h with hc
    · cases hi : support_high_inner dens thr e_rec eta_rec e_H 500 0 0 with
      | error e => simp [hi] at h
      | ok t =>
        simp only [hi] at h
        have := ih _ _ _ h
        have h25 : (0 : α) < 2.5 := by norm_num
        linarith
    · simp only [Option.some.injEq, Except.ok.injEq] at h
      exact le_of_eq h

/-- Monotonicity of the lower scan in the threshold: from the same energy, with
accumulated sums related by `tot1 > thr1 → tot2 > thr2`, the scan for the
smaller threshold ends at or below the other one. -/
theorem support_low_mono (thr1 thr2 e_rec eta_rec : α) (hthr : thr2 ≤ thr1) :
    ∀ (fuel1 fuel2 : Nat) (e_L tot1 tot2 r1 r2 : α),
      (tot1 > thr1 → tot2 > thr2) →
      support_low dens thr1 e_rec eta_rec fuel1 e_L tot1 = some (Except.ok r1) →
      support_low dens thr2 e_rec eta_rec fuel2 e_L tot2 = some (Except.ok r2) →
      r2 ≤ r1 := by
  intro fuel1
  induction fuel1 with
  | zero => intro fuel2 e_L tot1 tot2 r1 r2 _ h1; simp [support_low] at h1
  | succ fuel1 ih =>
    intro fuel2 e_L tot1 tot2 r1 r2 hrel h1 h2
    simp only [support_low] at h1
    split_ifs at h1 with hc
    · cases fuel2 with
      | zero => simp [support_low] at h2
      | succ fuel2 =>
        have hc2 : tot2 > thr2 ∧ e_L > 0 := ⟨hrel hc.1, hc.2⟩
        simp only [support_low, hc2, and_self, if_true] at h2
        cases hi1 : support_low_inner dens thr1 e_rec eta_rec e_L 500 0 0 with
        | error e => simp [hi1] at h1
        | ok t1 =>
          cases hi2 : support_low_inner dens thr2 e_rec eta_rec e_L 500 0 0 with
          | error e => simp [hi2] at h2
          | ok t2 =>
            simp only [hi1] at h1
            simp only [hi2] at h2
            exact ih fuel2 _ t1 t2 r1 r2
              (support_low_inner_mono dens thr1 thr2 e_rec eta_rec e_L hthr 500 0 0 t1 t2 hi1 hi2)
              h1 h2
    · simp only [Option.some.injEq, Except.ok.injEq] at h1
      subst h1
      exact support_low_le dens thr2 e_rec eta_rec fuel2 _ tot2 r2 h2

/-- Monotonicity of the upper scan in the threshold. -/
theorem support_high_mono (thr1 thr2 e_rec eta_rec : α) (hthr : thr2 ≤ thr1) :
    ∀ (fuel1 fuel2 : Nat) (e_H tot1 tot2 r1 r2 : α),
      (tot1 > thr1 → tot2 > thr2) →
      support_high dens thr1 e_rec eta_rec fuel1 e_H tot1 = some (Except.ok r1) →
      support_high dens thr2 e_rec eta_rec fuel2 e_H tot2 = some (Except.ok r2) →
      r1 ≤ r2 := by
  intro fuel1
  induction fuel1 with
  | zero => intro fuel2 e_H tot1 tot2 r1 r2 _ h1; simp [support_high] at h1
  | succ fuel1 ih =>
    intro fuel2 e_H tot1 tot2 r1 r2 hrel h1 h2
    simp only [support_high] at h1
    split_ifs at h1 with hc
    · cases fuel2 with
      | zero => simp [support_high] at h2
      | succ fuel2 =>
        have hc2 : tot2 > thr2 := hrel hc
        simp only [support_high, hc2, if_true] at h2
        cases hi1 : support_high_inner dens thr1 e_rec eta_rec e_H 500 0 0 with
        | error e => simp [hi1] at h1
        | ok t1 =>
          cases hi2 : support_high_inner dens thr2 e_rec eta_rec e_H 500 0 0 with
          | error e => simp [hi2] at h2
          | ok t2 =>
            simp only [hi1] at h1
            simp only [hi2] at h2
            exact ih fuel2 _ t1 t2 r1 r2
              (support_high_inner_mono dens thr1 thr2 e_rec eta_rec e_H hthr 500 0 0 t1 t2 hi1 hi2)
              h1 h2
    · simp only [Option.some.injEq, Except.ok.injEq] at h1
      subst h1
      exact support_high_ge dens thr2 e_rec eta_rec fuel2 _ tot2 r2 h2

end scans

section termination

variable (dens : (Nat → α) → (Nat → α) → Except String α)

/-- With a density that is identically zero the lower inner loop runs through
and returns the sum zero. -/
theorem support_low_inner_zero (thr e_rec eta_rec e_L : α) (hthr : 0 ≤ thr)
    (hdens : ∀ r g, dens r g = Except.ok 0) :
    ∀ n i : Nat, support_low_inner dens thr e_rec eta_rec e_L n i 0 = Except.ok 0 := by
  intro n
  induction n with
  | zero => intro i; rfl
  | succ n ih =>
    intro i
    simp only [support_low_inner, hdens, zero_mul, add_zero, gt_iff_lt, not_lt.mpr hthr,
      if_false]
    exact ih (i + 1)

/-- The same for the upper inner loop. -/
theorem support_high_inner_zero (thr e_rec eta_rec e_H : α) (hthr : 0 ≤ thr)
    (hdens : ∀ r g, dens r g = Except.ok 0) :
    ∀ n i : Nat, support_high_inner dens thr e_rec eta_rec e_H n i 0 = Except.ok 0 := by
  intro n
  induction n with
  | zero => intro i; rfl
  | succ n ih =>
    intro i
    simp only [support_high_inner, hdens, zero_mul, add_zero, gt_iff_lt, not_lt.mpr hthr,
      if_false]
    split_ifs <;> exact ih (i + 1)

/-- The lower scan leaves its loop once `e_L` has reached zero: from an energy
`e_L <= 2.5 * n` at most `n + 1` iterations are made. -/
theorem support_low_isSome (thr e_rec eta_rec : α) :
    ∀ (n fuel : Nat) (e_L tot : α), e_L ≤ 2.5 * n → n + 1 ≤ fuel →
      (support_low dens thr e_rec eta_rec fuel e_L tot).isSome = true := by
  intro n
  induction n with
  | zero =>
    intro fuel e_L tot he hf
    obtain ⟨f, rfl⟩ : ∃ f, fuel = f + 1 := ⟨fuel - 1, by omega⟩
    have : ¬ (e_L > 0) := by simpa using he
    simp [support_low, this]
  | succ n ih =>
    intro fuel e_L tot he hf
    obtain ⟨f, rfl⟩ : ∃ f, fuel = f + 1 := ⟨fuel - 1, by omega⟩
    simp only [support_low]
    split_ifs with hc
    · cases hi : support_low_inner dens thr e_rec eta_rec e_L 500 0 0 with
      | error e => rfl
      | ok t =>
        refine ih f _ t ?_ (by omega)
        push_cast at he
        linarith
    · rfl

/-- The upper scan leaves its loop at the first step whose accumulated sum does
not exceed the threshold: if that happens `k` steps above `e_H`, at most `k + 2`
iterations are made. -/
theorem support_high_isSome (thr e_rec eta_rec : α) :
    ∀ (k fuel : Nat) (e_H tot t : α),
      support_high_inner dens thr e_rec eta_rec (e_H + 2.5 * k) 500 0 0 = Except.ok t →
      t ≤ thr → k + 2 ≤ fuel →
      (support_high dens thr e_rec eta_rec fuel e_H tot).isSome = true := by
  intro k
  induction k with
  | zero =>
    intro fuel e_H tot t hi ht hf
    obtain ⟨f, rfl⟩ : ∃ f, fuel = f + 2 := ⟨fuel - 2, by omega⟩
    simp only [Nat.cast_zero, mul_zero, add_zero] at hi
    simp only [support_high, hi, gt_iff_lt, not_lt.mpr ht, if_false]
    split_ifs <;> rfl
  | succ k ih =>
    intro fuel e_H tot t hi ht hf
    obtain ⟨f, rfl⟩ : ∃ f, fuel = f + 1 := ⟨fuel - 1, by omega⟩
    simp only [support_high]
    split_ifs with hc
    · cases hi' : support_high_inner dens thr e_rec eta_rec e_H 500 0 0 with
      | error e => rfl
      | ok t' =>
        refine ih f _ t' t ?_ ht (by omega)
        have : e_H + 2.5 + 2.5 * (k : α) = e_H + 2.5 * ((k + 1 : Nat) : α) := by
          push_cast; ring
        rw [this]; exact hi
    · rfl

/-- When the density is 1 and the reconstructed energy is not negative, the first
pass of the upper inner loop already exceeds a threshold below 2.5 and breaks. -/
theorem support_high_inner_one (thr e_rec eta_rec e_H : α) (hthr : thr < 2.5) (hrec : 0 ≤ e_rec)
    (hdens : ∀ r e, dens r (fun k => if k = 0 then e else eta_rec) = Except.ok 1) (n : Nat) :
    support_high_inner dens thr e_rec eta_rec e_H (n + 1) 0 0 = Except.ok 2.5 := by
  have h0 : ¬ (e_rec - ((0 : Nat) : α) * 2.5 < 0) := by simpa using hrec
  simp only [support_high_inner, h0, if_false, hdens, one_mul, zero_add, gt_iff_lt, hthr,
    if_true]

/-- When the density is 1 wherever it is evaluated and the reconstructed energy
is not negative, every step of the upper scan ends above a threshold below 2.5:
the loop is never left. -/
theorem support_high_diverges (thr e_rec eta_rec : α) (hthr : thr < 2.5) (hrec : 0 ≤ e_rec)
    (hdens : ∀ r e, dens r (fun k => if k = 0 then e else eta_rec) = Except.ok 1) :
    ∀ (fuel : Nat) (e_H tot : α), tot > thr →
      support_high dens thr e_rec eta_rec fuel e_H tot = none := by
  intro fuel
  induction fuel with
  | zero => intro e_H tot _; rfl
  | succ fuel ih =>
    intro e_H tot htot
    have hi : support_high_inner dens thr e_rec eta_rec e_H 500 0 0 = Except.ok 2.5 :=
      support_high_inner_one dens thr e_rec eta_rec e_H hthr hrec hdens 499
    simp only [support_high, htot, if_true, hi]
    exact ih _ _ hthr

/-- A density that never throws makes the lower inner loop return a sum. -/
theorem support_low_inner_ok (thr e_rec eta_rec e_L : α)
    (hdens : ∀ r g, ∃ d, dens r g = Except.ok d) :
    ∀ (n i : Nat) (tot : α),
      ∃ t, support_low_inner dens thr e_rec eta_rec e_L n i tot = Except.ok t := by
  intro n
  induction n with
  | zero => intro i tot; exact ⟨tot, rfl⟩
  | succ n ih =>
    intro i tot
    obtain ⟨d, hd⟩ := hdens (fun _ => e_rec + i * 2.5) (fun k => if k = 0 then e_L else eta_rec)
    simp only [support_low_inner, hd]
    split_ifs
    · exact ⟨_, rfl⟩
    · exact ih _ _

/-- A density that never throws makes the lower scan end without an error. -/
theorem support_low_no_error (thr e_rec eta_rec : α)
    (hdens : ∀ r g, ∃ d, dens r g = Except.ok d) :
    ∀ (fuel : Nat) (e_L tot : α) (e : String),
      support_low dens thr e_rec eta_rec fuel e_L tot ≠ some (Except.error e) := by
  intro fuel
  induction fuel with
  | zero => intro e_L tot e; simp [support_low]
  | succ fuel ih =>
    intro e_L tot e
    simp only [support_low]
    split_ifs
    · obtain ⟨t, ht⟩ := support_low_inner_ok dens thr e_rec eta_rec e_L hdens 500 0 0
      rw [ht]
      exact ih _ _ _
    · simp

/-- The upper scan leaves its loop at the first step that throws or whose
accumulated sum does not exceed the threshold: if that happens `k` steps above
`e_H`, at most `k + 2` iterations are made. -/
theorem support_high_ends (thr e_rec eta_rec : α) :
    ∀ (k fuel : Nat) (e_H tot : α),
      (∀ t, support_high_inner dens thr e_rec eta_rec (e_H + 2.5 * k) 500 0 0 = Except.ok t →
        t ≤ thr) →
      k + 2 ≤ fuel →
      (support_high dens thr e_rec eta_rec fuel e_H tot).isSome = true := by
  intro k
  induction k with
  | zero =>
    intro fuel e_H tot hstep hf
    obtain ⟨f, rfl⟩ : ∃ f, fuel = f + 2 := ⟨fuel - 2, by omega⟩
    simp only [Nat.cast_zero, mul_zero, add_zero] at hstep
    simp only [support_high]
    split_ifs with hc
    · cases hi : support_high_inner dens thr e_rec eta_rec e_H 500 0 0 with
      | error e => rfl
      | ok t =>
        have ht := hstep t hi
        simp only [gt_iff_lt, not_lt.mpr ht, if_false]
        rfl
    · rfl
  | succ k ih =>
    intro fuel e_H tot hstep hf
    obtain ⟨f, rfl⟩ : ∃ f, fuel = f + 1 := ⟨fuel - 1, by omega⟩
    simp only [support_high]
    split_ifs with hc
    · cases hi : support_high_inner dens thr e_rec eta_rec e_H 500 0 0 with
      | error e => rfl
      | ok t =>
        refine ih f _ t ?_ (by omega)
        have : e_H + 2.5 + 2.5 * (k : α) = e_H + 2.5 * ((k + 1 : Nat) : α) := by
          push_cast; ring
        rw [this]; exact hstep
    · rfl

/-- If the upper scan leaves its loop, either it is not entered or some step
throws or ends with an accumulated sum that does not exceed the threshold. -/
theorem support_high_ends_only_if (thr e_rec eta_rec : α) :
    ∀ (fuel : Nat) (e_H tot : α),
      (support_high dens thr e_rec eta_rec fuel e_H tot).isSome = true →
      tot ≤ thr ∨ ∃ k : Nat, ∀ t,
        support_high_inner dens thr e_rec eta_rec (e_H + 2.5 * k) 500 0 0 = Except.ok t →
          t ≤ thr := by
  intro fuel
  induction fuel with
  | zero => intro e_H tot h; simp [support_high] at h
  | succ fuel ih =>
    intro e_H tot h
    by_cases hc : tot > thr
    · right
      simp only [support_high, hc, if_true] at h
      cases hi : support_high_inner dens thr e_rec eta_rec e_H 500 0 0 with
      | error e =>
        refine ⟨0, fun t ht => ?_⟩
        simp only [Nat.cast_zero, mul_zero, add_zero, hi] at ht
        cases ht
      | ok t0 =>
        simp only [hi] at h
        rcases ih _ _ h with h0 | ⟨k, hk⟩
        · refine ⟨0, fun t ht => ?_⟩
          simp only [Nat.cast_zero, mul_zero, add_zero, hi, Except.ok.injEq] at ht
          rw [← ht]; exact h0
        · refine ⟨k + 1, fun t ht => hk t ?_⟩
          have : e_H + 2.5 + 2.5 * (k : α) = e_H + 2.5 * ((k + 1 : Nat) : α) := by
            push_cast; ring
          rw [this]; exact ht
    · left
      exact not_lt.mp hc

end termination
/-- The density of a lost light quark outside the acceptance is 1. -/
theorem support_density_lost_outside (TM : TMath α) (P : TFParams α) (r : Nat → α) (e eta : α)
    (heta : |eta| > P.TF_ACC_param 0) :
    support_density TM P none TFType.qLost r (fun k => if k = 0 then e else eta) =
      Except.ok 1 := by
  simp [support_density, transfer_function, heta]

/-- The density attached to an object whose parameters are all zero is 0. -/
theorem support_density_zeroObject (TM : TMath α) (P : TFParams α) (pt : α) (r g : Nat → α) :
    support_density TM P (some (zeroObject pt)) TFType.qReco r g = Except.ok 0 := by
  simp [support_density, transfer_function2, transfer_function_reco, double_gaussian, zeroObject]

/-- The value of `get_support` for an object with all-zero parameters: one
step down and one step up. -/
theorem get_support_zeroObject [FloorRing α] (TM : TMath α) (P : TFParams α) (fuel : Nat)
    (e_rec eta_rec pt alpha : α) (halpha : alpha ≤ 1) (ha : -1 < alpha) (hrec : 2.5 ≤ e_rec) :
    get_support TM P (fuel + 2) (arr2 e_rec eta_rec) TFType.qReco alpha (some (zeroObject pt)) =
      some (Except.ok (max (e_rec - 2.5) P.MQ, e_rec + 2.5)) := by
  have hthr : (0 : α) ≤ (1 - alpha) / 2 := by linarith
  have h1 : (1 : α) > (1 - alpha) / 2 := by linarith
  have hpos : e_rec > 0 := by
    have : (0 : α) < 2.5 := by norm_num
    linarith
  have hlow := support_low_inner_zero (support_density TM P (some (zeroObject pt)) TFType.qReco)
    ((1 - alpha) / 2) e_rec eta_rec e_rec hthr (support_density_zeroObject TM P pt) 500 0
  have hhigh := support_high_inner_zero (support_density TM P (some (zeroObject pt)) TFType.qReco)
    ((1 - alpha) / 2) e_rec eta_rec e_rec hthr (support_density_zeroObject TM P pt) 500 0
  have h0 : ¬ ((0 : α) > (1 - alpha) / 2) := not_lt.mpr hthr
  have hl : ¬ (e_rec - 2.5 < 0) := by linarith
  have hne : (TFType.qReco = TFType.MET) = False := by simp
  have hne2 : (TFType.qReco = TFType.bReco) = False := by simp
  have h10 : ((1 : Nat) = 0) = False := by simp
  simp only [get_support, get_support_energy, arr2, hne, if_false, if_true, h10]
  rw [support_low, support_high]
  simp only [h1, hpos, and_self, if_true, hlow, hhigh]
  rw [support_low, support_high]
  simp only [h0, false_and, if_false, hl, hne2]

/-- C7 (counterexample): for a lost light quark reconstructed at 100 GeV with
eta = 3, outside the acceptance edge 2.5, and the confidence level 0.95, every
density value is 1, every upward step ends with the sum 2.5 > 0.025, and
`get_support` returns for no number of iterations. -/
theorem get_support_upper_scan_never_ends :
    ¬ ∃ fuel : Nat,
      (get_support TMathReal (exampleParams Real.pi 25) fuel (arr2 100 3) TFType.qLost 0.95
        none).isSome = true := by
  rintro ⟨fuel, h⟩
  have hacc : |(3 : ℝ)| > (exampleParams Real.pi 25).TF_ACC_param 0 := by
    rw [abs_of_pos (by norm_num)]; norm_num [exampleParams]
  have hhigh := support_high_diverges
    (support_density TMathReal (exampleParams Real.pi 25) none TFType.qLost)
    ((1 - 0.95) / 2) 100 3 (by norm_num) (by norm_num)
    (fun r e => support_density_lost_outside TMathReal _ r e 3 hacc) fuel 100 1 (by norm_num)
  have hne : (TFType.qLost = TFType.MET) = False := by simp
  simp only [get_support, hne, if_false, get_support_energy, arr2, if_true] at h
  have h10 : ((1 : Nat) = 0) = False := by simp
  simp only [h10, if_false] at h
  rw [hhigh] at h
  cases hl : support_low (support_density TMathReal (exampleParams Real.pi 25) none TFType.qLost)
      ((1 - 0.95) / 2) 100 3 fuel 100 1 with
  | none => simp [hl] at h
  | some r =>
    cases r with
    | error e =>
      exact support_low_no_error _ _ _ _ (fun r g => ⟨_, rfl⟩) _ _ _ _ hl
    | ok e_L => simp [hl] at h

/-- C7 (amended): for every category other than MET and alpha > -1, the
downward scan of `get_support` always ends, after at most `n + 1` steps when
`e_rec <= 2.5 * n`, being bounded by `e_L > 0`. The upward scan has no bound on
its steps (the bound 500 is on the sub-steps of one step): the call ends, by
returning or throwing, within `max (n + 1) (k + 2)` iterations of each loop
when the upward step `k` steps above the reconstructed energy throws or ends
with an accumulated sum that does not exceed `(1 - alpha) / 2`; and it ends for
some number of iterations if and only if the downward scan throws or there is
such an upward step. Otherwise the call never ends. -/
theorem get_support_terminates [FloorRing α] [Archimedean α] (TM : TMath α) (P : TFParams α)
    (y : Nat → α) (type : TFType) (alpha : α) (obj : Option (Object α))
    (htype : type ≠ TFType.MET) (halpha : -1 < alpha) :
    (∀ n fuel : Nat, y 0 ≤ 2.5 * n → n + 1 ≤ fuel →
      (support_low (support_density TM P obj type) ((1 - alpha) / 2) (y 0) (y 1) fuel (y 0)
        1).isSome = true) ∧
    (∀ n k fuel : Nat, y 0 ≤ 2.5 * n →
      (∀ t, support_high_inner (support_density TM P obj type) ((1 - alpha) / 2) (y 0) (y 1)
          (y 0 + 2.5 * k) 500 0 0 = Except.ok t → t ≤ (1 - alpha) / 2) →
      max (n + 1) (k + 2) ≤ fuel →
      (get_support TM P fuel y type alpha obj).isSome = true) ∧
    ((∃ fuel : Nat, (get_support TM P fuel y type alpha obj).isSome = true) ↔
      ((∃ (fuel : Nat) (e : String),
          support_low (support_density TM P obj type) ((1 - alpha) / 2) (y 0) (y 1) fuel (y 0)
            1 = some (Except.error e)) ∨
        ∃ k : Nat, ∀ t,
          support_high_inner (support_density TM P obj type) ((1 - alpha) / 2) (y 0) (y 1)
            (y 0 + 2.5 * k) 500 0 0 = Except.ok t → t ≤ (1 - alpha) / 2)) := by
  have hlow : ∀ n fuel : Nat, y 0 ≤ 2.5 * n → n + 1 ≤ fuel →
      (support_low (support_density TM P obj type) ((1 - alpha) / 2) (y 0) (y 1) fuel (y 0)
        1).isSome = true :=
    fun n fuel hn hf => support_low_isSome _ _ _ _ n fuel _ _ hn hf
  have hret : ∀ n k fuel : Nat, y 0 ≤ 2.5 * n →
      (∀ t, support_high_inner (support_density TM P obj type) ((1 - alpha) / 2) (y 0) (y 1)
          (y 0 + 2.5 * k) 500 0 0 = Except.ok t → t ≤ (1 - alpha) / 2) →
      max (n + 1) (k + 2) ≤ fuel →
      (get_support TM P fuel y type alpha obj).isSome = true := by
    intro n k fuel hn hstep hf
    have h1 := hlow n fuel hn (le_trans (le_max_left _ _) hf)
    have h2 := support_high_ends (support_density TM P obj type) ((1 - alpha) / 2) (y 0) (y 1)
      k fuel (y 0) 1 hstep (le_trans (le_max_right _ _) hf)
    simp only [get_support, htype, if_false, get_support_energy]
    cases hl : support_low (support_density TM P obj type) ((1 - alpha) / 2) (y 0) (y 1) fuel
        (y 0) 1 with
    | none => simp [hl] at h1
    | some r =>
      cases r with
      | error e => rfl
      | ok e_L =>
        cases hh : support_high (support_density TM P obj type) ((1 - alpha) / 2) (y 0) (y 1)
            fuel (y 0) 1 with
        | none => simp [hh] at h2
        | some r2 =>
          cases r2 with
          | error e => rfl
          | ok e_H => rfl
  refine ⟨hlow, hret, ⟨?_, ?_⟩⟩
  · rintro ⟨fuel, h⟩
    simp only [get_support, htype, if_false, get_support_energy] at h
    cases hl : support_low (support_density TM P obj type) ((1 - alpha) / 2) (y 0) (y 1) fuel
        (y 0) 1 with
    | none => simp [hl] at h
    | some r =>
      cases r with
      | error e => exact Or.inl ⟨fuel, e, hl⟩
      | ok e_L =>
        right
        have hh : (support_high (support_density TM P obj type) ((1 - alpha) / 2) (y 0) (y 1)
            fuel (y 0) 1).isSome = true := by
          cases hh : support_high (support_density TM P obj type) ((1 - alpha) / 2) (y 0)
              (y 1) fuel (y 0) 1 with
          | none => simp [hl, hh] at h
          | some r2 => rfl
        rcases support_high_ends_only_if _ _ _ _ fuel _ _ hh with h1 | hk
        · exfalso
          linarith
        · exact hk
  · rintro (⟨fuel, e, hl⟩ | ⟨k, hstep⟩)
    · refine ⟨fuel, ?_⟩
      simp only [get_support, htype, if_false, get_support_energy, hl]
      rfl
    · obtain ⟨n, hn⟩ := exists_nat_ge (y 0 / 2.5)
      have hn2 : y 0 ≤ 2.5 * n := by
        have h25 : (0 : α) < 2.5 := by norm_num
        rw [div_le_iff₀ h25] at hn
        linarith
      exact ⟨max (n + 1) (k + 2), hret n k _ hn2 hstep (le_refl _)⟩

/-- Witness for `get_support_terminates`: a light-jet object with all-zero
parameters at 100 GeV <= 2.5 * 40; the first upward step accumulates the sum 0
and the call ends within 41 iterations. -/
theorem get_support_terminates_witness :
    (get_support TMathReal (exampleParams Real.pi 25) 41 (arr2 100 0) TFType.qReco 0.95
      (some (zeroObject 100))).isSome = true :=
  (get_support_terminates TMathReal (exampleParams Real.pi 25) (arr2 100 0) TFType.qReco 0.95
      (some (zeroObject 100)) (by simp) (by norm_num)).2.1 40 0 41
    (by norm_num [arr2])
    (fun t ht => by
      have h0 := support_high_inner_zero
        (support_density TMathReal (exampleParams Real.pi 25) (some (zeroObject 100))
          TFType.qReco) ((1 - 0.95) / 2) (arr2 (100 : ℝ) 0 0) (arr2 (100 : ℝ) 0 1)
        (arr2 (100 : ℝ) 0 0 + 2.5 * ((0 : Nat) : ℝ)) (by norm_num)
        (support_density_zeroObject TMathReal _ 100) 500 0
      rw [h0] at ht
      cases ht
      norm_num)
    (by decide)

/-- C8: for a fixed observed value, category, parameter set and object, and
confidence levels alpha1 <= alpha2 for which `get_support` returns the energy
intervals (low1, high1) and (low2, high2), the interval widens:
low2 <= low1 and high1 <= high2. Neither the sign of the density nor the range
of the confidence levels is needed. -/
theorem get_support_widens [FloorRing α] (TM : TMath α) (P : TFParams α) (fuel1 fuel2 : Nat)
    (y : Nat → α) (type : TFType) (alpha1 alpha2 : α) (obj : Option (Object α))
    (low1 high1 low2 high2 : α) (htype : type ≠ TFType.MET) (halpha : alpha1 ≤ alpha2)
    (h1 : get_support TM P fuel1 y type alpha1 obj = some (Except.ok (low1, high1)))
    (h2 : get_support TM P fuel2 y type alpha2 obj = some (Except.ok (low2, high2))) :
    low2 ≤ low1 ∧ high1 ≤ high2 := by
  have hthr : (1 - alpha2) / 2 ≤ (1 - alpha1) / 2 := by linarith
  have hrel : (1 : α) > (1 - alpha1) / 2 → (1 : α) > (1 - alpha2) / 2 := fun h => by linarith
  simp only [get_support, htype, if_false, get_support_energy] at h1 h2
  cases hl1 : support_low (support_density TM P obj type) ((1 - alpha1) / 2) (y 0) (y 1) fuel1
      (y 0) 1 with
  | none => simp [hl1] at h1
  | some r1 =>
    cases r1 with
    | error e => simp [hl1] at h1
    | ok l1 =>
      cases hl2 : support_low (support_density TM P obj type) ((1 - alpha2) / 2) (y 0) (y 1)
          fuel2 (y 0) 1 with
      | none => simp [hl2] at h2
      | some r2 =>
        cases r2 with
        | error e => simp [hl2] at h2
        | ok l2 =>
          cases hh1 : support_high (support_density TM P obj type) ((1 - alpha1) / 2) (y 0)
              (y 1) fuel1 (y 0) 1 with
          | none => simp [hl1, hh1] at h1
          | some s1 =>
            cases s1 with
            | error e => simp [hl1, hh1] at h1
            | ok u1 =>
              cases hh2 : support_high (support_density TM P obj type) ((1 - alpha2) / 2)
                  (y 0) (y 1) fuel2 (y 0) 1 with
              | none => simp [hl2, hh2] at h2
              | some s2 =>
                cases s2 with
                | error e => simp [hl2, hh2] at h2
                | ok u2 =>
                  have hlow := support_low_mono _ _ _ (y 0) (y 1) hthr fuel1 fuel2 (y 0) 1 1
                    l1 l2 hrel hl1 hl2
                  have hhigh := support_high_mono _ _ _ (y 0) (y 1) hthr fuel1 fuel2 (y 0) 1 1
                    u1 u2 hrel hh1 hh2
                  simp only [hl1, hh1, Option.some.injEq, Except.ok.injEq, Prod.mk.injEq] at h1
                  simp only [hl2, hh2, Option.some.injEq, Except.ok.injEq, Prod.mk.injEq] at h2
                  obtain ⟨ha, hb⟩ := h1
                  obtain ⟨hc, hd⟩ := h2
                  subst ha hb hc hd
                  refine ⟨?_, hhigh⟩
                  apply max_le_max_right
                  split_ifs <;> linarith

/-- Witness for `get_support_widens`: the confidence levels 0.9 and 0.95 for a
light-jet object with all-zero parameters at 100 GeV; both intervals are
(97.5, 102.5). -/
theorem get_support_widens_witness :
    (100 - 2.5 : ℝ) ⊔ (exampleParams Real.pi 25).MQ ≤ (100 - 2.5 : ℝ) ⊔ (exampleParams Real.pi 25).MQ ∧
      (100 + 2.5 : ℝ) ≤ 100 + 2.5 :=
  get_support_widens TMathReal (exampleParams Real.pi 25) 2 2 (arr2 100 0) TFType.qReco 0.9 0.95
    (some (zeroObject 100)) _ _ _ _ (by simp) (by norm_num)
    (get_support_zeroObject TMathReal _ 0 100 0 100 0.9 (by norm_num) (by norm_num) (by norm_num))
    (get_support_zeroObject TMathReal _ 0 100 0 100 0.95 (by norm_num) (by norm_num)
      (by norm_num))

/-! ### Support solver: the missing-energy window -/

/-- An angle returned by the azimuthal scan is one of the scanned angles
`Phi + (2 dir - 1) * phiStep * k`, with `k` among the `n` steps from `step`. -/
theorem met_phi_scan_some (TM : TMath α) (Px Py sx sy rho chi2Cut Phi phiStep : α) (dir : Nat) :
    ∀ (n step : Nat) (phi : α),
      met_phi_scan TM Px Py sx sy rho chi2Cut Phi phiStep dir n step = some phi →
      ∃ k : Nat, step ≤ k ∧ k < step + n ∧ phi = Phi + (2 * (dir : α) - 1) * phiStep * k := by
  intro n
  induction n with
  | zero => intro step phi h; simp [met_phi_scan] at h
  | succ n ih =>
    intro step phi h
    simp only [met_phi_scan] at h
    split_ifs at h with hc
    · obtain ⟨k, hk1, hk2, hk3⟩ := ih _ _ h
      exact ⟨k, by omega, by omega, hk3⟩
    · simp only [Option.some.injEq] at h
      exact ⟨step, le_refl _, by omega, h.symm⟩

/-- The azimuth `Phi` that `get_support` computes for the missing energy is
positive and at most `2 pi`. -/
theorem met_Phi_bounds (Px Py : ℝ) :
    0 < (if Py > 0 then Real.arccos (Px / Real.sqrt (Px * Px + Py * Py))
      else 2 * Real.pi - Real.arccos (Px / Real.sqrt (Px * Px + Py * Py))) ∧
    (if Py > 0 then Real.arccos (Px / Real.sqrt (Px * Px + Py * Py))
      else 2 * Real.pi - Real.arccos (Px / Real.sqrt (Px * Px + Py * Py))) ≤ 2 * Real.pi := by
  have hpi := Real.pi_pos
  have h0 := Real.arccos_nonneg (Px / Real.sqrt (Px * Px + Py * Py))
  have h1 := Real.arccos_le_pi (Px / Real.sqrt (Px * Px + Py * Py))
  split_ifs with hPy
  · refine ⟨?_, by linarith⟩
    rw [Real.arccos_pos]
    have hs : 0 < Real.sqrt (Px * Px + Py * Py) := Real.sqrt_pos.mpr (by nlinarith)
    rw [div_lt_one hs]
    apply Real.lt_sqrt_of_sq_lt
    nlinarith
  · exact ⟨by linarith, by linarith⟩

/-- The chi-square distance of the origin from the missing energy (100, 0) with
widths 25 is 16, above the quantile `-2 ln 0.05` of the confidence level 0.95. -/
theorem met_example_outside :
    Chi2Corr (100 : ℝ) 0 (Real.sqrt (25 * 25)) (Real.sqrt (25 * 25)) 0 >
      -2 * Real.log (1 - |(0.95 : ℝ)|) := by
  have hsq : Real.sqrt (25 * 25) = (25 : ℝ) := Real.sqrt_mul_self (by norm_num)
  have hchi : Chi2Corr (100 : ℝ) 0 (Real.sqrt (25 * 25)) (Real.sqrt (25 * 25)) 0 = 16 := by
    rw [hsq]; norm_num [Chi2Corr, Chi2]
  have habs : (1 : ℝ) - |(0.95 : ℝ)| = 0.05 := by
    rw [abs_of_pos (by norm_num)]; norm_num
  rw [hchi, habs]
  have h4 : (5 : ℝ) ≤ Real.exp 4 := by
    have := Real.add_one_le_exp (4 : ℝ)
    linarith
  have h8 : (25 : ℝ) ≤ Real.exp 8 := by
    have : Real.exp 8 = Real.exp 4 * Real.exp 4 := by
      rw [← Real.exp_add]; norm_num
    rw [this]; nlinarith
  have hlog : -8 < Real.log (0.05 : ℝ) := by
    rw [Real.lt_log_iff_exp_lt (by norm_num)]
    rw [Real.exp_neg]
    have hpos : 0 < Real.exp 8 := Real.exp_pos 8
    rw [inv_lt_comm₀ hpos (by norm_num)]
    norm_num
    linarith
  linarith

/-- The window returned in the search branch for a positive confidence level:
the low edge is the default `-pi` and the high edge `X` is the default `pi` or
half a step before the first scanned angle without a crossing, both shifted by
the azimuth `Phi` of the missing energy. -/
theorem get_support_MET_search (P : TFParams ℝ) (y : Nat → ℝ) (alpha : ℝ) (halpha : 0 < alpha)
    (hout : Chi2Corr (y 0) (y 1) (Real.sqrt (P.TF_MET_param 0 * P.TF_MET_param 0))
        (Real.sqrt (P.TF_MET_param 1 * P.TF_MET_param 1)) (P.TF_MET_param 2) >
      TMathReal.ChisquareQuantile |alpha| 2) :
    ∃ X : ℝ,
      get_support_MET TMathReal P y alpha =
        (-Real.pi - met_azimuth TMathReal (y 0) (y 1), X - met_azimuth TMathReal (y 0) (y 1)) ∧
      (X = Real.pi ∨ ∃ k : Nat, (k : ℝ) ≤ Real.pi / 0.04 ∧
        X = met_azimuth TMathReal (y 0) (y 1) + 0.04 * k - 0.02) := by
  have hns : ¬ (Chi2Corr (y 0) (y 1) (Real.sqrt (P.TF_MET_param 0 * P.TF_MET_param 0))
        (Real.sqrt (P.TF_MET_param 1 * P.TF_MET_param 1)) (P.TF_MET_param 2) ≤
      TMathReal.ChisquareQuantile |alpha| 2) := not_le.mpr hout
  have hS : TMathReal.Sqrt = Real.sqrt := rfl
  have hP : TMathReal.Pi = Real.pi := rfl
  have h10 : ((1 : Nat) = 0) = False := by simp
  unfold get_support_MET
  simp only [hS, hP, gt_iff_lt, halpha, if_true, hns, if_false, h10]
  cases hscan : met_phi_scan TMathReal (y 0) (y 1)
      (Real.sqrt (P.TF_MET_param 0 * P.TF_MET_param 0))
      (Real.sqrt (P.TF_MET_param 1 * P.TF_MET_param 1)) (P.TF_MET_param 2)
      (TMathReal.ChisquareQuantile |alpha| 2)
      (if 0 < y 1 then TMathReal.ACos (y 0 / Real.sqrt (y 0 * y 0 + y 1 * y 1))
        else 2 * Real.pi - TMathReal.ACos (y 0 / Real.sqrt (y 0 * y 0 + y 1 * y 1)))
      0.04 1 (⌊Real.pi / 0.04⌋₊ + 1) 0 with
  | none =>
    refine ⟨Real.pi, ?_, Or.inl rfl⟩
    simp only [met_azimuth, hS, hP, gt_iff_lt]
  | some phi =>
    obtain ⟨k, _, hk2, hk3⟩ := met_phi_scan_some _ _ _ _ _ _ _ _ _ _ _ _ _ hscan
    refine ⟨phi - 0.5 * 0.04, ?_, Or.inr ⟨k, ?_, ?_⟩⟩
    · simp only [met_azimuth, hS, hP, gt_iff_lt]
    · have hk : k ≤ ⌊Real.pi / 0.04⌋₊ := by omega
      exact (Nat.le_floor_iff (by positivity)).mp hk
    · rw [hk3]
      simp only [met_azimuth, hS, hP, gt_iff_lt]
      push_cast
      ring

/-- C9 (the code at the failing input): for the missing energy (100, 0) GeV
with widths (25, 25, 0) and the confidence level 0.95 the origin is outside the
contour (chi-square 16 above the quantile), the azimuth is `2 pi`, and the
returned low edge is `-3 pi`, below `-pi`; the window is at least `2 pi` wide,
not narrower than [-pi, pi]. The low edge is the default `-pi` of the direction
that is not scanned, from which the azimuth has been subtracted. -/
theorem get_support_MET_window_not_inside :
    Chi2Corr (100 : ℝ) 0 (Real.sqrt (25 * 25)) (Real.sqrt (25 * 25)) 0 >
        TMathReal.ChisquareQuantile |(0.95 : ℝ)| 2 ∧
      (get_support_MET TMathReal (exampleParams Real.pi 25) (arr2 100 0) 0.95).1 =
        -3 * Real.pi ∧
      (get_support_MET TMathReal (exampleParams Real.pi 25) (arr2 100 0) 0.95).1 < -Real.pi ∧
      2 * Real.pi ≤ (get_support_MET TMathReal (exampleParams Real.pi 25) (arr2 100 0) 0.95).2 -
        (get_support_MET TMathReal (exampleParams Real.pi 25) (arr2 100 0) 0.95).1 := by
  have hq : TMathReal.ChisquareQuantile |(0.95 : ℝ)| 2 = -2 * Real.log (1 - |(0.95 : ℝ)|) := by
    simp [TMathReal]
  have hout := met_example_outside
  rw [← hq] at hout
  have haz : met_azimuth TMathReal (100 : ℝ) 0 = 2 * Real.pi := by
    have h1 : Real.sqrt ((100 : ℝ) * 100 + 0 * 0) = 100 := by
      rw [show (100 : ℝ) * 100 + 0 * 0 = 100 * 100 by norm_num]
      exact Real.sqrt_mul_self (by norm_num)
    simp [met_azimuth, TMathReal, h1]
  obtain ⟨X, hX, hcase⟩ := get_support_MET_search (exampleParams Real.pi 25) (arr2 100 0) 0.95
    (by norm_num) (by simpa [exampleParams, arr2] using hout)
  have ha : arr2 (100 : ℝ) 0 0 = 100 := rfl
  have hb : arr2 (100 : ℝ) 0 1 = 0 := rfl
  rw [ha, hb, haz] at hX hcase
  have hpi := Real.pi_pos
  have hpi3 := Real.pi_gt_three
  rw [hX]
  refine ⟨hout, by simp only; ring, by simp only; linarith, ?_⟩
  simp only
  rcases hcase with h | ⟨k, _, h⟩
  · rw [h]; linarith
  · rw [h]
    have : (0 : ℝ) ≤ k := Nat.cast_nonneg k
    linarith


/-! ### Records of the supported topologies -/

/-- Every record of every table passes the record check. -/
theorem tables_rowOK : ∀ t ∈ definedTopologies,
    ∀ r ∈ (get_permutations t.1 t.2.1 t.2.2).perms, rowOK t.1 t.2.1 t.2.2 r = true := by
  decide

theorem supported_rowOK (nb nq : Nat) (lost : List Nat) (h : supported nb nq lost)
    (r : List Int) (hr : r ∈ (get_permutations nb nq lost).perms) :
    rowOK nb nq lost r = true :=
  tables_rowOK (nb, nq, lost) h r hr

theorem isLostB_iff (v : Int) : isLostB v = true ↔ v = LOST := by
  unfold isLostB LOST
  split
  · simp
  · rename_i h
    constructor
    · intro h'; cases h'
    · intro h'; exact absurd h' (by intro h2; apply h; rw [h2]; rfl)

theorem isJetB_iff (lo hi : Nat) (v : Int) :
    isJetB lo hi v = true ↔ (lo : Int) ≤ v ∧ v < hi := by
  cases v with
  | ofNat n =>
    simp only [isJetB, Bool.and_eq_true, Nat.ble_eq, Nat.blt_eq, Int.ofNat_eq_coe,
      Nat.cast_le, Nat.cast_lt]
  | negSucc n =>
    simp only [isJetB, Bool.false_eq_true, false_iff, not_and, not_lt]
    intro h
    have := Int.negSucc_lt_zero n
    omega

theorem entryEqB_iff (u v : Int) : entryEqB u v = true ↔ u = v := by
  cases u <;> cases v <;> simp [entryEqB]

theorem ascB_spec (u v : Int) (h : ascB u v = true) (hu : u ≠ LOST) (hv : v ≠ LOST) : u < v := by
  have h1 : isLostB u = false := by
    rw [← Bool.not_eq_true, isLostB_iff]; exact hu
  have h2 : isLostB v = false := by
    rw [← Bool.not_eq_true, isLostB_iff]; exact hv
  simp only [ascB, h1, h2, Bool.false_or] at h
  cases u <;> cases v <;> simp_all

theorem slot_cons_zero (v : Int) (vs : List Int) : slot (v :: vs) 0 = v := rfl

theorem slot_cons_succ (v : Int) (vs : List Int) (i : Nat) :
    slot (v :: vs) (i + 1) = slot vs i := by
  simp [slot]

theorem slot_mem (l : List Int) (i : Nat) (h : i < l.length) : slot l i ∈ l := by
  induction l generalizing i with
  | nil => simp at h
  | cons v vs ih =>
    cases i with
    | zero => simp [slot_cons_zero]
    | succ i =>
      rw [slot_cons_succ]
      exact List.mem_cons_of_mem _ (ih i (by simpa using h))

/-- A list that passes `distinctB` has no entry other than the sentinel at two
positions. -/
theorem distinctB_lt (l : List Int) (h : distinctB l = true) :
    ∀ i j : Nat, i < j → j < l.length → slot l i ≠ LOST → slot l i ≠ slot l j := by
  induction l with
  | nil => intro i j _ hj; simp at hj
  | cons v vs ih =>
    simp only [distinctB, Bool.and_eq_true, Bool.or_eq_true, Bool.not_eq_true',
      List.any_eq_false] at h
    intro i j hij hj hi
    obtain ⟨j', rfl⟩ : ∃ j', j = j' + 1 := ⟨j - 1, by omega⟩
    rw [slot_cons_succ]
    cases i with
    | zero =>
      rw [slot_cons_zero] at hi ⊢
      rcases h.1 with h1 | h1
      · exact absurd ((isLostB_iff v).mp h1) hi
      · intro heq
        have hm := h1 (slot vs j') (slot_mem vs j' (by simpa using hj))
        rw [entryEqB_iff] at hm
        exact hm heq
    | succ i =>
      rw [slot_cons_succ] at hi ⊢
      exact ih h.2 i j' (by omega) (by simpa using hj) hi

theorem distinctB_spec (l : List Int) (h : distinctB l = true) (i j : Nat) (hij : i ≠ j)
    (hi : i < l.length) (hj : j < l.length) (hl : slot l i ≠ LOST) : slot l i ≠ slot l j := by
  rcases Nat.lt_or_gt_of_ne hij with h1 | h1
  · exact distinctB_lt l h i j h1 hj hl
  · by_cases hjl : slot l j = LOST
    · rw [hjl]; exact hl
    · exact fun heq => distinctB_lt l h j i h1 hi hjl heq.symm

/-- What the test of one role slot establishes. -/
theorem slotOK_spec (nb nq : Nat) (lost : List Nat) (i : Nat) (v : Int)
    (h : slotOK nb nq lost i v = true) :
    (v = LOST ↔ i ∈ lost) ∧ (i ∉ lost → inRange 0 (nb + nq) v) ∧
      (inRange 0 nb v → i ∈ bSlots) ∧ (inRange nb (nb + nq) v → i ∉ bSlots) := by
  unfold slotOK at h
  simp only [List.elem_eq_mem, decide_eq_true_eq] at h
  unfold inRange
  by_cases hl : i ∈ lost
  · simp only [hl, if_true, isLostB_iff] at h
    subst h
    simp only [LOST, hl, not_true_eq_false, iff_true, false_implies, true_and]
    constructor <;> intro h <;> omega
  · simp only [hl, if_false] at h
    have hne : ∀ lo hi : Nat, (lo : Int) ≤ v ∧ v < hi → v ≠ LOST := by
      intro lo hi h2 h3; rw [h3] at h2; unfold LOST at h2; omega
    by_cases hb : i ∈ bSlots
    · simp only [hb, if_true, isJetB_iff] at h
      refine ⟨⟨fun h3 => absurd h3 (hne _ _ h), fun h3 => absurd h3 hl⟩, fun _ => ?_,
        fun _ => hb, fun h3 => ?_⟩
      · constructor <;> push_cast at * <;> omega
      · push_cast at *; omega
    · simp only [hb, if_false, isJetB_iff] at h
      refine ⟨⟨fun h3 => absurd h3 (hne _ _ h), fun h3 => absurd h3 hl⟩, fun _ => ?_,
        fun h3 => ?_, fun _ => hb⟩
      · constructor <;> push_cast at * <;> omega
      · push_cast at *; omega

/-- What the test of a whole record establishes: the eight role slots pass
`slotOK`, the three pairs pass `ascB`, the entries pass `distinctB`, and the
record has eight entries, or nine with an other-jet index in the ninth. -/
theorem rowOK_spec (nb nq : Nat) (lost : List Nat) (r : List Int)
    (h : rowOK nb nq lost r = true) :
    (∀ i, i < 8 → slotOK nb nq lost i (slot r i) = true) ∧
      (ascB (slot r 0) (slot r 1) = true ∧ ascB (slot r 3) (slot r 4) = true ∧
        ascB (slot r 6) (slot r 7) = true) ∧
      distinctB r = true ∧
      (r.length = 8 ∨ (r.length = 9 ∧ isJetB nb (nb + nq) (slot r 8) = true)) := by
  unfold rowOK at h
  split at h
  · simp only [rolesOK, Bool.and_eq_true] at h
    refine ⟨fun i hi => ?_, ?_, h.2, Or.inl rfl⟩
    · interval_cases i <;> simp [slot, h.1]
    · simp [slot, h.1]
  · simp only [rolesOK, Bool.and_eq_true] at h
    refine ⟨fun i hi => ?_, ?_, h.2, Or.inr ⟨rfl, ?_⟩⟩
    · interval_cases i <;> simp [slot, h.1]
    · simp [slot, h.1]
    · simp [slot, h.1]
  · exact absurd h (by simp)

/-- A role slot that is not a b-type slot is a light-type slot. -/
theorem qSlots_of_not_bSlots (i : Nat) (hi : i < 8) (h : i ∉ bSlots) : i ∈ qSlots := by
  interval_cases i <;> simp [bSlots, qSlots] at h ⊢

/-- C13: for every supported (nb, nq, lost), every returned record r and every
role slot i in 0..7, r[i] is the sentinel -2 if and only if i is in the lost
list, and every other role slot holds a non-negative jet index. -/
theorem get_permutations_sentinel (nb nq : Nat) (lost : List Nat) (h : supported nb nq lost)
    (r : List Int) (hr : r ∈ (get_permutations nb nq lost).perms) (i : Nat) (hi : i < 8) :
    (slot r i = LOST ↔ i ∈ lost) ∧ (i ∉ lost → 0 ≤ slot r i) := by
  have hs := slotOK_spec nb nq lost i (slot r i)
    ((rowOK_spec nb nq lost r (supported_rowOK nb nq lost h r hr)).1 i hi)
  refine ⟨hs.1, fun hl => ?_⟩
  have := (hs.2.1 hl).1
  simpa using this

/-- Witness for `get_permutations_sentinel`: slot 1 of the first record of the
table for nb = 4, nq = 4, lost = [1]. -/
theorem get_permutations_sentinel_witness :
    (slot [4, -2, 0, 6, 7, 1, 2, 3] 1 = LOST ↔ 1 ∈ [1]) ∧
      (1 ∉ [1] → 0 ≤ slot [4, -2, 0, 6, 7, 1, 2, 3] 1) :=
  get_permutations_sentinel 4 4 [1] (by decide) [4, -2, 0, 6, 7, 1, 2, 3] (by decide) 1
    (by decide)

/-- C14: for every supported (nb, nq, lost) and every returned record, an entry
that is a b-tagged jet index (0..nb-1) stands in a b-type role slot (2, 5, 6, 7)
and an entry that is an other-jet index (nb..nb+nq-1) stands in a light-type
role slot (0, 1, 3, 4) or in the ninth slot. -/
theorem get_permutations_flavour (nb nq : Nat) (lost : List Nat) (h : supported nb nq lost)
    (r : List Int) (hr : r ∈ (get_permutations nb nq lost).perms) (i : Nat)
    (hi : i < r.length) :
    (inRange 0 nb (slot r i) → i ∈ bSlots) ∧
      (inRange nb (nb + nq) (slot r i) → i ∈ qSlots ∨ i = 8) := by
  obtain ⟨hslot, _, _, hlen⟩ := rowOK_spec nb nq lost r (supported_rowOK nb nq lost h r hr)
  by_cases h8 : i < 8
  · have hs := slotOK_spec nb nq lost i (slot r i) (hslot i h8)
    exact ⟨hs.2.2.1, fun hq => Or.inl (qSlots_of_not_bSlots i h8 (hs.2.2.2 hq))⟩
  · rcases hlen with hlen | ⟨hlen, hk⟩
    · omega
    · have hi8 : i = 8 := by omega
      subst hi8
      rw [isJetB_iff] at hk
      refine ⟨fun hb => ?_, fun _ => Or.inr rfl⟩
      unfold inRange at hb
      omega

/-- Witness for `get_permutations_flavour`: the ninth slot of the first record
of the table for nb = 4, nq = 5, lost = []. -/
theorem get_permutations_flavour_witness :
    (inRange 0 4 (slot [4, 5, 0, 6, 7, 1, 2, 3, 8] 8) → 8 ∈ bSlots) ∧
      (inRange 4 (4 + 5) (slot [4, 5, 0, 6, 7, 1, 2, 3, 8] 8) → 8 ∈ qSlots ∨ 8 = 8) :=
  get_permutations_flavour 4 5 [] (by decide) [4, 5, 0, 6, 7, 1, 2, 3, 8] (by decide) 8
    (by decide)

/-- C15: for every supported (nb, nq, lost) and every returned record, each
entry is either -2 or a jet index in 0..nb+nq-1, and no jet index occurs at two
positions of the record. -/
theorem get_permutations_entries (nb nq : Nat) (lost : List Nat) (h : supported nb nq lost)
    (r : List Int) (hr : r ∈ (get_permutations nb nq lost).perms) :
    (∀ i, i < r.length → slot r i = LOST ∨ inRange 0 (nb + nq) (slot r i)) ∧
      (∀ i j, i < r.length → j < r.length → i ≠ j → slot r i ≠ LOST →
        slot r i ≠ slot r j) := by
  obtain ⟨hslot, _, hdist, hlen⟩ := rowOK_spec nb nq lost r (supported_rowOK nb nq lost h r hr)
  refine ⟨fun i hi => ?_, fun i j hi hj hij hl => distinctB_spec r hdist i j hij hi hj hl⟩
  by_cases h8 : i < 8
  · have hs := slotOK_spec nb nq lost i (slot r i) (hslot i h8)
    by_cases hl : i ∈ lost
    · exact Or.inl (hs.1.mpr hl)
    · exact Or.inr (hs.2.1 hl)
  · rcases hlen with hlen | ⟨hlen, hk⟩
    · omega
    · have hi8 : i = 8 := by omega
      subst hi8
      rw [isJetB_iff] at hk
      right
      unfold inRange
      constructor
      · have := hk.1
        push_cast
        omega
      · exact hk.2

/-- Witness for `get_permutations_entries`: the first record of the table for
nb = 4, nq = 5, lost = [1]. -/
theorem get_permutations_entries_witness :
    (∀ i, i < ([4, -2, 0, 6, 7, 1, 2, 3, 8] : List Int).length →
        slot [4, -2, 0, 6, 7, 1, 2, 3, 8] i = LOST ∨
          inRange 0 (4 + 5) (slot [4, -2, 0, 6, 7, 1, 2, 3, 8] i)) ∧
      (∀ i j, i < ([4, -2, 0, 6, 7, 1, 2, 3, 8] : List Int).length →
        j < ([4, -2, 0, 6, 7, 1, 2, 3, 8] : List Int).length → i ≠ j →
        slot [4, -2, 0, 6, 7, 1, 2, 3, 8] i ≠ LOST →
        slot [4, -2, 0, 6, 7, 1, 2, 3, 8] i ≠ slot [4, -2, 0, 6, 7, 1, 2, 3, 8] j) :=
  get_permutations_entries 4 5 [1] (by decide) [4, -2, 0, 6, 7, 1, 2, 3, 8] (by decide)

/-- The entries of an interchangeable pair of a returned record are ascending
when neither is the sentinel. -/
theorem rowOK_ascending (nb nq : Nat) (lost : List Nat) (r : List Int)
    (h : rowOK nb nq lost r = true) (p : Nat × Nat) (hp : p ∈ symPairs)
    (h1 : slot r p.1 ≠ LOST) (h2 : slot r p.2 ≠ LOST) : slot r p.1 < slot r p.2 := by
  obtain ⟨_, ⟨ha, hb, hc⟩, _, _⟩ := rowOK_spec nb nq lost r h
  simp only [symPairs, List.mem_cons, List.mem_nil_iff, or_false] at hp
  rcases hp with rfl | rfl | rfl
  · exact ascB_spec _ _ ha h1 h2
  · exact ascB_spec _ _ hb h1 h2
  · exact ascB_spec _ _ hc h1 h2

/-- C16: for every supported (nb, nq, lost) and every returned record, whenever
both slots of an interchangeable pair (0,1), (3,4) or (6,7) hold jet indices,
the first is smaller than the second. -/
theorem get_permutations_ascending (nb nq : Nat) (lost : List Nat) (h : supported nb nq lost)
    (r : List Int) (hr : r ∈ (get_permutations nb nq lost).perms) (p : Nat × Nat)
    (hp : p ∈ symPairs) (h1 : slot r p.1 ≠ LOST) (h2 : slot r p.2 ≠ LOST) :
    slot r p.1 < slot r p.2 :=
  rowOK_ascending nb nq lost r (supported_rowOK nb nq lost h r hr) p hp h1 h2

/-- Witness for `get_permutations_ascending`: the pair (6, 7) of the first
record of the table for nb = 4, nq = 4, lost = []. -/
theorem get_permutations_ascending_witness :
    slot [4, 5, 0, 6, 7, 1, 2, 3] (6, 7).1 < slot [4, 5, 0, 6, 7, 1, 2, 3] (6, 7).2 :=
  get_permutations_ascending 4 4 [] (by decide) [4, 5, 0, 6, 7, 1, 2, 3] (by decide) (6, 7)
    (by decide) (by decide) (by decide)

/-- C11: for every supported (nb, nq, lost) and each interchangeable pair
(0,1), (3,4), (6,7), the output contains no two records of which one is
obtained from the other by exchanging the two different entries of the pair. -/
theorem get_permutations_no_swapped_pair (nb nq : Nat) (lost : List Nat)
    (h : supported nb nq lost) (p : Nat × Nat) (hp : p ∈ symPairs)
    (r1 r2 : List Int) (h1 : r1 ∈ (get_permutations nb nq lost).perms)
    (h2 : r2 ∈ (get_permutations nb nq lost).perms) (hne : slot r1 p.1 ≠ slot r1 p.2) :
    ¬ isPairSwap p.1 p.2 r1 r2 := by
  rintro ⟨_, hab, hba, _⟩
  have hk1 := supported_rowOK nb nq lost h r1 h1
  have hk2 := supported_rowOK nb nq lost h r2 h2
  have hp8 : p.1 < 8 ∧ p.2 < 8 := by
    simp only [symPairs, List.mem_cons, List.mem_nil_iff, or_false] at hp
    rcases hp with rfl | rfl | rfl <;> simp
  have s1a := (slotOK_spec nb nq lost p.1 _ ((rowOK_spec nb nq lost r1 hk1).1 p.1 hp8.1)).1
  have s1b := (slotOK_spec nb nq lost p.2 _ ((rowOK_spec nb nq lost r1 hk1).1 p.2 hp8.2)).1
  have s2a := (slotOK_spec nb nq lost p.1 _ ((rowOK_spec nb nq lost r2 hk2).1 p.1 hp8.1)).1
  have s2b := (slotOK_spec nb nq lost p.2 _ ((rowOK_spec nb nq lost r2 hk2).1 p.2 hp8.2)).1
  rw [hab] at s2a
  rw [hba] at s2b
  by_cases hl : slot r1 p.1 = LOST
  · have : slot r1 p.2 = LOST := s2a.mpr (s1a.mp hl)
    exact hne (hl.trans this.symm)
  · have hl2 : slot r1 p.2 ≠ LOST := fun hh => hl (s2b.mpr (s1b.mp hh))
    have a1 := rowOK_ascending nb nq lost r1 hk1 p hp hl hl2
    have a2 := rowOK_ascending nb nq lost r2 hk2 p hp (by rw [hab]; exact hl2)
      (by rw [hba]; exact hl)
    rw [hab, hba] at a2
    exact lt_asymm a1 a2

/-- Witness for `get_permutations_no_swapped_pair`: the first record of the
table for nb = 4, nq = 4, lost = [] and the pair (0, 1). -/
theorem get_permutations_no_swapped_pair_witness :
    ¬ isPairSwap (0, 1).1 (0, 1).2 [4, 5, 0, 6, 7, 1, 2, 3] [4, 6, 0, 5, 7, 1, 2, 3] :=
  get_permutations_no_swapped_pair 4 4 [] (by decide) (0, 1) (by decide)
    [4, 5, 0, 6, 7, 1, 2, 3] [4, 6, 0, 5, 7, 1, 2, 3] (by decide) (by decide) (by decide)

/-- The lost lists of the tables: those of at most four roles are ascending, and
the only longer one is {0,1,3,4,2}, whose ascending order {0,1,2,3,4} has no
table. -/
theorem tables_lost_order : ∀ t ∈ definedTopologies,
    (t.2.2.length ≤ 4 → sortedLost t.2.2 = t.2.2) ∧
      (4 < t.2.2.length → t.2.2 = [0, 1, 3, 4, 2] ∧ sortedLost t.2.2 = [0, 1, 2, 3, 4] ∧
        (get_permutations t.1 t.2.1 t.2.2).perms ≠ [] ∧
        get_permutations t.1 t.2.1 [0, 1, 2, 3, 4] =
          ⟨[], [(if t.1 + t.2.1 = 9 then "9j,4b " else if t.1 + t.2.1 = 8 then
            (if t.1 = 4 then "8j,4b " else "8j,3b ") else
            (if t.1 = 4 then "7j,4b " else "7j,3b ")) ++ "5 lost not defined"]⟩) := by
  decide

/-- C12 (counterexample): for nb = 4, nq = 4 the five-lost topology is returned
for the lost list {0,1,3,4,2}; its ascending order {0,1,2,3,4} returns the empty
list and prints a line. -/
theorem get_permutations_sorted_five_lost :
    sortedLost [0, 1, 3, 4, 2] = [0, 1, 2, 3, 4] ∧
      (get_permutations 4 4 [0, 1, 3, 4, 2]).perms.length = 12 ∧
      get_permutations 4 4 (sortedLost [0, 1, 3, 4, 2]) =
        ⟨[], ["8j,4b 5 lost not defined"]⟩ ∧
      get_permutations 4 4 [0, 1, 3, 4, 2] ≠ get_permutations 4 4 (sortedLost [0, 1, 3, 4, 2]) := by
  decide

/-- C12 (amended): the enumeration rule is selected by the lost list as it is
given, position by position. For every supported key with at most four lost
roles the list is ascending, so `get_permutations` of the sorted list is the
same; the five-lost topology is keyed by {0,1,3,4,2}, and given in ascending
order {0,1,2,3,4} the call returns the empty list. -/
theorem get_permutations_lost_order (nb nq : Nat) (lost : List Nat)
    (h : supported nb nq lost) :
    (lost.length ≤ 4 →
        get_permutations nb nq (sortedLost lost) = get_permutations nb nq lost) ∧
      (4 < lost.length → lost = [0, 1, 3, 4, 2] ∧
        (get_permutations nb nq lost).perms ≠ [] ∧
        (get_permutations nb nq (sortedLost lost)).perms = []) := by
  have ht := tables_lost_order (nb, nq, lost) h
  refine ⟨fun hl => ?_, fun hl => ?_⟩
  · rw [ht.1 hl]
  · obtain ⟨h1, h2, h3, h4⟩ := ht.2 hl
    refine ⟨h1, h3, ?_⟩
    rw [h2]
    simp only at h4
    rw [h4]

/-- Witness for `get_permutations_lost_order`: nb = 4, nq = 3 with the five
lost roles {0,1,3,4,2}. -/
theorem get_permutations_lost_order_witness :
    (([0, 1, 3, 4, 2] : List Nat).length ≤ 4 →
        get_permutations 4 3 (sortedLost [0, 1, 3, 4, 2]) =
          get_permutations 4 3 [0, 1, 3, 4, 2]) ∧
      (4 < ([0, 1, 3, 4, 2] : List Nat).length → [0, 1, 3, 4, 2] = [0, 1, 3, 4, 2] ∧
        (get_permutations 4 3 [0, 1, 3, 4, 2]).perms ≠ [] ∧
        (get_permutations 4 3 (sortedLost [0, 1, 3, 4, 2])).perms = []) :=
  get_permutations_lost_order 4 3 [0, 1, 3, 4, 2] (by decide)

/-! ### The b-jet and the recoil response -/

/-- C18: for the category bReco, with `par` the parameters of the angular bin
of the true eta, the true energy E = x[0] and the observed energy y[0],
`transfer_function` returns
1/sqrt(2 PI) * [f/s1 * exp(-0.5 Chi2(y,m1,s1)) + (1-f)/s2 * exp(-0.5 Chi2(y,m2,s2))]
with m1 = par[0] + par[1] E, m2 = par[5] + par[6] E,
s1 = E sqrt(par[2]^2 + par[3]^2/E + par[4]^2/E^2),
s2 = E sqrt(par[7]^2 + par[8]^2/E + par[9]^2/E^2) and f = par[10]. -/
theorem transfer_function_bReco (TM : TMath α) (P : TFParams α) (y x : Nat → α)
    (out_of_range : Int) (cutoff : α) :
    let E := x 0
    let par := P.TF_B_param (eta_to_bin P.mark_acceptance_default (x 1) P.mark_acceptance_default)
    let f := par 10
    let m1 := par 0 + par 1 * E
    let m2 := par 5 + par 6 * E
    let s1 := E * TM.Sqrt (par 2 ^ 2 + par 3 ^ 2 / E + par 4 ^ 2 / E ^ 2)
    let s2 := E * TM.Sqrt (par 7 ^ 2 + par 8 ^ 2 / E + par 9 ^ 2 / E ^ 2)
    (transfer_function TM P y x TFType.bReco out_of_range cutoff).1 =
      1 / TM.Sqrt (2 * P.PI) *
        (f / s1 * TM.Exp (-0.5 * Chi2 (y 0) m1 s1) +
          (1 - f) / s2 * TM.Exp (-0.5 * Chi2 (y 0) m2 s2)) := by
  intro E par f m1 m2 s1 s2
  have h1 : par 2 * par 2 + par 3 * par 3 / E + par 4 * par 4 / E / E =
      par 2 ^ 2 + par 3 ^ 2 / E + par 4 ^ 2 / E ^ 2 := by
    rw [div_div]; ring
  have h2 : par 7 * par 7 + par 8 * par 8 / E + par 9 * par 9 / E / E =
      par 7 ^ 2 + par 8 ^ 2 / E + par 9 ^ 2 / E ^ 2 := by
    rw [div_div]; ring
  simp only [transfer_function, one_mul]
  rw [h1, h2]

/-- C19: for the category bReco, `transfer_function` increases the out-of-range
counter by exactly 1 when both component chi-squares exceed the cutoff and
leaves it unchanged otherwise, and the returned weight is the same for every
cutoff. (The counter is an unbounded integer; an overflow of the `int` is not
modelled.) -/
theorem transfer_function_bReco_counter (TM : TMath α) (P : TFParams α) (y x : Nat → α)
    (out_of_range : Int) (cutoff cutoff2 : α) :
    let E := x 0
    let par := P.TF_B_param (eta_to_bin P.mark_acceptance_default (x 1) P.mark_acceptance_default)
    let c1 := Chi2 (y 0) (par 0 + par 1 * E)
      (E * TM.Sqrt (par 2 * par 2 + par 3 * par 3 / E + par 4 * par 4 / E / E))
    let c2 := Chi2 (y 0) (par 5 + par 6 * E)
      (E * TM.Sqrt (par 7 * par 7 + par 8 * par 8 / E + par 9 * par 9 / E / E))
    (c1 > cutoff ∧ c2 > cutoff →
        (transfer_function TM P y x TFType.bReco out_of_range cutoff).2 = out_of_range + 1) ∧
      (¬ (c1 > cutoff ∧ c2 > cutoff) →
        (transfer_function TM P y x TFType.bReco out_of_range cutoff).2 = out_of_range) ∧
      (transfer_function TM P y x TFType.bReco out_of_range cutoff).1 =
        (transfer_function TM P y x TFType.bReco out_of_range cutoff2).1 := by
  intro E par c1 c2
  refine ⟨fun h => ?_, fun h => ?_, rfl⟩
  · simp only [transfer_function]
    exact if_pos h
  · simp only [transfer_function]
    exact if_neg h

/-- Witness for `transfer_function_bReco_counter`: the b-jet response of the
example parameters (means E and 0, widths E) at the true energy 100 and the
observed energy 1000; the chi-squares 81 and 100 exceed the cutoff 6.6. -/
theorem transfer_function_bReco_counter_witness :
    (transfer_function TMathReal (exampleParams Real.pi 25) (arr2 1000 0) (arr2 100 0)
      TFType.bReco 0 6.6).2 = 0 + 1 :=
  (transfer_function_bReco_counter TMathReal (exampleParams Real.pi 25) (arr2 1000 0)
    (arr2 100 0) 0 6.6 6.6).1
    (by norm_num [Chi2, exampleParams, arr2, TMathReal])

/-- Below the threshold the recoil weight is the Gaussian density of `ln x`,
which is `x` times the log-normal density of `x`, for a width other than 0 and
an argument of `TMath::Gaus` within [-39, 39]. -/
theorem transfer_function_recoil_below (P : TFParams ℝ) (y x : Nat → ℝ) (out_of_range : Int)
    (cutoff : ℝ) (hy : y 0 < P.TF_RECOIL_param 2) (hx : 0 < x 0)
    (hs : P.TF_RECOIL_param 1 ≠ 0)
    (harg : ¬ ((Real.log (x 0) - P.TF_RECOIL_param 0) / P.TF_RECOIL_param 1 < -39 ∨
      (Real.log (x 0) - P.TF_RECOIL_param 0) / P.TF_RECOIL_param 1 > 39)) :
    (transfer_function TMathReal P y x TFType.Recoil out_of_range cutoff).1 =
      x 0 * lognormal_density TMathReal (x 0) (P.TF_RECOIL_param 0) (P.TF_RECOIL_param 1) := by
  have hx0 : x 0 ≠ 0 := ne_of_gt hx
  have he : -0.5 * ((Real.log (x 0) - P.TF_RECOIL_param 0) / P.TF_RECOIL_param 1) *
      ((Real.log (x 0) - P.TF_RECOIL_param 0) / P.TF_RECOIL_param 1) =
      -(Real.log (x 0) - P.TF_RECOIL_param 0) ^ 2 / (2 * P.TF_RECOIL_param 1 ^ 2) := by
    field_simp; ring
  simp only [transfer_function, hy, if_true, one_mul, TMathReal, lognormal_density, if_neg hs,
    if_neg harg]
  rw [he]
  have hq : Real.sqrt (2 * Real.pi) ≠ 0 := (Real.sqrt_pos.mpr (by positivity)).ne'
  field_simp
  ring

/-- C20 (the code at the failing input): for the recoil parameters
(m, s, threshold) = (0, 1, 10), the observed recoil variable 0 and the true
pT x = 2, `transfer_function` returns exp(-(ln 2)^2/2)/sqrt(2 pi), the Gaussian
density of ln x: twice the log-normal density of x, the factor 1/x being
absent. At the observed value 10, not below the threshold, it returns 1. -/
theorem transfer_function_recoil_misses_factor :
    (transfer_function TMathReal (withRecoil (exampleParams Real.pi 25) 0 1 10) (arr2 10 0)
        (arr2 2 0) TFType.Recoil 0 99).1 = 1 ∧
      (transfer_function TMathReal (withRecoil (exampleParams Real.pi 25) 0 1 10) (arr2 0 0)
        (arr2 2 0) TFType.Recoil 0 99).1 =
        Real.exp (-(Real.log 2) ^ 2 / 2) / Real.sqrt (2 * Real.pi) ∧
      (transfer_function TMathReal (withRecoil (exampleParams Real.pi 25) 0 1 10) (arr2 0 0)
        (arr2 2 0) TFType.Recoil 0 99).1 = 2 * lognormal_density TMathReal 2 0 1 ∧
      (transfer_function TMathReal (withRecoil (exampleParams Real.pi 25) 0 1 10) (arr2 0 0)
        (arr2 2 0) TFType.Recoil 0 99).1 ≠ lognormal_density TMathReal 2 0 1 := by
  have hlog0 : 0 ≤ Real.log 2 := Real.log_nonneg (by norm_num)
  have hlog1 : Real.log 2 < 1 := lt_trans Real.log_two_lt_d9 (by norm_num)
  have hw := transfer_function_recoil_below (withRecoil (exampleParams Real.pi 25) 0 1 10)
    (arr2 0 0) (arr2 2 0) 0 99 (by norm_num [withRecoil, arr2]) (by norm_num [arr2])
    (by norm_num [withRecoil])
    (by
      have h0 : (withRecoil (exampleParams Real.pi (25 : ℝ)) 0 1 10).TF_RECOIL_param 0 = 0 := by
        simp [withRecoil]
      have h1 : (withRecoil (exampleParams Real.pi (25 : ℝ)) 0 1 10).TF_RECOIL_param 1 = 1 := by
        simp [withRecoil]
      have hx2 : arr2 (2 : ℝ) 0 0 = 2 := rfl
      rw [h0, h1, hx2, sub_zero, div_one]
      rintro (h | h) <;> linarith)
  have hval : (withRecoil (exampleParams Real.pi (25 : ℝ)) 0 1 10).TF_RECOIL_param 0 = 0 ∧
      (withRecoil (exampleParams Real.pi (25 : ℝ)) 0 1 10).TF_RECOIL_param 1 = 1 := by
    simp [withRecoil]
  have hx : arr2 (2 : ℝ) 0 0 = 2 := rfl
  rw [hval.1, hval.2, hx] at hw
  have hq : 0 < Real.sqrt (2 * Real.pi) := Real.sqrt_pos.mpr (by positivity)
  have hL : 0 < lognormal_density TMathReal 2 0 1 := by
    simp only [lognormal_density, TMathReal]
    positivity
  refine ⟨?_, ?_, hw, ?_⟩
  · norm_num [transfer_function, withRecoil, arr2]
  · rw [hw]
    simp only [lognormal_density, TMathReal]
    field_simp
    ring
  · rw [hw]
    linarith

/-! ### The lost-parton response and `fast_exp` -/

/-- The error function is positive at positive arguments. -/
theorem erf_pos (x : ℝ) (hx : 0 < x) : 0 < erf x := by
  unfold erf
  have hc : 0 < 2 / Real.sqrt Real.pi := by
    have := Real.sqrt_pos.mpr Real.pi_pos
    positivity
  exact mul_pos hc (intervalIntegral.intervalIntegral_pos_of_pos_on
    (gauss_intervalIntegrable 0 x) (fun t _ => Real.exp_pos _) hx)

/-- C21 (counterexample): for a lost light quark of true energy 100 at eta = 0,
with mean response 100, width 100 and threshold 30, the response passes the
threshold (mean_e >= Ethr) and the code takes the sign -1: the weight is
0.5*(erf(-sqrt(c/2)) + 1) < 0.5, not the value 0.5*(erf(+sqrt(c/2)) + 1) of the
claim. -/
theorem transfer_function_lost_sign_reversed :
    (30 : ℝ) * Real.cosh 0 ≤ 0 + 1 * 100 ∧
      (transfer_function TMathReal (exampleParams Real.pi 25) (arr2 0 0) (arr2 100 0)
        TFType.qLost 0 99).1 =
        0.5 * (erf (Real.sqrt (Chi2 (30 * Real.cosh 0) (0 + 1 * 100) 100 / 2) * (-1)) + 1) ∧
      (transfer_function TMathReal (exampleParams Real.pi 25) (arr2 0 0) (arr2 100 0)
        TFType.qLost 0 99).1 ≠
        0.5 * (erf (Real.sqrt (Chi2 (30 * Real.cosh 0) (0 + 1 * 100) 100 / 2) * 1) + 1) := by
  have hc : Chi2 ((30 : ℝ) * Real.cosh 0) (0 + 1 * 100) 100 = 0.49 := by
    norm_num [Chi2, Real.cosh_zero]
  have hw : (transfer_function TMathReal (exampleParams Real.pi 25) (arr2 0 0) (arr2 100 0)
      TFType.qLost 0 99).1 =
      0.5 * (erf (Real.sqrt (Chi2 (30 * Real.cosh 0) (0 + 1 * 100) 100 / 2) * (-1)) + 1) := by
    have h1 : ¬ (|(0 : ℝ)| > 2.5) := by norm_num
    norm_num [transfer_function, exampleParams, arr2, TMathReal, Real.cosh_zero, Chi2]
  refine ⟨by norm_num [Real.cosh_zero], hw, ?_⟩
  rw [hw, hc]
  have hs : 0 < Real.sqrt ((0.49 : ℝ) / 2) := Real.sqrt_pos.mpr (by norm_num)
  have hp := erf_pos _ hs
  have hn : erf (Real.sqrt ((0.49 : ℝ) / 2) * (-1)) = -erf (Real.sqrt ((0.49 : ℝ) / 2)) := by
    rw [mul_neg_one, erf_neg]
  rw [hn, mul_one]
  intro h
  linarith

/-- C21 (amended): for the categories bLost and qLost with |true eta| within
the acceptance edge, `transfer_function` returns
0.5*(erf(sqrt(c/2)*sign) + 1), where c = Chi2(Ethr, mean_e, sigma_e),
Ethr = pTcut*cosh(eta), mean_e and sigma_e come from the light-jet model at the
true energy, and sign is +1 when the threshold is at or above the mean response
(Ethr >= mean_e, the response does not pass the threshold) and -1 otherwise. -/
theorem transfer_function_lost_inside (TM : TMath α) (P : TFParams α) (y x : Nat → α)
    (type : TFType) (out_of_range : Int) (cutoff : α)
    (htype : type = TFType.bLost ∨ type = TFType.qLost)
    (hin : ¬ (|x 1| > P.TF_ACC_param 0)) :
    let E := x 0
    let H := x 1
    let par := P.TF_Q_param (eta_to_bin P.mark_acceptance_default H P.mark_acceptance_default)
    let mean_e := par 0 + par 1 * E
    let sigma_e := E * TM.Sqrt (par 2 * par 2 + par 3 * par 3 / E + par 4 * par 4 / E / E)
    let Ethr := P.TF_ACC_param 1 * TM.CosH H
    let sign : α := if Ethr ≥ mean_e then 1 else -1
    (transfer_function TM P y x type out_of_range cutoff).1 =
      0.5 * (TM.Erf (TM.Sqrt (Chi2 Ethr mean_e sigma_e / 2) * sign) + 1) := by
  intro E H par mean_e sigma_e Ethr sign
  rcases htype with rfl | rfl <;> simp only [transfer_function, hin, if_false, one_mul]

/-- Witness for `transfer_function_lost_inside`: a lost light quark of true
energy 100 at eta = 0 with the example parameters (mean 100, width
100 * sqrt 1, threshold 30 * cosh 0, sign -1). -/
theorem transfer_function_lost_inside_witness :
    (transfer_function TMathReal (exampleParams Real.pi 25) (arr2 0 0) (arr2 100 0)
      TFType.qLost 0 99).1 =
      0.5 * (erf (Real.sqrt (Chi2 (30 * Real.cosh 0) 100 (100 * Real.sqrt 1) / 2) * (-1)) +
        1) := by
  have h := transfer_function_lost_inside TMathReal (exampleParams Real.pi 25) (arr2 0 0)
    (arr2 100 0) TFType.qLost 0 99 (Or.inr rfl) (by norm_num [arr2, exampleParams])
  have hs : ¬ ((100 : ℝ) ≤ 30) := by norm_num
  simpa [exampleParams, arr2, TMathReal, hs] using h

/-- C22: for both lost-parton categories and all inputs with |true eta| greater
than the acceptance edge `TF_ACC_param[0]`, `transfer_function` returns exactly
1 and leaves the out-of-range counter unchanged. -/
theorem transfer_function_lost_outside (TM : TMath α) (P : TFParams α) (y x : Nat → α)
    (type : TFType) (out_of_range : Int) (cutoff : α)
    (htype : type = TFType.bLost ∨ type = TFType.qLost) (hout : |x 1| > P.TF_ACC_param 0) :
    transfer_function TM P y x type out_of_range cutoff = (1, out_of_range) := by
  rcases htype with rfl | rfl <;> simp only [transfer_function, hout, if_true, one_mul]

/-- Witness for `transfer_function_lost_outside`: a lost b quark at eta = 3,
beyond the acceptance edge 2.5. -/
theorem transfer_function_lost_outside_witness :
    transfer_function TMathReal (exampleParams Real.pi 25) (arr2 0 0) (arr2 100 3) TFType.bLost
      7 99 = (1, 7) :=
  transfer_function_lost_outside TMathReal (exampleParams Real.pi 25) (arr2 0 0) (arr2 100 3)
    TFType.bLost 7 99 (Or.inl rfl) (by norm_num [arr2, exampleParams, abs_of_pos])

/-- C24: `fast_exp(p)` is exactly 2e-22 for every p < -50 and exp(p) for every
p >= -50; hence it is positive for every p. -/
theorem fast_exp_spec (p : ℝ) :
    (p < -50 → fast_exp TMathReal p = 2e-22) ∧
      (-50 ≤ p → fast_exp TMathReal p = Real.exp p) ∧ 0 < fast_exp TMathReal p := by
  have h50 : (-50.0 : ℝ) = -50 := by norm_num
  refine ⟨fun h => ?_, fun h => ?_, ?_⟩
  · simp only [fast_exp, h50, h, if_true]
  · simp only [fast_exp, h50, not_lt.mpr h, if_false, TMathReal]
  · unfold fast_exp
    split_ifs
    · norm_num
    · exact Real.exp_pos p

/-- Witness for `fast_exp_spec`: the arguments -51 and 0. -/
theorem fast_exp_spec_witness :
    ((-51 : ℝ) < -50 → fast_exp TMathReal (-51) = 2e-22) ∧
      ((-50 : ℝ) ≤ 0 → fast_exp TMathReal 0 = Real.exp 0) :=
  ⟨(fast_exp_spec (-51)).1, (fast_exp_spec 0).2.1⟩

/-- C23 (the code at the failing input): with the parameters p3 = p4 = p8 = 1
and the others 0 (means x_gen, widths s1 = s1 + s2 = 1), the cut 30 and the
true value 100, `transfer_function_lost` evaluates the normal CDF at
30 - 0 + 1*100 = 130 and returns a weight above 0.5, whereas the documented
CDF at (30 - (0 + 1*100))/1 = -70 is below 0.5: the code computes
`x - p2 + p3*p0` in place of `x - (p2 + p3*p0)`. -/
theorem transfer_function_lost_wrong_mean :
    transfer_function_lost TMathReal 30 exampleCdfPars (arr2 100 0) =
        TMathReal.normal_cdf 130 1 ∧
      double_gaussian_cdf_claimed TMathReal 30 100 exampleCdfPars =
        TMathReal.normal_cdf (-70) 1 ∧
      double_gaussian_cdf_claimed TMathReal 30 100 exampleCdfPars < 0.5 ∧
      0.5 < transfer_function_lost TMathReal 30 exampleCdfPars (arr2 100 0) := by
  have h2 : (0 : ℝ) < Real.sqrt 2 := Real.sqrt_pos.mpr (by norm_num)
  have hcode : transfer_function_lost TMathReal 30 exampleCdfPars (arr2 100 0) =
      TMathReal.normal_cdf 130 1 := by
    simp only [transfer_function_lost, double_gaussian_cdf, exampleCdfPars, arr2, TMathReal]
    norm_num
    ring
  have hclaim : double_gaussian_cdf_claimed TMathReal 30 100 exampleCdfPars =
      TMathReal.normal_cdf (-70) 1 := by
    simp only [double_gaussian_cdf_claimed, exampleCdfPars, TMathReal]
    norm_num
    ring
  refine ⟨hcode, hclaim, ?_, ?_⟩
  · rw [hclaim]
    simp only [TMathReal, one_mul]
    have hneg : (-70 : ℝ) / Real.sqrt 2 = -(70 / Real.sqrt 2) := by ring
    rw [hneg, erf_neg]
    have := erf_pos (70 / Real.sqrt 2) (by positivity)
    linarith
  · rw [hcode]
    simp only [TMathReal, one_mul]
    have := erf_pos (130 / Real.sqrt 2) (by positivity)
    linarith

/-! ### Support solver: the bounds of the energy interval -/

/-- With a negative reconstructed energy every pass of the upper inner loop is
skipped and the accumulated sum is returned unchanged. -/
theorem support_high_inner_skip (dens : (Nat → α) → (Nat → α) → Except String α)
    (thr e_rec eta_rec e_H : α) (hrec : e_rec < 0) :
    ∀ (n i : Nat) (tot : α),
      support_high_inner dens thr e_rec eta_rec e_H n i tot = Except.ok tot := by
  intro n
  induction n with
  | zero => intro i tot; rfl
  | succ n ih =>
    intro i tot
    have h25 : (0 : α) ≤ (i : α) * 2.5 := by positivity
    have hneg : e_rec - (i : α) * 2.5 < 0 := by linarith
    simp only [support_high_inner, hneg, if_true]
    exact ih _ _

/-- The value of `get_support` for a negative reconstructed energy and no
attached object: the lower scan is not entered, the upper scan makes one step
whose passes are all skipped. -/
theorem get_support_negative_energy [FloorRing α] (TM : TMath α) (P : TFParams α) (fuel : Nat)
    (e_rec eta_rec alpha : α) (type : TFType) (htype : type ≠ TFType.MET)
    (halpha : alpha ≤ 1) (ha : -1 < alpha) (hrec : e_rec < 0) :
    get_support TM P (fuel + 2) (arr2 e_rec eta_rec) type alpha none =
      some (Except.ok (max 0 (if type = TFType.bReco then P.MB else P.MQ), e_rec + 2.5)) := by
  have hthr : (0 : α) ≤ (1 - alpha) / 2 := by linarith
  have h1 : (1 : α) > (1 - alpha) / 2 := by linarith
  have hpos : ¬ (e_rec > 0) := by
    intro h; linarith
  have hhigh := support_high_inner_skip (support_density TM P none type) ((1 - alpha) / 2)
    e_rec eta_rec e_rec hrec 500 0 0
  have h0 : ¬ ((0 : α) > (1 - alpha) / 2) := not_lt.mpr hthr
  have h10 : ((1 : Nat) = 0) = False := by simp
  simp only [get_support, htype, if_false, get_support_energy, arr2, if_true, h10]
  rw [support_low, support_high]
  simp only [h1, hpos, and_false, if_false, if_true, hhigh, hrec]
  rw [support_high]
  simp only [h0, if_false]

/-- C25 (counterexample): for a lost b quark, the reconstructed energy -1 and
the confidence level 0.95, with MB = 4.8 > MQ = 0, `get_support` returns the
interval (0, 1.5): the lower bound 0 is the light-quark floor MQ and lies below
MB. -/
theorem get_support_bLost_floor :
    (exampleParams Real.pi (25 : ℝ)).MQ < (exampleParams Real.pi (25 : ℝ)).MB ∧
      get_support TMathReal (exampleParams Real.pi 25) 2 (arr2 (-1) 0) TFType.bLost 0.95 none =
        some (Except.ok (0, 1.5)) ∧
      (0 : ℝ) < (exampleParams Real.pi (25 : ℝ)).MB := by
  have h := get_support_negative_energy TMathReal (exampleParams Real.pi 25) 0 (-1) 0 0.95
    TFType.bLost (by simp) (by norm_num) (by norm_num) (by norm_num)
  refine ⟨by norm_num [exampleParams], ?_, by norm_num [exampleParams]⟩
  have hne : (TFType.bLost = TFType.bReco) = False := by simp
  rw [h]
  simp only [hne, if_false]
  norm_num [exampleParams]

/-- C25 (amended): for every category other than MET, reconstructed energy and
confidence level for which `get_support` returns an interval, the lower bound
is >= 0 and >= the floor that the code selects: MB for bReco and MQ for every
other category, so that a lost b quark gets the light-quark floor. (MB and MQ
are the constants of Parameters.h; the bound holds for any values.) -/
theorem get_support_lower_bound [FloorRing α] (TM : TMath α) (P : TFParams α) (fuel : Nat)
    (y : Nat → α) (type : TFType) (alpha : α) (obj : Option (Object α)) (low high : α)
    (htype : type ≠ TFType.MET)
    (h : get_support TM P fuel y type alpha obj = some (Except.ok (low, high))) :
    0 ≤ low ∧ (if type = TFType.bReco then P.MB else P.MQ) ≤ low := by
  simp only [get_support, htype, if_false, get_support_energy] at h
  cases hl : support_low (support_density TM P obj type) ((1 - alpha) / 2) (y 0) (y 1) fuel
      (y 0) 1 with
  | none => simp [hl] at h
  | some r =>
    cases r with
    | error e => simp [hl] at h
    | ok l =>
      cases hh : support_high (support_density TM P obj type) ((1 - alpha) / 2) (y 0) (y 1)
          fuel (y 0) 1 with
      | none => simp [hl, hh] at h
      | some s =>
        cases s with
        | error e => simp [hl, hh] at h
        | ok u =>
          simp only [hl, hh, Option.some.injEq, Except.ok.injEq, Prod.mk.injEq] at h
          obtain ⟨h1, _⟩ := h
          subst h1
          refine ⟨le_trans ?_ (le_max_left _ _), le_max_right _ _⟩
          split_ifs with hneg
          · exact le_refl _
          · exact not_lt.mp hneg

/-- Witness for `get_support_lower_bound`: a light-jet object with all-zero
parameters at 100 GeV, whose interval is (97.5, 102.5). -/
theorem get_support_lower_bound_witness :
    (0 : ℝ) ≤ (100 - 2.5 : ℝ) ⊔ (exampleParams Real.pi 25).MQ ∧
      (if TFType.qReco = TFType.bReco then (exampleParams Real.pi (25 : ℝ)).MB
        else (exampleParams Real.pi (25 : ℝ)).MQ) ≤ (100 - 2.5 : ℝ) ⊔ (exampleParams Real.pi 25).MQ :=
  get_support_lower_bound TMathReal (exampleParams Real.pi 25) 2 (arr2 100 0) TFType.qReco 0.95
    (some (zeroObject 100)) _ _ (by simp)
    (get_support_zeroObject TMathReal _ 0 100 0 100 0.95 (by norm_num) (by norm_num)
      (by norm_num))

/-- C26: for every category other than MET, reconstructed energy e_rec and
confidence level alpha > -1 (in particular alpha in (0,1)) for which
`get_support` returns an interval, the upper bound is at least e_rec + 2.5,
hence strictly greater than the reconstructed energy. -/
theorem get_support_upper_bound [FloorRing α] (TM : TMath α) (P : TFParams α) (fuel : Nat)
    (y : Nat → α) (type : TFType) (alpha : α) (obj : Option (Object α)) (low high : α)
    (htype : type ≠ TFType.MET) (halpha : -1 < alpha)
    (h : get_support TM P fuel y type alpha obj = some (Except.ok (low, high))) :
    y 0 + 2.5 ≤ high ∧ y 0 < high := by
  have h25 : (0 : α) < 2.5 := by norm_num
  have h1 : (1 : α) > (1 - alpha) / 2 := by linarith
  simp only [get_support, htype, if_false, get_support_energy] at h
  cases hl : support_low (support_density TM P obj type) ((1 - alpha) / 2) (y 0) (y 1) fuel
      (y 0) 1 with
  | none => simp [hl] at h
  | some r =>
    cases r with
    | error e => simp [hl] at h
    | ok l =>
      cases hh : support_high (support_density TM P obj type) ((1 - alpha) / 2) (y 0) (y 1)
          fuel (y 0) 1 with
      | none => simp [hl, hh] at h
      | some s =>
        cases s with
        | error e => simp [hl, hh] at h
        | ok u =>
          simp only [hl, hh, Option.some.injEq, Except.ok.injEq, Prod.mk.injEq] at h
          obtain ⟨_, h2⟩ := h
          subst h2
          have hge : y 0 + 2.5 ≤ u := by
            cases fuel with
            | zero => simp [support_high] at hh
            | succ f =>
              simp only [support_high, h1, if_true] at hh
              cases hi : support_high_inner (support_density TM P obj type) ((1 - alpha) / 2)
                  (y 0) (y 1) (y 0) 500 0 0 with
              | error e => simp [hi] at hh
              | ok t =>
                simp only [hi] at hh
                exact support_high_ge _ _ _ _ f _ t u hh
          exact ⟨hge, by linarith⟩

/-- Witness for `get_support_upper_bound`: a light-jet object with all-zero
parameters at 100 GeV and the confidence level 0.95. -/
theorem get_support_upper_bound_witness :
    arr2 (100 : ℝ) 0 0 + 2.5 ≤ 100 + 2.5 ∧ arr2 (100 : ℝ) 0 0 < 100 + 2.5 :=
  get_support_upper_bound TMathReal (exampleParams Real.pi 25) 2 (arr2 100 0) TFType.qReco 0.95
    (some (zeroObject 100)) _ _ (by simp) (by norm_num)
    (get_support_zeroObject TMathReal _ 0 100 0 100 0.95 (by norm_num) (by norm_num)
      (by norm_num))

/-! ### Support solver: the edges of the missing-energy window -/

/-- C27: for the missing-energy category, if the chi-square distance
Chi2Corr(Px, Py, sigma_x, sigma_y, rho) of the origin from the observed MET,
with the widths sigma = sqrt(V) that the code computes, is at most the
chi-square quantile with 2 degrees of freedom at the confidence |alpha|,
`get_support` returns exactly (-pi, +pi). -/
theorem get_support_MET_full_window [FloorRing α] (TM : TMath α) (P : TFParams α)
    (fuel : Nat) (y : Nat → α) (alpha : α) (obj : Option (Object α))
    (hin : Chi2Corr (y 0) (y 1) (TM.Sqrt (P.TF_MET_param 0 * P.TF_MET_param 0))
        (TM.Sqrt (P.TF_MET_param 1 * P.TF_MET_param 1)) (P.TF_MET_param 2) ≤
      TM.ChisquareQuantile |alpha| 2) :
    get_support TM P fuel y TFType.MET alpha obj = some (Except.ok (-TM.Pi, TM.Pi)) := by
  simp only [get_support, if_true, get_support_MET, hin]

/-- The quantile `-2 ln 0.05` of the confidence level 0.95 lies between 4 and
16. -/
theorem met_quantile_bounds :
    (4 : ℝ) ≤ TMathReal.ChisquareQuantile |(0.95 : ℝ)| 2 ∧
      TMathReal.ChisquareQuantile |(0.95 : ℝ)| 2 < 16 := by
  have hq : TMathReal.ChisquareQuantile |(0.95 : ℝ)| 2 = -2 * Real.log (0.05 : ℝ) := by
    have habs : (1 : ℝ) - |(0.95 : ℝ)| = 0.05 := by
      rw [abs_of_pos (by norm_num)]; norm_num
    simp only [TMathReal, if_true, habs]
  have hup : Real.log (0.05 : ℝ) ≤ -2 := by
    rw [Real.log_le_iff_le_exp (by norm_num), Real.exp_neg]
    have h1 : Real.exp 1 < 3 := lt_trans Real.exp_one_lt_d9 (by norm_num)
    have h2 : Real.exp 2 = Real.exp 1 * Real.exp 1 := by
      rw [← Real.exp_add]; norm_num
    have hpos : 0 < Real.exp 2 := Real.exp_pos 2
    have h9 : Real.exp 2 < 20 := by
      rw [h2]
      have := Real.exp_pos 1
      nlinarith
    rw [le_inv_comm₀ (by norm_num) hpos]
    norm_num
    linarith
  have hlow := met_example_outside
  have hchi : Chi2Corr (100 : ℝ) 0 (Real.sqrt (25 * 25)) (Real.sqrt (25 * 25)) 0 = 16 := by
    rw [Real.sqrt_mul_self (by norm_num)]; norm_num [Chi2Corr, Chi2]
  rw [hchi] at hlow
  have habs : (1 : ℝ) - |(0.95 : ℝ)| = 0.05 := by
    rw [abs_of_pos (by norm_num)]; norm_num
  rw [habs] at hlow
  rw [hq]
  constructor <;> linarith

/-- Witness for `get_support_MET_full_window`: the missing energy (50, 0) GeV
with widths (25, 25, 0) at the confidence level 0.95; the chi-square distance
of the origin is 4. -/
theorem get_support_MET_full_window_witness :
    get_support TMathReal (exampleParams Real.pi 25) 0 (arr2 50 0) TFType.MET 0.95 none =
      some (Except.ok (-TMathReal.Pi, TMathReal.Pi)) :=
  get_support_MET_full_window TMathReal (exampleParams Real.pi 25) 0 (arr2 50 0) 0.95 none
    (by
      have hsq : TMathReal.Sqrt ((25 : ℝ) * 25) = 25 := Real.sqrt_mul_self (by norm_num)
      have hchi : Chi2Corr (50 : ℝ) 0 25 25 0 = 4 := by norm_num [Chi2Corr, Chi2]
      have key : Chi2Corr (50 : ℝ) 0 (TMathReal.Sqrt (25 * 25)) (TMathReal.Sqrt (25 * 25)) 0 ≤
          TMathReal.ChisquareQuantile |(0.95 : ℝ)| 2 := by
        rw [hsq, hchi]
        exact met_quantile_bounds.1
      simpa [exampleParams, arr2] using key)

/-- The radial loop reports no crossing exactly when no scanned radius is inside
the contour. -/
theorem met_crossing_eq_false (Px Py sx sy rho chi2Cut cos sin : α) :
    ∀ (n s0 : Nat),
      met_crossing Px Py sx sy rho chi2Cut cos sin n s0 = false ↔
        ∀ stepP : Nat, s0 ≤ stepP → stepP < s0 + n →
          ¬ Chi2Corr (stepP * 2 * cos - Px) (stepP * 2 * sin - Py) sx sy rho < chi2Cut := by
  intro n
  induction n with
  | zero =>
    intro s0
    simp only [met_crossing, true_iff]
    intro stepP h1 h2
    omega
  | succ n ih =>
    intro s0
    simp only [met_crossing]
    split_ifs with hc
    · simp only [Bool.true_eq_false, false_iff, not_forall]
      exact ⟨s0, le_refl _, by omega, fun h => h hc⟩
    · rw [ih (s0 + 1)]
      constructor
      · intro h stepP h1 h2
        rcases Nat.eq_or_lt_of_le h1 with rfl | h3
        · exact hc
        · exact h stepP h3 (by omega)
      · intro h stepP h1 h2
        exact h stepP (by omega) (by omega)

/-- The radial loop of `get_support`, 200 radii from 0, reports no crossing at
the angle `phi` exactly when `met_no_crossing` holds there. -/
theorem met_crossing_no_crossing (TM : TMath α) (Px Py sx sy rho chi2Cut phi : α) :
    met_crossing Px Py sx sy rho chi2Cut (TM.Cos phi) (TM.Sin phi) 200 0 = false ↔
      met_no_crossing TM Px Py sx sy rho chi2Cut phi := by
  rw [met_crossing_eq_false]
  unfold met_no_crossing
  constructor
  · intro h stepP hs
    exact h stepP (Nat.zero_le _) (by omega)
  · intro h stepP _ hs
    exact h stepP (by omega)

/-- The azimuthal scan returns the first scanned angle without a crossing. -/
theorem met_phi_scan_first (TM : TMath α) (Px Py sx sy rho chi2Cut Phi phiStep : α)
    (dir k : Nat)
    (hk : met_no_crossing TM Px Py sx sy rho chi2Cut (Phi + (2 * (dir : α) - 1) * phiStep * k)) :
    ∀ (n step : Nat), step ≤ k → k < step + n →
      (∀ j : Nat, step ≤ j → j < k →
        ¬ met_no_crossing TM Px Py sx sy rho chi2Cut (Phi + (2 * (dir : α) - 1) * phiStep * j)) →
      met_phi_scan TM Px Py sx sy rho chi2Cut Phi phiStep dir n step =
        some (Phi + (2 * (dir : α) - 1) * phiStep * k) := by
  intro n
  induction n with
  | zero => intro step h1 h2; omega
  | succ n ih =>
    intro step h1 h2 hj
    simp only [met_phi_scan]
    rcases Nat.eq_or_lt_of_le h1 with rfl | h3
    · have := (met_crossing_no_crossing TM Px Py sx sy rho chi2Cut _).mpr hk
      simp only [this, Bool.false_eq_true, if_false]
    · have hc : met_crossing Px Py sx sy rho chi2Cut
          (TM.Cos (Phi + (2 * (dir : α) - 1) * phiStep * step))
          (TM.Sin (Phi + (2 * (dir : α) - 1) * phiStep * step)) 200 0 = true := by
        have := hj step (le_refl _) h3
        rw [← met_crossing_no_crossing] at this
        simpa using this
      simp only [hc, if_true]
      exact ih (step + 1) h3 (by omega) (fun j hj1 hj2 => hj j (by omega) hj2)

/-- The azimuthal scan makes the steps 0..78: `(size_t)(pi / 0.04) = 78`. -/
theorem floor_pi_div_phiStep : ⌊Real.pi / (0.04 : ℝ)⌋₊ = 78 := by
  rw [Nat.floor_eq_iff (by positivity)]
  have h1 := Real.pi_gt_d2
  have h2 := Real.pi_lt_d2
  constructor
  · rw [le_div_iff₀ (by norm_num)]
    norm_num
    linarith
  · rw [div_lt_iff₀ (by norm_num)]
    norm_num
    linarith

/-- The high edge of the missing-energy branch in the search branch for a
positive confidence level, when the scan of the direction `+` stops at `phi`. -/
theorem get_support_MET_high_value (P : TFParams ℝ) (y : Nat → ℝ) (alpha phi : ℝ)
    (hout : Chi2Corr (y 0) (y 1) (Real.sqrt (P.TF_MET_param 0 * P.TF_MET_param 0))
        (Real.sqrt (P.TF_MET_param 1 * P.TF_MET_param 1)) (P.TF_MET_param 2) >
      TMathReal.ChisquareQuantile |alpha| 2)
    (halpha : 0 < alpha)
    (hscan : met_phi_scan TMathReal (y 0) (y 1)
        (Real.sqrt (P.TF_MET_param 0 * P.TF_MET_param 0))
        (Real.sqrt (P.TF_MET_param 1 * P.TF_MET_param 1)) (P.TF_MET_param 2)
        (TMathReal.ChisquareQuantile |alpha| 2) (met_azimuth TMathReal (y 0) (y 1)) 0.04 1
        79 0 = some phi) :
    get_support_MET TMathReal P y alpha =
      (-Real.pi - met_azimuth TMathReal (y 0) (y 1),
        phi - 0.5 * 0.04 - met_azimuth TMathReal (y 0) (y 1)) := by
  have hns : ¬ (Chi2Corr (y 0) (y 1) (Real.sqrt (P.TF_MET_param 0 * P.TF_MET_param 0))
        (Real.sqrt (P.TF_MET_param 1 * P.TF_MET_param 1)) (P.TF_MET_param 2) ≤
      TMathReal.ChisquareQuantile |alpha| 2) := not_le.mpr hout
  have hS : TMathReal.Sqrt = Real.sqrt := rfl
  have hP : TMathReal.Pi = Real.pi := rfl
  have h10 : ((1 : Nat) = 0) = False := by simp
  have h79 : ⌊Real.pi / (0.04 : ℝ)⌋₊ + 1 = 79 := by rw [floor_pi_div_phiStep]
  simp only [met_azimuth, hS, hP, gt_iff_lt] at hscan
  unfold get_support_MET
  simp only [hS, hP, gt_iff_lt, halpha, if_true, hns, if_false, h10, h79, met_azimuth, hscan]

/-- The low edge of the missing-energy branch in the search branch for a
non-positive confidence level, when the scan of the direction `-` stops at
`phi`. -/
theorem get_support_MET_low_value (P : TFParams ℝ) (y : Nat → ℝ) (alpha phi : ℝ)
    (hout : Chi2Corr (y 0) (y 1) (Real.sqrt (P.TF_MET_param 0 * P.TF_MET_param 0))
        (Real.sqrt (P.TF_MET_param 1 * P.TF_MET_param 1)) (P.TF_MET_param 2) >
      TMathReal.ChisquareQuantile |alpha| 2)
    (halpha : alpha ≤ 0)
    (hscan : met_phi_scan TMathReal (y 0) (y 1)
        (Real.sqrt (P.TF_MET_param 0 * P.TF_MET_param 0))
        (Real.sqrt (P.TF_MET_param 1 * P.TF_MET_param 1)) (P.TF_MET_param 2)
        (TMathReal.ChisquareQuantile |alpha| 2) (met_azimuth TMathReal (y 0) (y 1)) 0.04 0
        79 0 = some phi) :
    get_support_MET TMathReal P y alpha =
      (phi + 0.5 * 0.04 - met_azimuth TMathReal (y 0) (y 1),
        Real.pi - met_azimuth TMathReal (y 0) (y 1)) := by
  have hns : ¬ (Chi2Corr (y 0) (y 1) (Real.sqrt (P.TF_MET_param 0 * P.TF_MET_param 0))
        (Real.sqrt (P.TF_MET_param 1 * P.TF_MET_param 1)) (P.TF_MET_param 2) ≤
      TMathReal.ChisquareQuantile |alpha| 2) := not_le.mpr hout
  have hS : TMathReal.Sqrt = Real.sqrt := rfl
  have hP : TMathReal.Pi = Real.pi := rfl
  have h01 : ((0 : Nat) = 1) = False := by simp
  have hna : ¬ (0 < alpha) := not_lt.mpr halpha
  have h79 : ⌊Real.pi / (0.04 : ℝ)⌋₊ + 1 = 79 := by rw [floor_pi_div_phiStep]
  simp only [met_azimuth, hS, hP, gt_iff_lt] at hscan
  unfold get_support_MET
  simp only [hS, hP, gt_iff_lt, hna, if_true, hns, if_false, h01, h79, met_azimuth, hscan]

/-- C28 (code bug, failing input): for the missing energy (0, 100) GeV with
widths (25, 25, 0) and the confidence level 0.95 the origin is outside the
contour (chi-square 16 above the quantile) and the low edge, whose direction is
not scanned, is returned as `-pi - Phi = -3 pi / 2` with `Phi = pi / 2` the MET
azimuth, which is not `-pi`. -/
theorem get_support_MET_unscanned_edge_shifted :
    Chi2Corr (0 : ℝ) 100 (Real.sqrt (25 * 25)) (Real.sqrt (25 * 25)) 0 >
        TMathReal.ChisquareQuantile |(0.95 : ℝ)| 2 ∧
      met_azimuth TMathReal (0 : ℝ) 100 = Real.pi / 2 ∧
      (∃ hi : ℝ, get_support TMathReal (exampleParams Real.pi 25) 0 (arr2 0 100) TFType.MET
        0.95 none = some (Except.ok (-Real.pi - Real.pi / 2, hi))) ∧
      -Real.pi - Real.pi / 2 ≠ -Real.pi := by
  have hsq : Real.sqrt (25 * 25) = (25 : ℝ) := Real.sqrt_mul_self (by norm_num)
  have hchi : Chi2Corr (0 : ℝ) 100 (Real.sqrt (25 * 25)) (Real.sqrt (25 * 25)) 0 = 16 := by
    rw [hsq]; norm_num [Chi2Corr, Chi2]
  have hout : Chi2Corr (0 : ℝ) 100 (Real.sqrt (25 * 25)) (Real.sqrt (25 * 25)) 0 >
      TMathReal.ChisquareQuantile |(0.95 : ℝ)| 2 := by
    rw [hchi]; exact met_quantile_bounds.2
  have haz : met_azimuth TMathReal (0 : ℝ) 100 = Real.pi / 2 := by
    simp [met_azimuth, TMathReal]
  have hpi := Real.pi_pos
  refine ⟨hout, haz, ?_, by linarith⟩
  obtain ⟨X, hX, _⟩ := get_support_MET_search (exampleParams Real.pi 25) (arr2 0 100) 0.95
    (by norm_num) (by simpa [exampleParams, arr2] using hout)
  refine ⟨X - Real.pi / 2, ?_⟩
  have h0 : (arr2 (0 : ℝ) 100) 0 = 0 := by simp [arr2]
  have h1 : (arr2 (0 : ℝ) 100) 1 = 100 := by simp [arr2]
  rw [h0, h1, haz] at hX
  simp only [get_support, if_true, hX]

/-- C29 (counterexample): for the missing energy (0, -100) GeV with widths
(25, 25, 0) and the confidence level 0.95 the origin is outside the contour, the
MET azimuth is `3 pi / 2`, the step 50 of the direction `-` has no crossing (so
a least such step in 0..78 exists), yet the returned low edge `-5 pi / 2` is not
`-(0.04 k - 0.02)` for any step `k` in 0..78: the direction `-` was not scanned. -/
theorem get_support_MET_low_not_scanned :
    Chi2Corr (0 : ℝ) (-100) (Real.sqrt (25 * 25)) (Real.sqrt (25 * 25)) 0 >
        TMathReal.ChisquareQuantile |(0.95 : ℝ)| 2 ∧
      (∃ k : Nat, k ≤ 78 ∧
        met_no_crossing TMathReal (0 : ℝ) (-100) (Real.sqrt (25 * 25)) (Real.sqrt (25 * 25)) 0
          (TMathReal.ChisquareQuantile |(0.95 : ℝ)| 2)
          (met_azimuth TMathReal (0 : ℝ) (-100) - 0.04 * k)) ∧
      ∀ k : Nat, k ≤ 78 →
        (get_support_MET TMathReal (exampleParams Real.pi 25) (arr2 0 (-100)) 0.95).1 ≠
          -(0.04 * k - 0.02) := by
  have hsq : Real.sqrt (25 * 25) = (25 : ℝ) := Real.sqrt_mul_self (by norm_num)
  have hchi : Chi2Corr (0 : ℝ) (-100) (Real.sqrt (25 * 25)) (Real.sqrt (25 * 25)) 0 = 16 := by
    rw [hsq]; norm_num [Chi2Corr, Chi2]
  have hq := met_quantile_bounds.2
  have hout : Chi2Corr (0 : ℝ) (-100) (Real.sqrt (25 * 25)) (Real.sqrt (25 * 25)) 0 >
      TMathReal.ChisquareQuantile |(0.95 : ℝ)| 2 := by
    rw [hchi]; exact hq
  have haz : met_azimuth TMathReal (0 : ℝ) (-100) = 3 * Real.pi / 2 := by
    have hneg : ¬ ((-100 : ℝ) > 0) := by norm_num
    have hac : TMathReal.ACos (0 / TMathReal.Sqrt ((0 : ℝ) * 0 + -100 * -100)) = Real.pi / 2 := by
      show Real.arccos _ = _
      rw [zero_div, Real.arccos_zero]
    have hP : TMathReal.Pi = Real.pi := rfl
    unfold met_azimuth
    rw [if_neg hneg, hac, hP]
    ring
  have hpi3 := Real.pi_gt_three
  have hpi4 := Real.pi_lt_d2
  refine ⟨hout, ⟨50, by norm_num, ?_⟩, ?_⟩
  · intro stepP _
    rw [haz, hsq]
    have hC : TMathReal.Cos (3 * Real.pi / 2 - 0.04 * ((50 : Nat) : ℝ)) = -Real.sin 2 := by
      have : 3 * Real.pi / 2 - 0.04 * ((50 : Nat) : ℝ) = Real.pi + (Real.pi / 2 - 2) := by
        push_cast; ring
      show Real.cos _ = _
      rw [this, Real.cos_add, Real.cos_pi_div_two_sub, Real.sin_pi_div_two_sub]
      simp
    have hS : TMathReal.Sin (3 * Real.pi / 2 - 0.04 * ((50 : Nat) : ℝ)) = -Real.cos 2 := by
      have : 3 * Real.pi / 2 - 0.04 * ((50 : Nat) : ℝ) = Real.pi + (Real.pi / 2 - 2) := by
        push_cast; ring
      show Real.sin _ = _
      rw [this, Real.sin_add, Real.cos_pi_div_two_sub, Real.sin_pi_div_two_sub]
      simp
    rw [hC, hS]
    have hcos : Real.cos 2 ≤ 0 :=
      Real.cos_nonpos_of_pi_div_two_le_of_le (by linarith) (by linarith)
    have hs0 : (0 : ℝ) ≤ (stepP : ℝ) := Nat.cast_nonneg _
    have hval : (16 : ℝ) ≤ Chi2Corr ((stepP : ℝ) * 2 * -Real.sin 2 - 0)
        ((stepP : ℝ) * 2 * -Real.cos 2 - -100) 25 25 0 := by
      have hmul : (0 : ℝ) ≤ (stepP : ℝ) * 2 * -Real.cos 2 := by
        have : (0 : ℝ) ≤ -Real.cos 2 := by linarith
        positivity
      have h25 : (25 : ℝ) > 0 := by norm_num
      have heq : Chi2Corr ((stepP : ℝ) * 2 * -Real.sin 2 - 0)
          ((stepP : ℝ) * 2 * -Real.cos 2 - -100) 25 25 0 =
          (((stepP : ℝ) * 2 * -Real.sin 2) ^ 2 +
            ((stepP : ℝ) * 2 * -Real.cos 2 + 100) ^ 2) / 625 := by
        simp only [Chi2Corr, Chi2, if_pos h25]
        ring
      rw [heq, le_div_iff₀ (by norm_num)]
      nlinarith [sq_nonneg ((stepP : ℝ) * 2 * -Real.sin 2)]
    linarith
  · intro k hk
    obtain ⟨X, hX, _⟩ := get_support_MET_search (exampleParams Real.pi 25) (arr2 0 (-100)) 0.95
      (by norm_num) (by simpa [exampleParams, arr2] using hout)
    have h0 : (arr2 (0 : ℝ) (-100)) 0 = 0 := by simp [arr2]
    have h1 : (arr2 (0 : ℝ) (-100)) 1 = -100 := by simp [arr2]
    rw [h0, h1, haz] at hX
    rw [hX]
    have hk0 : (0 : ℝ) ≤ (k : ℝ) := Nat.cast_nonneg _
    have hk1 : (k : ℝ) ≤ 78 := by exact_mod_cast hk
    intro h
    simp only at h
    norm_num at h
    linarith

/-- C29 (amended): in the search branch of the missing-energy window only the
direction selected by the sign of alpha is scanned, from the MET azimuth `Phi`
in steps of 0.04 rad. For a positive alpha and the least step `k` in 0..78 at
which no radius in {0, 2, ..., 398} gives a chi-square below the quantile at
the angle `Phi + 0.04 k`, the returned window is
`(-pi - Phi, 0.04 k - 0.02)`; for a non-positive alpha and the least such step
at the angle `Phi - 0.04 k` it is `(-(0.04 k - 0.02), pi - Phi)`. -/
theorem get_support_MET_scanned_edge (P : TFParams ℝ) (fuel : Nat) (y : Nat → ℝ) (alpha : ℝ)
    (obj : Option (Object ℝ)) (k : Nat) (hk : k ≤ 78)
    (hout : Chi2Corr (y 0) (y 1) (Real.sqrt (P.TF_MET_param 0 * P.TF_MET_param 0))
        (Real.sqrt (P.TF_MET_param 1 * P.TF_MET_param 1)) (P.TF_MET_param 2) >
      TMathReal.ChisquareQuantile |alpha| 2) :
    (0 < alpha →
      met_no_crossing TMathReal (y 0) (y 1) (Real.sqrt (P.TF_MET_param 0 * P.TF_MET_param 0))
        (Real.sqrt (P.TF_MET_param 1 * P.TF_MET_param 1)) (P.TF_MET_param 2)
        (TMathReal.ChisquareQuantile |alpha| 2)
        (met_azimuth TMathReal (y 0) (y 1) + 0.04 * k) →
      (∀ j : Nat, j < k →
        ¬ met_no_crossing TMathReal (y 0) (y 1)
          (Real.sqrt (P.TF_MET_param 0 * P.TF_MET_param 0))
          (Real.sqrt (P.TF_MET_param 1 * P.TF_MET_param 1)) (P.TF_MET_param 2)
          (TMathReal.ChisquareQuantile |alpha| 2)
          (met_azimuth TMathReal (y 0) (y 1) + 0.04 * j)) →
      get_support TMathReal P fuel y TFType.MET alpha obj =
        some (Except.ok (-Real.pi - met_azimuth TMathReal (y 0) (y 1), 0.04 * (k : ℝ) - 0.02))) ∧
    (alpha ≤ 0 →
      met_no_crossing TMathReal (y 0) (y 1) (Real.sqrt (P.TF_MET_param 0 * P.TF_MET_param 0))
        (Real.sqrt (P.TF_MET_param 1 * P.TF_MET_param 1)) (P.TF_MET_param 2)
        (TMathReal.ChisquareQuantile |alpha| 2)
        (met_azimuth TMathReal (y 0) (y 1) - 0.04 * k) →
      (∀ j : Nat, j < k →
        ¬ met_no_crossing TMathReal (y 0) (y 1)
          (Real.sqrt (P.TF_MET_param 0 * P.TF_MET_param 0))
          (Real.sqrt (P.TF_MET_param 1 * P.TF_MET_param 1)) (P.TF_MET_param 2)
          (TMathReal.ChisquareQuantile |alpha| 2)
          (met_azimuth TMathReal (y 0) (y 1) - 0.04 * j)) →
      get_support TMathReal P fuel y TFType.MET alpha obj =
        some (Except.ok (-(0.04 * (k : ℝ) - 0.02), Real.pi - met_azimuth TMathReal (y 0) (y 1)))) := by
  have hplus : ∀ j : Nat, met_azimuth TMathReal (y 0) (y 1) + (2 * ((1 : Nat) : ℝ) - 1) * 0.04 * j =
      met_azimuth TMathReal (y 0) (y 1) + 0.04 * j := by
    intro j; push_cast; ring
  have hminus : ∀ j : Nat, met_azimuth TMathReal (y 0) (y 1) + (2 * ((0 : Nat) : ℝ) - 1) * 0.04 * j =
      met_azimuth TMathReal (y 0) (y 1) - 0.04 * j := by
    intro j; push_cast; ring
  constructor
  · intro halpha hnc hleast
    have hscan := met_phi_scan_first TMathReal (y 0) (y 1)
      (Real.sqrt (P.TF_MET_param 0 * P.TF_MET_param 0))
      (Real.sqrt (P.TF_MET_param 1 * P.TF_MET_param 1)) (P.TF_MET_param 2)
      (TMathReal.ChisquareQuantile |alpha| 2) (met_azimuth TMathReal (y 0) (y 1)) 0.04 1 k
      (by rw [hplus]; exact hnc) 79 0 (Nat.zero_le _) (by omega)
      (fun j _ hj => by rw [hplus]; exact hleast j hj)
    have hval := get_support_MET_high_value P y alpha _ hout halpha hscan
    simp only [get_support, if_true, hval, hplus]
    congr 3
    ring
  · intro halpha hnc hleast
    have hscan := met_phi_scan_first TMathReal (y 0) (y 1)
      (Real.sqrt (P.TF_MET_param 0 * P.TF_MET_param 0))
      (Real.sqrt (P.TF_MET_param 1 * P.TF_MET_param 1)) (P.TF_MET_param 2)
      (TMathReal.ChisquareQuantile |alpha| 2) (met_azimuth TMathReal (y 0) (y 1)) 0.04 0 k
      (by rw [hminus]; exact hnc) 79 0 (Nat.zero_le _) (by omega)
      (fun j _ hj => by rw [hminus]; exact hleast j hj)
    have hval := get_support_MET_low_value P y alpha _ hout halpha hscan
    simp only [get_support, if_true, hval, hminus]
    congr 3
    ring

/-- Witness for `get_support_MET_scanned_edge`: the missing energy (1000, 0) GeV
with widths (25, 25, 0) at the confidence level 0.95. The azimuth is `2 pi`;
along it the radii 0..398 stay at least 602 GeV away from the observed MET, so
the step 0 has no crossing and the high edge is `-0.02`. -/
theorem get_support_MET_scanned_edge_witness :
    get_support TMathReal (exampleParams Real.pi 25) 0 (arr2 1000 0) TFType.MET 0.95 none =
      some (Except.ok (-Real.pi - 2 * Real.pi, 0.04 * ((0 : Nat) : ℝ) - 0.02)) := by
  have hsq : Real.sqrt (25 * 25) = (25 : ℝ) := Real.sqrt_mul_self (by norm_num)
  have hq := met_quantile_bounds.2
  have haz : met_azimuth TMathReal (1000 : ℝ) 0 = 2 * Real.pi := by
    have h1 : Real.sqrt ((1000 : ℝ) * 1000 + 0 * 0) = 1000 := by
      rw [show (1000 : ℝ) * 1000 + 0 * 0 = 1000 * 1000 by norm_num]
      exact Real.sqrt_mul_self (by norm_num)
    simp [met_azimuth, TMathReal, h1]
  have h0 : (arr2 (1000 : ℝ) 0) 0 = 1000 := by simp [arr2]
  have h1 : (arr2 (1000 : ℝ) 0) 1 = 0 := by simp [arr2]
  have hp0 : (exampleParams Real.pi (25 : ℝ)).TF_MET_param 0 = 25 := by simp [exampleParams]
  have hp1 : (exampleParams Real.pi (25 : ℝ)).TF_MET_param 1 = 25 := by simp [exampleParams]
  have hp2 : (exampleParams Real.pi (25 : ℝ)).TF_MET_param 2 = 0 := by simp [exampleParams]
  have hout : Chi2Corr (1000 : ℝ) 0 (Real.sqrt (25 * 25)) (Real.sqrt (25 * 25)) 0 >
      TMathReal.ChisquareQuantile |(0.95 : ℝ)| 2 := by
    rw [hsq]
    have : Chi2Corr (1000 : ℝ) 0 25 25 0 = 1600 := by norm_num [Chi2Corr, Chi2]
    rw [this]; linarith
  have hnc : met_no_crossing TMathReal (1000 : ℝ) 0 (Real.sqrt (25 * 25)) (Real.sqrt (25 * 25)) 0
      (TMathReal.ChisquareQuantile |(0.95 : ℝ)| 2) (2 * Real.pi + 0.04 * ((0 : Nat) : ℝ)) := by
    intro stepP hs
    have hC : TMathReal.Cos (2 * Real.pi + 0.04 * ((0 : Nat) : ℝ)) = 1 := by
      show Real.cos _ = _
      simp
    have hS : TMathReal.Sin (2 * Real.pi + 0.04 * ((0 : Nat) : ℝ)) = 0 := by
      show Real.sin _ = _
      simp
    rw [hC, hS, hsq]
    have hs0 : (0 : ℝ) ≤ (stepP : ℝ) := Nat.cast_nonneg _
    have hs1 : (stepP : ℝ) ≤ 199 := by
      have : stepP ≤ 199 := by omega
      exact_mod_cast this
    have hval : (16 : ℝ) ≤ Chi2Corr ((stepP : ℝ) * 2 * 1 - 1000) ((stepP : ℝ) * 2 * 0 - 0) 25 25 0 := by
      have h25 : (25 : ℝ) > 0 := by norm_num
      have : Chi2Corr ((stepP : ℝ) * 2 * 1 - 1000) ((stepP : ℝ) * 2 * 0 - 0) 25 25 0 =
          (1000 - 2 * (stepP : ℝ)) ^ 2 / 625 := by
        simp only [Chi2Corr, Chi2, if_pos h25]; ring
      rw [this, le_div_iff₀ (by norm_num)]
      nlinarith
    linarith
  have h := (get_support_MET_scanned_edge (exampleParams Real.pi 25) 0 (arr2 1000 0) 0.95 none 0
    (by norm_num) (by rw [h0, h1, hp0, hp1, hp2]; exact hout)).1 (by norm_num)
    (by rw [h0, h1, hp0, hp1, hp2, haz]; exact hnc) (fun j hj => absurd hj (Nat.not_lt_zero j))
  rw [h0, h1, haz] at h
  exact h

/-! ### Phase-space points: roles that were not set -/

/-- A sequence of `set` calls leaves every key that is not among them as it
was. -/
theorem PS_foldl_set_val (ops : List (Nat × GenPart α)) (p : Nat)
    (hp : ∀ e ∈ ops, e.1 ≠ p) :
    ∀ ps : PS α, (ops.foldl (fun ps e => ps.set e.1 e.2) ps).val p = ps.val p := by
  induction ops with
  | nil => intro ps; rfl
  | cons e rest ih =>
    intro ps
    rw [List.foldl_cons, ih (fun e2 he2 => hp e2 (List.mem_cons_of_mem _ he2))]
    have hne : p ≠ e.1 := fun h => hp e (List.mem_cons_self _ _) h.symm
    simp only [PS.set, if_neg hne]

/-- C30: for the phase-space point left by the constructor and any sequence of
`set` calls, and for every role `p` that is not among the roles set,
`type(p)` is `Unknown`, `charge(p)` is 0 and `lv(p)` is the default-constructed
zero four-momentum. The three accessors are total functions that return the
plain value, so there is no error outcome. -/
theorem PS_unset_role (d : Nat) (ops : List (Nat × GenPart α)) (p : Nat)
    (hp : ∀ e ∈ ops, e.1 ≠ p) :
    (PS.setAll d ops).type p = TFType.Unknown ∧
      (PS.setAll d ops).charge p = 0 ∧
      (PS.setAll d ops).lv p = LV.init ∧
      (PS.setAll d ops).lv p = ⟨0, 0, 0, 0⟩ := by
  have h : (PS.setAll d ops).val p = none := by
    unfold PS.setAll
    rw [PS_foldl_set_val ops p hp]
    rfl
  simp only [PS.type, PS.charge, PS.lv, h, LV.init, and_self]

/-- Witness for `PS_unset_role`: a point of dimension 3 over the rationals,
role 0 set to a b-quark of charge 1 and role 2 to a light quark; role 1 was
not set. -/
theorem PS_unset_role_witness :
    (PS.setAll 3 [(0, (⟨⟨1, 2, 3, 4⟩, 1, TFType.bReco⟩ : GenPart ℚ)),
        (2, ⟨⟨0, 1, 0, 1⟩, -1, TFType.qReco⟩)]).type 1 = TFType.Unknown ∧
      (PS.setAll 3 [(0, (⟨⟨1, 2, 3, 4⟩, 1, TFType.bReco⟩ : GenPart ℚ)),
        (2, ⟨⟨0, 1, 0, 1⟩, -1, TFType.qReco⟩)]).charge 1 = 0 ∧
      (PS.setAll 3 [(0, (⟨⟨1, 2, 3, 4⟩, 1, TFType.bReco⟩ : GenPart ℚ)),
        (2, ⟨⟨0, 1, 0, 1⟩, -1, TFType.qReco⟩)]).lv 1 = LV.init ∧
      (PS.setAll 3 [(0, (⟨⟨1, 2, 3, 4⟩, 1, TFType.bReco⟩ : GenPart ℚ)),
        (2, ⟨⟨0, 1, 0, 1⟩, -1, TFType.qReco⟩)]).lv 1 = ⟨0, 0, 0, 0⟩ :=
  PS_unset_role 3 _ 1 (by
    intro e he
    simp only [List.mem_cons, List.mem_singleton, List.not_mem_nil, or_false] at he
    rcases he with rfl | rfl <;> decide)

/-! ### Configuration: arity checks -/

/-- C31: `set_tf_global(type, etabin, tf)` throws if and only if the number of
parameters of `tf` differs from 11 (`NUM_TF_PARS - 1`); when it throws, the
configuration, `tf_map` included, is unchanged; otherwise an array whose first
11 entries are the parameters of `tf` is stored under the key
`(type, etabin)` and every other key keeps its entry. -/
theorem set_tf_global_spec (cfg : MEMConfig α) (type : TFType) (etabin : Int) (tf : TF1 α)
    (pars0 : Nat → α) :
    ((cfg.set_tf_global type etabin tf pars0).thrown ≠ none ↔ tf.Npar ≠ 11) ∧
      ((cfg.set_tf_global type etabin tf pars0).thrown ≠ none →
        (cfg.set_tf_global type etabin tf pars0).state.tf_map = cfg.tf_map ∧
        (cfg.set_tf_global type etabin tf pars0).state.calls = cfg.calls) ∧
      ((cfg.set_tf_global type etabin tf pars0).thrown = none →
        (∃ pars : Nat → α,
          (cfg.set_tf_global type etabin tf pars0).state.tf_map (type, etabin) = some pars ∧
          ∀ i : Nat, i < 11 → pars i = tf.Parameters i) ∧
        ∀ k : TFType × Int, k ≠ (type, etabin) →
          (cfg.set_tf_global type etabin tf pars0).state.tf_map k = cfg.tf_map k) := by
  have h11 : ((NUM_TF_PARS : Nat) : Int) - 1 = 11 := by decide
  by_cases h : tf.Npar = 11
  · have hn : ¬ (tf.Npar ≠ ((NUM_TF_PARS : Nat) : Int) - 1) := by rw [h11]; exact not_not.mpr h
    have hval : cfg.set_tf_global type etabin tf pars0 =
        ⟨{ cfg with tf_map := fun k =>
            if k = (type, etabin) then some (tf.GetParameters pars0) else cfg.tf_map k }, [],
          none⟩ := by
      unfold MEMConfig.set_tf_global
      rw [if_neg hn]
    rw [hval]
    refine ⟨⟨fun hc => absurd rfl hc, fun hc => absurd h hc⟩, fun hc => absurd rfl hc,
      fun _ => ⟨⟨tf.GetParameters pars0, by simp, ?_⟩, ?_⟩⟩
    · intro i hi
      have : ((i : Nat) : Int) < 11 := by exact_mod_cast hi
      simp only [TF1.GetParameters, h, this, if_true]
    · intro k hk
      simp only [hk, if_false]
  · have hn : tf.Npar ≠ ((NUM_TF_PARS : Nat) : Int) - 1 := by rw [h11]; exact h
    have hval : cfg.set_tf_global type etabin tf pars0 =
        ⟨cfg, ["Expected " ++ toString ((NUM_TF_PARS : Int) - 1) ++ " but got " ++
          toString tf.Npar ++ " parameters for TF qReco"], some "transfer function"⟩ := by
      unfold MEMConfig.set_tf_global
      rw [if_pos hn]
    rw [hval]
    refine ⟨⟨fun _ => h, fun _ => by simp⟩, fun _ => ⟨rfl, rfl⟩, fun hc => ?_⟩
    simp at hc

/-- C32 (the code at the failing input): an object that holds a light-jet
function with 12 parameters accepts a second one with 5 parameters without an
error, because `insert` keeps the entry of the map and the arity check reads the
function back from the map; and an object whose first light-jet function had 5
parameters, which threw, throws again for a function with 12 parameters. -/
theorem addTransferFunction_checks_held_function :
    ((zeroObject (1 : ℚ)).addTransferFunction TFType.qReco (constTF1 12 1)).thrown = none ∧
      ((((zeroObject (1 : ℚ)).addTransferFunction TFType.qReco (constTF1 12 1)).state
        ).addTransferFunction TFType.qReco (constTF1 5 2)).thrown = none ∧
      ((zeroObject (1 : ℚ)).addTransferFunction TFType.qReco (constTF1 5 2)).thrown =
        some "transfer function" ∧
      ((((zeroObject (1 : ℚ)).addTransferFunction TFType.qReco (constTF1 5 2)).state
        ).addTransferFunction TFType.qReco (constTF1 12 1)).thrown =
        some "transfer function" := by
  refine ⟨?_, ?_, ?_, ?_⟩ <;>
    simp [Object.addTransferFunction, Object.getTransferFunction, mapInsert, zeroObject,
      constTF1, NUM_TF_PARS]

/-- C37 (the code at the failing input): for an object without attached
functions and a light-jet function with 5 parameters, `addTransferFunction`
throws the arity error, both parameter arrays are as before, and the map has
changed: the rejected function is now held under `qReco`. -/
theorem addTransferFunction_keeps_rejected_function :
    ((zeroObject (1 : ℚ)).addTransferFunction TFType.qReco (constTF1 5 2)).thrown =
        some "transfer function" ∧
      (zeroObject (1 : ℚ)).transfer_funcs TFType.qReco = none ∧
      (((zeroObject (1 : ℚ)).addTransferFunction TFType.qReco (constTF1 5 2)).state.transfer_funcs
        TFType.qReco).map TF1.Npar = some 5 ∧
      ((zeroObject (1 : ℚ)).addTransferFunction TFType.qReco (constTF1 5 2)).state.tf_l_parameters =
        (zeroObject (1 : ℚ)).tf_l_parameters ∧
      ((zeroObject (1 : ℚ)).addTransferFunction TFType.qReco (constTF1 5 2)).state.tf_b_parameters =
        (zeroObject (1 : ℚ)).tf_b_parameters := by
  refine ⟨?_, ?_, ?_, ?_, ?_⟩ <;>
    simp [Object.addTransferFunction, Object.getTransferFunction, mapInsert, zeroObject,
      constTF1, NUM_TF_PARS]

/-- C39: `transfer_function2` throws if and only if the category is neither
qReco nor bReco; for qReco it returns `transfer_function_reco` evaluated with
the light-jet parameters of the object and for bReco with its b-jet
parameters. -/
theorem transfer_function2_spec (TM : TMath α) (obj : Object α) (x : Nat → α) (type : TFType)
    (obj_variations : List α) (eval_variations : Bool) :
    ((∃ e, transfer_function2 TM obj x type obj_variations eval_variations = Except.error e) ↔
        type ≠ TFType.qReco ∧ type ≠ TFType.bReco) ∧
      (type = TFType.qReco →
        transfer_function2 TM obj x type obj_variations eval_variations =
          Except.ok (transfer_function_reco TM obj.Pt obj.p4_variations obj.tf_l_parameters x
            obj_variations eval_variations)) ∧
      (type = TFType.bReco →
        transfer_function2 TM obj x type obj_variations eval_variations =
          Except.ok (transfer_function_reco TM obj.Pt obj.p4_variations obj.tf_b_parameters x
            obj_variations eval_variations)) := by
  cases type <;> simp [transfer_function2]

/-! ### Configuration: the call budgets -/

/-- A sequence of assignments leaves an entry that is not among its keys as it
was. -/
theorem foldl_setNCalls_other (ws : List ((Nat × Nat × Nat) × Int)) (i j k : Nat)
    (h : (i, j, k) ∉ ws.map Prod.fst) :
    ∀ c : Nat → Nat → Nat → Int,
      (ws.foldl (fun c w => setNCalls c w.1.1 w.1.2.1 w.1.2.2 w.2) c) i j k = c i j k := by
  induction ws with
  | nil => intro c; rfl
  | cons w rest ih =>
    intro c
    simp only [List.map_cons, List.mem_cons, not_or] at h
    rw [List.foldl_cons, ih h.2]
    have hne : ¬ (i = w.1.1 ∧ j = w.1.2.1 ∧ k = w.1.2.2) := by
      rintro ⟨h1, h2, h3⟩
      exact h.1 (by rw [h1, h2, h3])
    simp only [setNCalls, hne, if_false]

/-- After a sequence of assignments an entry that is among its keys does not
depend on the table before. -/
theorem foldl_setNCalls_written (ws : List ((Nat × Nat × Nat) × Int)) (i j k : Nat)
    (h : (i, j, k) ∈ ws.map Prod.fst) :
    ∀ c d : Nat → Nat → Nat → Int,
      (ws.foldl (fun c w => setNCalls c w.1.1 w.1.2.1 w.1.2.2 w.2) c) i j k =
        (ws.foldl (fun c w => setNCalls c w.1.1 w.1.2.1 w.1.2.2 w.2) d) i j k := by
  induction ws with
  | nil => simp at h
  | cons w rest ih =>
    intro c d
    rw [List.foldl_cons, List.foldl_cons]
    by_cases hr : (i, j, k) ∈ rest.map Prod.fst
    · exact ih hr _ _
    · rw [foldl_setNCalls_other rest i j k hr, foldl_setNCalls_other rest i j k hr]
      simp only [List.map_cons, List.mem_cons, hr, or_false] at h
      have h1 : i = w.1.1 := congrArg Prod.fst h
      have h2 : j = w.1.2.1 := congrArg (fun t => t.2.1) h
      have h3 : k = w.1.2.2 := congrArg (fun t => t.2.2) h
      simp only [setNCalls, h1, h2, h3, and_self, if_true]

/-- Whatever the values of the enumerators, `defaultCfg` assigns at most 22 of
the 48 entries of the table: some entry is not assigned. -/
theorem defaultCfgKeys_not_all (E : CfgEnums) :
    ∃ i j k : Nat, i < 4 ∧ j < 2 ∧ k < 6 ∧ (i, j, k) ∉ defaultCfgKeys E := by
  have hcard : (defaultCfgKeys E).toFinset.card <
      (Finset.range 4 ×ˢ (Finset.range 2 ×ˢ Finset.range 6)).card := by
    have h1 : (defaultCfgKeys E).toFinset.card ≤ (defaultCfgKeys E).length :=
      List.toFinset_card_le _
    have h2 : (defaultCfgKeys E).length = 22 := by
      simp [defaultCfgKeys, defaultCfgWrites]
    have h3 : (Finset.range 4 ×ˢ (Finset.range 2 ×ˢ Finset.range 6)).card = 48 := by
      simp
    omega
  by_contra hall
  have hsub : (Finset.range 4 ×ˢ (Finset.range 2 ×ˢ Finset.range 6)) ⊆
      (defaultCfgKeys E).toFinset := by
    intro x hx
    obtain ⟨i, j, k⟩ := x
    simp only [Finset.mem_product, Finset.mem_range] at hx
    rw [List.mem_toFinset]
    by_contra hn
    exact hall ⟨i, j, k, hx.1, hx.2.1, hx.2.2, hn⟩
  have := Finset.card_le_card hsub
  omega

/-- C38 (counterexample): with the final states HH, LH, LL numbered 0, 1, 2,
the entry (3, 0, 0) is not assigned by `defaultCfg`. Two tables that differ
there still differ after `defaultCfg(1)` (2000 against 7), and after
`defaultCfg(2)` the entry is 4000 while after two calls it is 8000. -/
theorem defaultCfg_depends_on_table :
    ((MEMConfig.defaultCfg exampleEnums (MEMConfig.new : MEMConfig ℚ) 1).getNCalls 3 0 0 = 2000 ∧
      (MEMConfig.defaultCfg exampleEnums
        ({ (MEMConfig.new : MEMConfig ℚ) with
          calls := setNCalls (MEMConfig.new : MEMConfig ℚ).calls 3 0 0 7 }) 1).getNCalls 3 0 0 = 7) ∧
      (MEMConfig.defaultCfg exampleEnums (MEMConfig.new : MEMConfig ℚ) 2).getNCalls 3 0 0 = 4000 ∧
      (MEMConfig.defaultCfg exampleEnums
        (MEMConfig.defaultCfg exampleEnums (MEMConfig.new : MEMConfig ℚ) 2) 2).getNCalls 3 0 0 =
        8000 := by
  have hk : ((3 : Nat), (0 : Nat), (0 : Nat)) ∉ (defaultCfgWrites exampleEnums).map Prod.fst := by
    decide
  have h21 : ¬ ((2 : ℚ) ≠ 1) = False := by norm_num
  have hr : (3 : Nat) < 4 ∧ (0 : Nat) < 2 ∧ (0 : Nat) < 6 := by decide
  have ht1 : truncToInt ((2 : ℚ) * ((2000 : Int) : ℚ)) = 4000 := by
    have : (2 : ℚ) * ((2000 : Int) : ℚ) = ((4000 : Int) : ℚ) := by norm_num
    rw [this]
    simp [truncToInt]
  have ht2 : truncToInt ((2 : ℚ) * ((4000 : Int) : ℚ)) = 8000 := by
    have : (2 : ℚ) * ((4000 : Int) : ℚ) = ((8000 : Int) : ℚ) := by norm_num
    rw [this]
    simp [truncToInt]
  have h2 : (2 : ℚ) ≠ 1 := by norm_num
  refine ⟨⟨?_, ?_⟩, ?_, ?_⟩
  · simp only [MEMConfig.getNCalls, MEMConfig.defaultCfg, ne_eq, not_true_eq_false, if_false]
    rw [foldl_setNCalls_other _ 3 0 0 hk]
    rfl
  · simp only [MEMConfig.getNCalls, MEMConfig.defaultCfg, ne_eq, not_true_eq_false, if_false]
    rw [foldl_setNCalls_other _ 3 0 0 hk]
    rfl
  · simp only [MEMConfig.getNCalls, MEMConfig.defaultCfg, if_pos h2, if_pos hr]
    rw [foldl_setNCalls_other _ 3 0 0 hk]
    exact ht1
  · simp only [MEMConfig.getNCalls, MEMConfig.defaultCfg, if_pos h2, if_pos hr]
    rw [foldl_setNCalls_other _ 3 0 0 hk]
    simp only [if_pos hr]
    rw [foldl_setNCalls_other _ 3 0 0 hk]
    have h0 : (MEMConfig.new : MEMConfig ℚ).calls 3 0 0 = 2000 := rfl
    rw [h0, ht1]
    exact ht2

/-- C38 (amended): after `defaultCfg(m)` every entry of the call-budget table
that `defaultCfg` assigns is determined by `m` and the enumerator values alone,
independent of the table before the call, so that a second call of
`defaultCfg(m)` leaves these entries as the first did; every other entry of the
4 x 2 x 6 table is its value before the call, multiplied by `m` and cut to an
integer when `m` is not 1. -/
theorem defaultCfg_table [FloorRing α] (E : CfgEnums) (cfg cfg2 : MEMConfig α) (m : α)
    (i j k : Nat) (hi : i < 4) (hj : j < 2) (hk : k < 6) :
    ((i, j, k) ∈ defaultCfgKeys E →
      (MEMConfig.defaultCfg E cfg m).getNCalls i j k =
          (MEMConfig.defaultCfg E cfg2 m).getNCalls i j k ∧
        (MEMConfig.defaultCfg E (MEMConfig.defaultCfg E cfg m) m).getNCalls i j k =
          (MEMConfig.defaultCfg E cfg m).getNCalls i j k) ∧
      ((i, j, k) ∉ defaultCfgKeys E →
        (MEMConfig.defaultCfg E cfg m).getNCalls i j k =
          if m ≠ 1 then truncToInt (m * (cfg.getNCalls i j k : α)) else cfg.getNCalls i j k) := by
  have hr : i < 4 ∧ j < 2 ∧ k < 6 := ⟨hi, hj, hk⟩
  have key : ∀ c d : MEMConfig α, (i, j, k) ∈ defaultCfgKeys E →
      (MEMConfig.defaultCfg E c m).getNCalls i j k =
        (MEMConfig.defaultCfg E d m).getNCalls i j k := by
    intro c d hmem
    have hw := foldl_setNCalls_written (defaultCfgWrites E) i j k hmem c.calls d.calls
    by_cases hm : m ≠ 1
    · simp only [MEMConfig.getNCalls, MEMConfig.defaultCfg, if_pos hm, if_pos hr, hw]
    · simp only [MEMConfig.getNCalls, MEMConfig.defaultCfg, if_neg hm, hw]
  refine ⟨fun hmem => ⟨key cfg cfg2 hmem, key _ cfg hmem⟩, fun hmem => ?_⟩
  have ho := foldl_setNCalls_other (defaultCfgWrites E) i j k hmem cfg.calls
  by_cases hm : m ≠ 1
  · simp only [MEMConfig.getNCalls, MEMConfig.defaultCfg, if_pos hm, if_pos hr, ho]
  · simp only [MEMConfig.getNCalls, MEMConfig.defaultCfg, if_neg hm, ho]

/-- Witness for `defaultCfg_table`: the entry (LH, TTH, TwoQuarkLost) = (1, 0, 2)
with the multiplier 2 over the rationals, from the table of the constructor and
from the table with every entry 0. -/
theorem defaultCfg_table_witness :
    (MEMConfig.defaultCfg exampleEnums (MEMConfig.new : MEMConfig ℚ) 2).getNCalls 1 0 2 =
        (MEMConfig.defaultCfg exampleEnums (⟨fun _ _ _ => 0, fun _ => none⟩ : MEMConfig ℚ)
          2).getNCalls 1 0 2 ∧
      (MEMConfig.defaultCfg exampleEnums
        (MEMConfig.defaultCfg exampleEnums (MEMConfig.new : MEMConfig ℚ) 2) 2).getNCalls 1 0 2 =
        (MEMConfig.defaultCfg exampleEnums (MEMConfig.new : MEMConfig ℚ) 2).getNCalls 1 0 2 :=
  (defaultCfg_table exampleEnums (MEMConfig.new : MEMConfig ℚ) ⟨fun _ _ _ => 0, fun _ => none⟩
    2 1 0 2 (by decide) (by decide) (by decide)).1 (by decide)

/-! ### Response model: the correlated chi-square and `fast_exp` -/

/-- C35: for all x, y, all widths sigma_x > 0, sigma_y > 0 and all rho with
|rho| < 1, `Chi2Corr(x, y, sigma_x, sigma_y, rho)` is non-negative, and it is 0
exactly when x = 0 and y = 0. -/
theorem Chi2Corr_nonneg (x y sx sy rho : α) (hsx : 0 < sx) (hsy : 0 < sy) (hrho : |rho| < 1) :
    0 ≤ Chi2Corr x y sx sy rho ∧ (Chi2Corr x y sx sy rho = 0 ↔ x = 0 ∧ y = 0) := by
  have hr := abs_lt.mp hrho
  have hden : 0 < 1 - rho * rho := by nlinarith
  have hsx0 : sx ≠ 0 := ne_of_gt hsx
  have hsy0 : sy ≠ 0 := ne_of_gt hsy
  have heq : Chi2Corr x y sx sy rho =
      1 / (1 - rho * rho) *
        ((x / sx - rho * (y / sy)) ^ 2 + (1 - rho * rho) * (y / sy) ^ 2) := by
    simp only [Chi2Corr, Chi2, gt_iff_lt, hsx, hsy, if_true]
    field_simp
    ring
  have hinner : 0 ≤ (x / sx - rho * (y / sy)) ^ 2 + (1 - rho * rho) * (y / sy) ^ 2 :=
    add_nonneg (sq_nonneg _) (mul_nonneg (le_of_lt hden) (sq_nonneg _))
  have hinv : 0 < 1 / (1 - rho * rho) := one_div_pos.mpr hden
  rw [heq]
  refine ⟨mul_nonneg (le_of_lt hinv) hinner, ?_⟩
  constructor
  · intro h0
    have h1 : (x / sx - rho * (y / sy)) ^ 2 + (1 - rho * rho) * (y / sy) ^ 2 = 0 := by
      rcases mul_eq_zero.mp h0 with h | h
      · exact absurd h (ne_of_gt hinv)
      · exact h
    have ha : (x / sx - rho * (y / sy)) ^ 2 = 0 := by
      have := sq_nonneg (x / sx - rho * (y / sy))
      have := mul_nonneg (le_of_lt hden) (sq_nonneg (y / sy))
      linarith
    have hb : (1 - rho * rho) * (y / sy) ^ 2 = 0 := by
      have := sq_nonneg (x / sx - rho * (y / sy))
      have := mul_nonneg (le_of_lt hden) (sq_nonneg (y / sy))
      linarith
    have hy : y / sy = 0 := by
      rcases mul_eq_zero.mp hb with h | h
      · exact absurd h (ne_of_gt hden)
      · exact pow_eq_zero_iff (two_ne_zero) |>.mp h
    have hx : x / sx = 0 := by
      have := pow_eq_zero_iff (two_ne_zero) |>.mp ha
      rw [hy] at this
      simpa using this
    refine ⟨?_, ?_⟩
    · rcases div_eq_zero_iff.mp hx with h | h
      · exact h
      · exact absurd h hsx0
    · rcases div_eq_zero_iff.mp hy with h | h
      · exact h
      · exact absurd h hsy0
  · rintro ⟨rfl, rfl⟩
    simp

/-- Witness for `Chi2Corr_nonneg`: x = 3, y = 4, widths 1 and 2, rho = 1/2 over
the rationals. -/
theorem Chi2Corr_nonneg_witness :
    0 ≤ Chi2Corr (3 : ℚ) 4 1 2 (1 / 2) ∧ (Chi2Corr (3 : ℚ) 4 1 2 (1 / 2) = 0 ↔ (3 : ℚ) = 0 ∧ (4 : ℚ) = 0) :=
  Chi2Corr_nonneg 3 4 1 2 (1 / 2) (by norm_num) (by norm_num)
    (by rw [abs_of_pos (by norm_num)]; norm_num)

/-- The value `exp(-50)` is below the constant 2e-22 of `fast_exp`. -/
theorem exp_neg_fifty_lt : Real.exp (-50) < 2e-22 := by
  have h1 : (2.7182818283 : ℝ) < Real.exp 1 := Real.exp_one_gt_d9
  have h50 : Real.exp 50 = Real.exp 1 ^ 50 := by
    rw [← Real.exp_nat_mul]; norm_num
  have hpow : (2.7182818283 : ℝ) ^ 50 < Real.exp 1 ^ 50 :=
    pow_lt_pow_left₀ h1 (by norm_num) (by norm_num)
  have hbig : (5e21 : ℝ) < (2.7182818283 : ℝ) ^ 50 := by norm_num
  have hexp : (5e21 : ℝ) < Real.exp 50 := by rw [h50]; exact lt_trans hbig hpow
  rw [Real.exp_neg, inv_lt_comm₀ (Real.exp_pos 50) (by norm_num)]
  have : ((2e-22 : ℝ))⁻¹ = 5e21 := by norm_num
  rw [this]
  exact hexp

/-- C36 (counterexample): -51 <= -50, yet `fast_exp(-51) = 2e-22` is greater
than `fast_exp(-50) = exp(-50)`. -/
theorem fast_exp_not_monotone :
    (-51 : ℝ) ≤ -50 ∧ fast_exp TMathReal (-51) = 2e-22 ∧
      fast_exp TMathReal (-50) = Real.exp (-50) ∧
      fast_exp TMathReal (-50) < fast_exp TMathReal (-51) := by
  have h50 : (-50.0 : ℝ) = -50 := by norm_num
  have ha : fast_exp TMathReal (-51) = 2e-22 := by
    have : (-51 : ℝ) < -50 := by norm_num
    simp only [fast_exp, h50, this, if_true]
  have hb : fast_exp TMathReal (-50) = Real.exp (-50) := by
    have : ¬ ((-50 : ℝ) < -50) := lt_irrefl _
    simp only [fast_exp, h50, this, if_false, TMathReal]
  refine ⟨by norm_num, ha, hb, ?_⟩
  rw [ha, hb]
  exact exp_neg_fifty_lt

/-- C36 (amended): `fast_exp` is non-decreasing on each side of the cut at -50:
for p <= q, `fast_exp(p) <= fast_exp(q)` holds exactly when q < -50, or
p >= -50, or exp(q) >= 2e-22. -/
theorem fast_exp_monotone_iff (p q : ℝ) (hpq : p ≤ q) :
    fast_exp TMathReal p ≤ fast_exp TMathReal q ↔
      (q < -50 ∨ -50 ≤ p ∨ 2e-22 ≤ Real.exp q) := by
  have h50 : (-50.0 : ℝ) = -50 := by norm_num
  have hE : TMathReal.Exp = Real.exp := rfl
  by_cases hq : q < -50
  · have hp : p < -50 := lt_of_le_of_lt hpq hq
    simp only [fast_exp, h50, hp, hq, if_true, le_refl, true_or]
  · by_cases hp : p < -50
    · have hnp : ¬ (-50 ≤ p) := not_le.mpr hp
      simp only [fast_exp, h50, hp, hq, if_true, if_false, hE, hnp, false_or]
    · have hp2 : -50 ≤ p := not_lt.mp hp
      simp only [fast_exp, h50, hp, hq, if_false, hE, hp2, true_or, or_true, iff_true]
      exact Real.exp_le_exp.mpr hpq

/-- Witness for `fast_exp_monotone_iff`: p = -51 and q = 0, where
exp(0) = 1 >= 2e-22. -/
theorem fast_exp_monotone_iff_witness :
    fast_exp TMathReal (-51) ≤ fast_exp TMathReal 0 ↔
      ((0 : ℝ) < -50 ∨ (-50 : ℝ) ≤ -51 ∨ 2e-22 ≤ Real.exp 0) :=
  fast_exp_monotone_iff (-51) 0 (by norm_num)

/-! ### Support solver: the reconstructed value and the interval -/

/-- The density attached to a b-jet object whose parameters are all zero is 0. -/
theorem support_density_zeroObject_bReco (TM : TMath α) (P : TFParams α) (pt : α)
    (r g : Nat → α) :
    support_density TM P (some (zeroObject pt)) TFType.bReco r g = Except.ok 0 := by
  simp [support_density, transfer_function2, transfer_function_reco, double_gaussian, zeroObject]

/-- The value of `get_support` for a b-jet object with all-zero parameters: one
step down and one step up, then the floor MB. -/
theorem get_support_zeroObject_bReco [FloorRing α] (TM : TMath α) (P : TFParams α) (fuel : Nat)
    (e_rec eta_rec pt alpha : α) (halpha : alpha ≤ 1) (ha : -1 < alpha) (hrec : 2.5 ≤ e_rec) :
    get_support TM P (fuel + 2) (arr2 e_rec eta_rec) TFType.bReco alpha (some (zeroObject pt)) =
      some (Except.ok (max (e_rec - 2.5) P.MB, e_rec + 2.5)) := by
  have hthr : (0 : α) ≤ (1 - alpha) / 2 := by linarith
  have h1 : (1 : α) > (1 - alpha) / 2 := by linarith
  have hpos : e_rec > 0 := by
    have : (0 : α) < 2.5 := by norm_num
    linarith
  have hlow := support_low_inner_zero (support_density TM P (some (zeroObject pt)) TFType.bReco)
    ((1 - alpha) / 2) e_rec eta_rec e_rec hthr (support_density_zeroObject_bReco TM P pt) 500 0
  have hhigh := support_high_inner_zero (support_density TM P (some (zeroObject pt)) TFType.bReco)
    ((1 - alpha) / 2) e_rec eta_rec e_rec hthr (support_density_zeroObject_bReco TM P pt) 500 0
  have h0 : ¬ ((0 : α) > (1 - alpha) / 2) := not_lt.mpr hthr
  have hl : ¬ (e_rec - 2.5 < 0) := by linarith
  have hne : (TFType.bReco = TFType.MET) = False := by simp
  have h10 : ((1 : Nat) = 0) = False := by simp
  simp only [get_support, get_support_energy, arr2, hne, if_false, if_true, h10]
  rw [support_low, support_high]
  simp only [h1, hpos, and_self, if_true, hlow, hhigh]
  rw [support_low, support_high]
  simp only [h0, false_and, if_false, hl]

/-- C33 (counterexample): for a b-jet object with all-zero parameters, the
reconstructed energy 2.5 >= 0, the confidence level 0.95 and MB = 4.8,
`get_support` returns the interval (4.8, 5): the lower bound is the mass floor
and lies above the reconstructed energy. -/
theorem get_support_floor_above_reconstructed :
    get_support TMathReal (exampleParams Real.pi 25) 2 (arr2 2.5 0) TFType.bReco 0.95
        (some (zeroObject 2.5)) = some (Except.ok (4.8, 5)) ∧
      ¬ ((4.8 : ℝ) ≤ 2.5) := by
  have h := get_support_zeroObject_bReco TMathReal (exampleParams Real.pi 25) 0 2.5 0 2.5 0.95
    (by norm_num) (by norm_num) (by norm_num)
  refine ⟨?_, by norm_num⟩
  rw [h]
  have hmax : max ((2.5 : ℝ) - 2.5) (exampleParams Real.pi (25 : ℝ)).MB = 4.8 := by
    have : (exampleParams Real.pi (25 : ℝ)).MB = 4.8 := rfl
    rw [this, max_eq_right (by norm_num)]
  have hsum : (2.5 : ℝ) + 2.5 = 5 := by norm_num
  rw [hmax, hsum]

/-- C33 (amended): for every category other than MET, reconstructed energy
e_rec >= 0 and confidence level for which `get_support` returns an interval
(low, high), the upper bound is at least e_rec and the lower bound is at most
the larger of e_rec and the mass floor (MB for bReco, MQ otherwise): the
interval contains the reconstructed value whenever e_rec is at least the mass
floor. -/
theorem get_support_contains_reconstructed [FloorRing α] (TM : TMath α) (P : TFParams α)
    (fuel : Nat) (y : Nat → α) (type : TFType) (alpha : α) (obj : Option (Object α))
    (low high : α) (htype : type ≠ TFType.MET) (hrec : 0 ≤ y 0)
    (h : get_support TM P fuel y type alpha obj = some (Except.ok (low, high))) :
    low ≤ max (y 0) (if type = TFType.bReco then P.MB else P.MQ) ∧ y 0 ≤ high ∧
      ((if type = TFType.bReco then P.MB else P.MQ) ≤ y 0 → low ≤ y 0 ∧ y 0 ≤ high) := by
  simp only [get_support, htype, if_false, get_support_energy] at h
  cases hl : support_low (support_density TM P obj type) ((1 - alpha) / 2) (y 0) (y 1) fuel
      (y 0) 1 with
  | none => simp [hl] at h
  | some r =>
    cases r with
    | error e => simp [hl] at h
    | ok l =>
      cases hh : support_high (support_density TM P obj type) ((1 - alpha) / 2) (y 0) (y 1)
          fuel (y 0) 1 with
      | none => simp [hl, hh] at h
      | some s =>
        cases s with
        | error e => simp [hl, hh] at h
        | ok u =>
          simp only [hl, hh, Option.some.injEq, Except.ok.injEq, Prod.mk.injEq] at h
          obtain ⟨h1, h2⟩ := h
          subst h1
          subst h2
          have hle : l ≤ y 0 := support_low_le _ _ _ _ fuel _ _ l hl
          have hge : y 0 ≤ u := support_high_ge _ _ _ _ fuel _ _ u hh
          have hcl : (if l < 0 then 0 else l) ≤ y 0 := by
            split_ifs
            · exact hrec
            · exact hle
          have hlow : max (if l < 0 then 0 else l) (if type = TFType.bReco then P.MB else P.MQ) ≤
              max (y 0) (if type = TFType.bReco then P.MB else P.MQ) :=
            max_le_max hcl (le_refl _)
          refine ⟨hlow, hge, fun hfloor => ⟨?_, hge⟩⟩
          exact max_le hcl hfloor

/-- Witness for `get_support_contains_reconstructed`: a light-jet object with
all-zero parameters at 100 GeV and the confidence level 0.95, whose interval is
(97.5, 102.5). -/
theorem get_support_contains_reconstructed_witness :
    (100 - 2.5 : ℝ) ⊔ (exampleParams Real.pi 25).MQ ≤
        max (arr2 (100 : ℝ) 0 0) (if TFType.qReco = TFType.bReco
          then (exampleParams Real.pi (25 : ℝ)).MB else (exampleParams Real.pi (25 : ℝ)).MQ) ∧
      arr2 (100 : ℝ) 0 0 ≤ 100 + 2.5 ∧
      ((if TFType.qReco = TFType.bReco then (exampleParams Real.pi (25 : ℝ)).MB
          else (exampleParams Real.pi (25 : ℝ)).MQ) ≤ arr2 (100 : ℝ) 0 0 →
        (100 - 2.5 : ℝ) ⊔ (exampleParams Real.pi 25).MQ ≤ arr2 (100 : ℝ) 0 0 ∧
          arr2 (100 : ℝ) 0 0 ≤ 100 + 2.5) :=
  get_support_contains_reconstructed TMathReal (exampleParams Real.pi 25) 2 (arr2 100 0)
    TFType.qReco 0.95 (some (zeroObject 100)) _ _ (by simp) (by simp [arr2])
    (get_support_zeroObject TMathReal _ 0 100 0 100 0.95 (by norm_num) (by norm_num)
      (by norm_num))

/-! ### Permutations: the number of records -/

/-- The keys of the count table are the defined topologies. -/
theorem claimedCountTable_keys : claimedCountTable.map Prod.fst = definedTopologies := by
  decide

/-- Every table has the number of records that the count table lists. -/
theorem tables_count : ∀ t ∈ definedTopologies,
    (get_permutations t.1 t.2.1 t.2.2).perms.length = claimedCount t.1 t.2.1 t.2.2 := by
  decide

/-- C34: the number of records returned by `get_permutations(nb, nq, lost)` is
the one listed per topology key — (4,4): [] 72, [1] 144, [0,1] 72, [1,4] 144,
[0,1,3,4] 12, [0,1,3,4,2] 12; (3,5): [2] 90, [7] 180, [1,2] 90, [0,1,3,4,2] 3;
(4,3): [1] 36, [0,1] 36, [1,4] 72, [0,1,3,4] 12, [0,1,3,4,2] 12; (3,4): [2] 18,
[7] 36, [1,2] 36, [0,1,3,4,2] 3; (4,5): [] 360, [1] 360, [0,1] 120, [1,4] 240,
[0,1,3,4] 12, [0,1,3,4,2] 12 — and 0 for every other input. -/
theorem get_permutations_count (nb nq : Nat) (lost : List Nat) :
    (get_permutations nb nq lost).perms.length = claimedCount nb nq lost := by
  by_cases h : supported nb nq lost
  · exact tables_count (nb, nq, lost) h
  · have hperm : (get_permutations nb nq lost).perms = [] :=
      get_permutations_unsupported_ind (fun o => o.perms = []) nb nq lost h rfl
        (fun _ _ => rfl)
    have hnone : claimedCountTable.lookup (nb, nq, lost) = none := by
      rw [List.lookup_eq_none_iff]
      intro p hp
      have hmem : p.1 ∈ claimedCountTable.map Prod.fst := List.mem_map_of_mem _ hp
      rw [claimedCountTable_keys] at hmem
      rw [bne_iff_ne]
      intro heq
      rw [← heq] at hmem
      exact h hmem
    rw [hperm, claimedCount, hnone]
    rfl

/-! ### Event shape: the triples of `getMaxPTSame` -/

/-- For every container of at least three elements the loops of `getMaxPTSame`
visit the index triple (0, 2, 2), which names the third element twice. -/
theorem getMaxPTSame_triples_repeat (n : Nat) (hn : 3 ≤ n) :
    (0, 2, 2) ∈ getMaxPTSame_triples n := by
  simp only [getMaxPTSame_triples, List.mem_flatMap, List.mem_range, List.mem_map,
    List.mem_range', Prod.mk.injEq]
  refine ⟨0, by omega, 2, ⟨1, by omega, by omega⟩, 2, ⟨0, by omega, by omega⟩, rfl, rfl, rfl⟩

/-- C40 (the code at the failing input): for the container of the three
momenta (px, E) = (1, 1), (-5, 5), (5, 5) the loops visit the index triples
(0, 1, 2) and (0, 2, 2); the second names the third element twice and has the
transverse momentum 11, which `getMaxPTSame` returns, while the only triple of
three different elements has the transverse momentum 1. -/
theorem getMaxPTSame_counts_element_twice :
    getMaxPTSame_triples 3 = [(0, 1, 2), (0, 2, 2)] ∧
      (getMaxPTSame TMathReal
        [(⟨1, 0, 0, 1⟩ : LV ℝ), ⟨-5, 0, 0, 5⟩, ⟨5, 0, 0, 5⟩]).maxPT = 11 ∧
      LV.Pt TMathReal
        (((⟨1, 0, 0, 1⟩ : LV ℝ).add ⟨-5, 0, 0, 5⟩).add ⟨5, 0, 0, 5⟩) = 1 ∧
      LV.Pt TMathReal
        (((⟨1, 0, 0, 1⟩ : LV ℝ).add ⟨5, 0, 0, 5⟩).add ⟨5, 0, 0, 5⟩) = 11 := by
  have ht : getMaxPTSame_triples 3 = [(0, 1, 2), (0, 2, 2)] := by decide
  have h1 : Real.sqrt ((1 : ℝ) * 1) = 1 := Real.sqrt_mul_self (by norm_num)
  have h11 : Real.sqrt ((11 : ℝ) * 11) = 11 := Real.sqrt_mul_self (by norm_num)
  have hp1 : LV.Pt TMathReal
      (((⟨1, 0, 0, 1⟩ : LV ℝ).add ⟨-5, 0, 0, 5⟩).add ⟨5, 0, 0, 5⟩) = 1 := by
    simp only [LV.Pt, LV.add, TMathReal]
    norm_num
  have hp2 : LV.Pt TMathReal
      (((⟨1, 0, 0, 1⟩ : LV ℝ).add ⟨5, 0, 0, 5⟩).add ⟨5, 0, 0, 5⟩) = 11 := by
    simp only [LV.Pt, LV.add, TMathReal]
    rw [show ((1 : ℝ) + 5 + 5) * (1 + 5 + 5) + (0 + 0 + 0) * (0 + 0 + 0) = 11 * 11 by norm_num]
    exact h11
  refine ⟨ht, ?_, hp1, hp2⟩
  have hlen : ([(⟨1, 0, 0, 1⟩ : LV ℝ), ⟨-5, 0, 0, 5⟩, ⟨5, 0, 0, 5⟩]).length = 3 := rfl
  simp only [getMaxPTSame, hlen, ht, List.foldl_cons, List.foldl_nil, List.getD_cons_zero,
    List.getD_cons_succ, hp1, hp2]
  norm_num

end MEM
